import Mathlib

/-!
# Solar System 3D: the tour, the animation loop and the camera of `src/main.js`

A shallow embedding of the script's global state and of the functions that
read and write it.

Conventions of the embedding.

* JavaScript numbers are the elements of a linearly ordered field `α`
  (exact arithmetic: rounding, infinities and NaN are not represented).
  The definitions are executable at `α = ℚ`; statements that need the values
  of the trigonometric functions are made at `α = ℝ`.
* The `Math` object is a parameter (`JSMath`), as is the descriptor table
  `planetData`, which the script reads but does not define.
* A thrown `TypeError` is a `Result.threw` carrying the globals as they
  stand when the exception leaves the function.
* The DOM is reduced to what the script reads back or what a property names:
  the label of the tour button, the `disabled` flag of the orbit slider, and
  of the planet labels their keys and whether they are shown.
* `THREE.OrbitControls` is library code. Its method `update()`, which
  `animate` calls last, is a field of the globals (`controlsUpdate`): the
  properties of a frame hold for every such function. Where a statement needs
  a particular one it is `orbitControlsUpdate`, the distance limit with the
  `minDistance` and `maxDistance` that `init()` sets.
-/

namespace SolarSystem

/-! ## Values -/

/-- Three coordinates, as `THREE.Vector3`. -/
structure Vec3 (α : Type) where
  x : α
  y : α
  z : α
deriving DecidableEq, Repr

/-- The members of the JavaScript `Math` object that the script calls. -/
structure JSMath (α : Type) where
  cos : α → α
  sin : α → α
  PI : α

/-- An entry of the descriptor table `planetData` (the numeric fields the
script reads from it). -/
structure Descriptor (α : Type) where
  size : α
  orbitRadius : α
  orbitSpeed : α
  rotationSpeed : α
deriving DecidableEq, Repr

/-- The `data` object of a registry entry: the fields `animate` reads. For the
sun and the planets it is the descriptor, for the asteroid belt the literal
`{ rotationSpeed: 0.001, orbitSpeed: 0, orbitRadius: 0 }`. -/
structure BodyData (α : Type) where
  orbitRadius : α
  orbitSpeed : α
  rotationSpeed : α
deriving DecidableEq, Repr

/-- One Galilean moon: `{ mesh, group, data }` reduced to the two rotations
and `data.speed`. -/
structure MoonObj (α : Type) where
  groupRotationY : α
  meshRotationY : α
  speed : α
deriving DecidableEq, Repr

/-- A value of the registry `planets`. `planetKey` is `mesh.userData.planetKey`
(undefined on the asteroid belt), `angle` is undefined on the sun and on the
belt, `clouds` and `moonOrbit` hold the `rotation.y` of the optional children. -/
structure Body (α : Type) where
  meshPosition : Vec3 α
  meshRotationY : α
  planetKey : Option String
  data : BodyData α
  angle : Option α
  clouds : Option α
  moonOrbit : Option α
  moons : Option (List (MoonObj α))
deriving DecidableEq, Repr

/-- The variables that the closure `animateCamera` captures in
`updateCameraForPlanet(planetKey, true)`, with its counter `progress`. -/
structure Transition (α : Type) where
  startPosition : Vec3 α
  startTarget : Vec3 α
  cameraTarget : Vec3 α
  targetPosition : Vec3 α
  progress : α
deriving DecidableEq, Repr

/-- The tour globals `isTouring`, `tourIndex`, `tourInterval` and the timer
table of the host: the handles of the pending `setTimeout(nextPlanet, 8000)`
calls and the next fresh handle. -/
structure Tour where
  isTouring : Bool
  tourIndex : Nat
  tourInterval : Option Nat
  timers : List Nat
  nextHandle : Nat
deriving DecidableEq, Repr

/-- The globals of the script. `transitions` are the `animateCamera` closures
waiting for their next animation frame, oldest first; `labels` holds the
`key` of each entry of the array `labels`, in order. `controlsUpdate` stands
for the method `controls.update()` of the `THREE.OrbitControls` object, which
is library code: given `camera.position` and `controls.target` it returns the
two as the call leaves them. It is a function of these two because the model
has none of the pointer and wheel input that the controls handle themselves,
so their own state is at rest. -/
structure World (α : Type) where
  planets : List (String × Body α)
  selectedPlanet : Option String
  orbitSpeedMultiplier : α
  rotationSpeedMultiplier : α
  isRealTime : Bool
  orbitSpeedDisabled : Bool
  tour : Tour
  startTourText : String
  cameraPosition : Vec3 α
  controlsTarget : Vec3 α
  transitions : List (Transition α)
  labels : List String
  showLabels : Bool
  controlsUpdate : Vec3 α → Vec3 α → Vec3 α × Vec3 α

/-- How a call ends: normally, or by a thrown `TypeError`. -/
inductive Result (σ : Type) where
  | ok : σ → Result σ
  | threw : σ → Result σ
deriving DecidableEq, Repr

/-- The globals a call leaves behind. -/
def Result.state {σ : Type} : Result σ → σ
  | .ok s => s
  | .threw s => s

/-- Whether the call ended normally. -/
def Result.isOk {σ : Type} : Result σ → Bool
  | .ok _ => true
  | .threw _ => false

section Code

variable {α : Type} [LinearOrderedField α]

/-! ## Vectors -/

/-- `new THREE.Vector3().addVectors(a, b)`. -/
def Vec3.addVectors (a b : Vec3 α) : Vec3 α :=
  ⟨a.x + b.x, a.y + b.y, a.z + b.z⟩

/-- `v.lerp(target, alpha)`: `this.x += (v.x - this.x) * alpha`, and so on. -/
def Vec3.lerp (v target : Vec3 α) (alpha : α) : Vec3 α :=
  ⟨v.x + (target.x - v.x) * alpha, v.y + (target.y - v.y) * alpha,
    v.z + (target.z - v.z) * alpha⟩

/-- `r.lerpVectors(v1, v2, alpha)`: `this.x = v1.x + (v2.x - v1.x) * alpha`. -/
def Vec3.lerpVectors (v1 v2 : Vec3 α) (alpha : α) : Vec3 α :=
  ⟨v1.x + (v2.x - v1.x) * alpha, v1.y + (v2.y - v1.y) * alpha,
    v1.z + (v2.z - v1.z) * alpha⟩

/-- `easeOutCubic(t) = 1 - Math.pow(1 - t, 3)`. -/
def easeOutCubic (t : α) : α :=
  1 - (1 - t) ^ 3

/-- The JavaScript expression `v || d` on a number that may be undefined: `d`
when `v` is undefined or zero, `v` otherwise. -/
def jsOr (v : Option α) (d : α) : α :=
  match v with
  | none => d
  | some x => if x = 0 then d else x

/-! ## Camera -/

/-- The vector `cameraOffset` of `updateCameraForPlanet`: fixed for the sun,
turned by `Math.PI * 0.75` from the orbit angle (`planet.angle || 0`) for any
other key. -/
def cameraOffset (m : JSMath α) (planetKey : String) (planet : Body α)
    (data : Descriptor α) : Vec3 α :=
  let distance := data.size * 8
  if planetKey = "sun" then
    ⟨distance, distance * 0.5, distance⟩
  else
    let angle := jsOr planet.angle 0
    let viewAngle := angle + m.PI * 0.75
    ⟨m.cos viewAngle * distance, distance * 0.4, m.sin viewAngle * distance⟩

/-- One call of the closure `animateCamera`: the camera after it, and the
closure to run on the next frame when it calls `requestAnimationFrame`. -/
def animateCamera (t : Transition α) (w : World α) :
    World α × Option (Transition α) :=
  let progress := t.progress + 0.02
  if progress ≥ 1 then
    ({ w with cameraPosition := t.cameraTarget, controlsTarget := t.targetPosition }, none)
  else
    let eased := easeOutCubic progress
    ({ w with
        cameraPosition := Vec3.lerpVectors t.startPosition t.cameraTarget eased
        controlsTarget := Vec3.lerpVectors t.startTarget t.targetPosition eased },
      some { t with progress := progress })

/-- The function `updateCameraForPlanet(planetKey, isInitial)`. The world
position of a mesh is its own position: the sun is added to the scene and a
planet to a group that is never moved. An undefined key finds no entry. With
`isInitial` the closure is built and called once; what it schedules is appended
to `transitions`. -/
def updateCameraForPlanet (m : JSMath α) (planetData : String → Option (Descriptor α))
    (w : World α) (planetKey : Option String) (isInitial : Bool) : Result (World α) :=
  match planetKey with
  | none => .ok w
  | some key =>
    match w.planets.lookup key with
    | none => .ok w
    | some planet =>
      let targetPosition := planet.meshPosition
      match planetData key with
      | none => .threw w
      | some data =>
        let cameraTarget := Vec3.addVectors targetPosition (cameraOffset m key planet data)
        if isInitial then
          let t : Transition α :=
            { startPosition := w.cameraPosition
              startTarget := w.controlsTarget
              cameraTarget := cameraTarget
              targetPosition := targetPosition
              progress := 0 }
          match animateCamera t w with
          | (w1, none) => .ok w1
          | (w1, some t1) => .ok { w1 with transitions := w1.transitions ++ [t1] }
        else
          .ok { w with
            cameraPosition := Vec3.lerp w.cameraPosition cameraTarget 0.05
            controlsTarget := Vec3.lerp w.controlsTarget targetPosition 0.1 }

/-- The function `selectPlanet(planetKey)`: the selection is stored first; the
info panel is filled from `planetData[planetKey]`, which throws when the table
has no such entry; then the initial camera transition starts. -/
def selectPlanet (m : JSMath α) (planetData : String → Option (Descriptor α))
    (w : World α) (planetKey : Option String) : Result (World α) :=
  let w1 := { w with selectedPlanet := planetKey }
  match planetKey.bind planetData with
  | none => .threw w1
  | some _ => updateCameraForPlanet m planetData w1 planetKey true

/-! ## Tour -/

/-- The array `planetKeys` of `startTour`. -/
def tourKeys : List String :=
  ["sun", "mercury", "venus", "earth", "mars", "jupiter", "saturn", "uranus", "neptune"]

/-- The array `planetKeys` of `createPlanets`: the keys under which the scene
builder stores a planet, each with an orbit angle. -/
def planetKeys : List String :=
  ["mercury", "venus", "earth", "mars", "jupiter", "saturn", "uranus", "neptune"]

/-- The label the tour button shows while no tour runs. -/
def startLabel : String := "🚀 Start Tour"

/-- The label the tour button shows while a tour runs. -/
def stopLabel : String := "⏹ Stop Tour"

/-- The closure `nextPlanet` of `startTour`. -/
def nextPlanet (m : JSMath α) (planetData : String → Option (Descriptor α))
    (w : World α) : Result (World α) :=
  if w.tour.isTouring = false then .ok w
  else if w.tour.tourIndex ≥ tourKeys.length then
    .ok { w with tour := { w.tour with isTouring := false }, startTourText := startLabel }
  else
    match selectPlanet m planetData w tourKeys[w.tour.tourIndex]? with
    | .threw w1 => .threw w1
    | .ok w1 =>
      .ok { w1 with tour :=
        { w1.tour with
          tourIndex := w1.tour.tourIndex + 1
          tourInterval := some w1.tour.nextHandle
          timers := w1.tour.timers ++ [w1.tour.nextHandle]
          nextHandle := w1.tour.nextHandle + 1 } }

/-- The function `startTour()`. -/
def startTour (m : JSMath α) (planetData : String → Option (Descriptor α))
    (w : World α) : Result (World α) :=
  if w.tour.isTouring then .ok w
  else
    nextPlanet m planetData
      { w with
        tour := { w.tour with isTouring := true, tourIndex := 0 }
        startTourText := stopLabel }

/-- `clearTimeout(handle)`: the handle, when defined, is no longer pending. -/
def clearTimeout (handle : Option Nat) (timers : List Nat) : List Nat :=
  match handle with
  | none => timers
  | some h => timers.filter (fun k => k ≠ h)

/-- The function `stopTour()`. -/
def stopTour (w : World α) : World α :=
  { w with
    tour := { w.tour with
      isTouring := false
      timers := clearTimeout w.tour.tourInterval w.tour.timers }
    startTourText := startLabel }

/-- The host fires the timer `handle`: a pending handle leaves the table and
`nextPlanet` runs; a handle that is not pending fires nothing. -/
def fireTimer (m : JSMath α) (planetData : String → Option (Descriptor α))
    (handle : Nat) (w : World α) : Result (World α) :=
  if handle ∈ w.tour.timers then
    nextPlanet m planetData
      { w with tour := { w.tour with timers := w.tour.timers.filter (fun k => k ≠ handle) } }
  else .ok w

/-! ## Real-time scale -/

/-- The table `orbitalPeriods`. -/
def orbitalPeriods (key : String) : Option α :=
  if key = "mercury" then some 88
  else if key = "venus" then some 225
  else if key = "earth" then some 365.25
  else if key = "mars" then some 687
  else if key = "jupiter" then some 4333
  else if key = "saturn" then some 10759
  else if key = "uranus" then some 30687
  else if key = "neptune" then some 60190
  else none

/-- The function `toggleRealTime(enabled)`. -/
def toggleRealTime (enabled : Bool) (w : World α) : World α :=
  if enabled then
    { w with isRealTime := enabled, orbitSpeedMultiplier := 0.5, orbitSpeedDisabled := true }
  else
    { w with isRealTime := enabled, orbitSpeedMultiplier := 1, orbitSpeedDisabled := false }

/-! ## Event listeners -/

/-- The `input` listener of `orbitSpeed`; `value` is the number that
`parseFloat(e.target.value)` reads. -/
def orbitSpeedInput (value : α) (w : World α) : World α :=
  { w with orbitSpeedMultiplier := value }

/-- The `input` listener of `rotationSpeed`; `value` is the number that
`parseFloat(e.target.value)` reads. -/
def rotationSpeedInput (value : α) (w : World α) : World α :=
  { w with rotationSpeedMultiplier := value }

/-- The value `dayOfYear` of the date listener, from `date.getTime()` and the
time of `new Date(date.getFullYear(), 0, 0)`, both in milliseconds. -/
def dayOfYear (time yearStart : Int) : Int :=
  ⌊(((time - yearStart : Int) : ℚ)) / 1000 / 60 / 60 / 24⌋

/-- What the date listener does to the entry stored under `key`. -/
def setAngleFromDay (m : JSMath α) (day : Int) (key : String) (planet : Body α) : Body α :=
  if key = "sun" ∨ key = "asteroids" then planet
  else
    let period := jsOr (orbitalPeriods key) 365
    { planet with angle := some (((day : α) / period) * m.PI * 2) }

/-- The `change` listener of `datePicker`. `time` is `date.getTime()`,
undefined for an invalid date, and `yearStart` the time of
`new Date(date.getFullYear(), 0, 0)`. -/
def dateChange (m : JSMath α) (time : Option Int) (yearStart : Int) (w : World α) : World α :=
  match time with
  | none => w
  | some t =>
    { w with planets :=
        w.planets.map (fun e => (e.1, setAngleFromDay m (dayOfYear t yearStart) e.1 e.2)) }

/-- The `click` listener of the tour button. -/
def tourButton (m : JSMath α) (planetData : String → Option (Descriptor α))
    (w : World α) : Result (World α) :=
  if w.tour.isTouring then .ok (stopTour w) else startTour m planetData w

/-- The `click` listener of a `.nav-item`; `planetKey` is `item.dataset.planet`. -/
def navClick (m : JSMath α) (planetData : String → Option (Descriptor α))
    (planetKey : Option String) (w : World α) : Result (World α) :=
  selectPlanet m planetData (if w.tour.isTouring then stopTour w else w) planetKey

/-- The `click` listener of the canvas in `setupRaycaster`. `intersects` lists,
nearest first, `object.userData.planetKey` of the objects the ray hits. -/
def canvasClick (m : JSMath α) (planetData : String → Option (Descriptor α))
    (intersects : List (Option String)) (w : World α) : Result (World α) :=
  match intersects with
  | [] => .ok w
  | planetKey :: _ => selectPlanet m planetData w planetKey

/-- The `click` listener of `resetCamera`. -/
def resetCamera (w : World α) : World α :=
  let w1 := if w.tour.isTouring then stopTour w else w
  { w1 with
    cameraPosition := ⟨100, 80, 150⟩
    controlsTarget := ⟨0, 0, 0⟩
    selectedPlanet := none }

/-- The `click` listener of `closePanel`. -/
def closePanel (w : World α) : World α :=
  let w1 := if w.tour.isTouring then stopTour w else w
  { w1 with selectedPlanet := none }

/-- The `click` listener of `toggleLabels`. -/
def toggleLabels (w : World α) : World α :=
  { w with showLabels := !w.showLabels }

/-! ## Animation loop -/

/-- The angle `animate` adds to `planet.angle` in one frame. -/
def orbitIncrement (key : String) (data : BodyData α) (isRealTime : Bool)
    (orbitSpeedMultiplier delta : α) : α :=
  if isRealTime then
    let period := jsOr (orbitalPeriods key) 365
    let speed := (365.25 / period) * 0.01
    speed * orbitSpeedMultiplier * 0.1
  else
    data.orbitSpeed * orbitSpeedMultiplier * delta * 10

/-- The body of the `forEach` of `animate` for the entry stored under `key`.
Where `planet.angle` is undefined JavaScript stores NaN in the angle and in
the position; no entry the script builds reaches that case (only the sun and
the belt lack an angle), and here the angle stays undefined and the position
is left as it is. -/
def animateBody (m : JSMath α) (isRealTime : Bool) (orbitSpeedMultiplier
    rotationSpeedMultiplier delta : α) (key : String) (planet : Body α) : Body α :=
  if key = "sun" then planet
  else if key = "asteroids" then
    { planet with meshRotationY := planet.meshRotationY + 0.0005 * orbitSpeedMultiplier }
  else
    let data := planet.data
    let angle := planet.angle.map
      (fun a => a + orbitIncrement key data isRealTime orbitSpeedMultiplier delta)
    { planet with
      angle := angle
      meshPosition :=
        match angle with
        | none => planet.meshPosition
        | some a =>
          ⟨m.cos a * data.orbitRadius, planet.meshPosition.y, m.sin a * data.orbitRadius⟩
      meshRotationY := planet.meshRotationY + data.rotationSpeed * rotationSpeedMultiplier
      clouds := planet.clouds.map (fun r => r + 0.005 * rotationSpeedMultiplier)
      moonOrbit := planet.moonOrbit.map (fun r => r + 0.02 * orbitSpeedMultiplier)
      moons :=
        if key = "jupiter" then
          planet.moons.map (fun ms => ms.map (fun moonObj =>
            { moonObj with
              groupRotationY := moonObj.groupRotationY + moonObj.speed * orbitSpeedMultiplier
              meshRotationY := moonObj.meshRotationY + 0.01 }))
        else planet.moons }

/-- The sun entry after `planets.sun.mesh.rotation.y += ...`, other entries
as they are. -/
def rotateSun (rotation : α) (e : String × Body α) : String × Body α :=
  if e.1 = "sun" then (e.1, { e.2 with meshRotationY := e.2.meshRotationY + rotation }) else e

/-- The first statement of `animate`: `planets.sun.mesh.rotation.y +=
planetData.sun.rotationSpeed * rotationSpeedMultiplier` when the registry has
a sun; undefined when `planetData.sun` is missing and the read throws. -/
def turnSun (planetData : String → Option (Descriptor α)) (w : World α) :
    Option (World α) :=
  match w.planets.lookup "sun" with
  | none => some w
  | some _ =>
    match planetData "sun" with
    | none => none
    | some sunData =>
      some { w with planets :=
        w.planets.map (rotateSun (sunData.rotationSpeed * w.rotationSpeedMultiplier)) }

/-- The loop `Object.keys(planets).forEach(...)` of `animate`; the keys of an
object are distinct, so the entries are advanced one by one. -/
def advanceBodies (m : JSMath α) (delta : α) (w : World α) : World α :=
  { w with planets := w.planets.map (fun e =>
      (e.1, animateBody m w.isRealTime w.orbitSpeedMultiplier
        w.rotationSpeedMultiplier delta e.1 e.2)) }

/-- The statement `if (selectedPlanet && selectedPlanet !== 'sun')
updateCameraForPlanet(selectedPlanet, false)` of `animate`. -/
def followSelection (m : JSMath α) (planetData : String → Option (Descriptor α))
    (w : World α) : Result (World α) :=
  match w.selectedPlanet with
  | none => .ok w
  | some key =>
    if key ≠ "" ∧ key ≠ "sun" then updateCameraForPlanet m planetData w (some key) false
    else .ok w

/-- Whether the function `updateLabels()` ends normally. For each label it
returns at once while the labels are hidden and reads
`planetData[label.key].size` otherwise, which throws when the table has no
such entry; what it writes are style properties of the label elements, which
are outside the model. -/
def updateLabels (planetData : String → Option (Descriptor α)) (w : World α) : Bool :=
  w.labels.all (fun key => if w.showLabels then (planetData key).isSome else true)

/-- The end of `animate` after the follow step, which may have thrown:
`updateLabels()`, then `controls.update()`, then the rendering, which writes
no global. -/
def finishFrame (planetData : String → Option (Descriptor α)) :
    Result (World α) → Result (World α)
  | .threw w => .threw w
  | .ok w =>
    if updateLabels planetData w then
      .ok { w with
        cameraPosition := (w.controlsUpdate w.cameraPosition w.controlsTarget).1
        controlsTarget := (w.controlsUpdate w.cameraPosition w.controlsTarget).2 }
    else .threw w

/-- The function `animate()` for a frame whose `clock.getDelta()` is `delta`:
the sun turns, every entry is advanced, the camera follows a selection that is
neither empty nor the sun, the labels are placed and the controls updated. -/
def animate (m : JSMath α) (planetData : String → Option (Descriptor α))
    (delta : α) (w : World α) : Result (World α) :=
  match turnSun planetData w with
  | none => .threw w
  | some w1 => finishFrame planetData (followSelection m planetData (advanceBodies m delta w1))

/-- The pending `animateCamera` closures run once each, oldest first; those
that ask for another frame are pending again. -/
def runTransitions (w : World α) : World α :=
  w.transitions.foldl
    (fun acc t =>
      match animateCamera t acc with
      | (w1, none) => w1
      | (w1, some t1) => { w1 with transitions := w1.transitions ++ [t1] })
    { w with transitions := [] }

/-- One animation frame: `animate`, registered first, then the pending camera
closures. An exception in `animate` does not keep the closures from running. -/
def frame (m : JSMath α) (planetData : String → Option (Descriptor α))
    (delta : α) (w : World α) : World α :=
  runTransitions (animate m planetData delta w).state

/-! ## Runs -/

/-- The events whose listeners write the globals of the model: the page's
inputs, a tour timer that fires, and an animation frame. -/
inductive Event (α : Type) where
  | orbitSpeedInput (value : α)
  | rotationSpeedInput (value : α)
  | realTimeToggle (checked : Bool)
  | dateChange (time : Option Int) (yearStart : Int)
  | tourButton
  | navClick (planetKey : Option String)
  | canvasClick (intersects : List (Option String))
  | resetCamera
  | closePanel
  | toggleLabels
  | timer (handle : Nat)
  | frame (delta : α)

/-- The globals after the listener of an event has run. -/
def handle (m : JSMath α) (planetData : String → Option (Descriptor α))
    (w : World α) : Event α → World α
  | .orbitSpeedInput value => orbitSpeedInput value w
  | .rotationSpeedInput value => rotationSpeedInput value w
  | .realTimeToggle checked => toggleRealTime checked w
  | .dateChange time yearStart => dateChange m time yearStart w
  | .tourButton => (tourButton m planetData w).state
  | .navClick planetKey => (navClick m planetData planetKey w).state
  | .canvasClick intersects => (canvasClick m planetData intersects w).state
  | .resetCamera => resetCamera w
  | .closePanel => closePanel w
  | .toggleLabels => toggleLabels w
  | .timer h => (fireTimer m planetData h w).state
  | .frame delta => frame m planetData delta w

/-- The globals after a sequence of events. -/
def run (m : JSMath α) (planetData : String → Option (Descriptor α))
    (w : World α) (events : List (Event α)) : World α :=
  events.foldl (handle m planetData) w

/-- The timer the tour holds in `tourInterval` fires (8000 ms after it was set). -/
def fireTourTimer (m : JSMath α) (planetData : String → Option (Descriptor α))
    (w : World α) : World α :=
  match w.tour.tourInterval with
  | none => w
  | some h => (fireTimer m planetData h w).state

/-- The globals after `startTour()` and `n` firings of the tour timer. -/
def tourRun (m : JSMath α) (planetData : String → Option (Descriptor α))
    (w : World α) (n : Nat) : World α :=
  (fireTourTimer m planetData)^[n] (startTour m planetData w).state

/-! ## Scene builder -/

/-- The `data` object a registry entry of the sun or of a planet holds: the
descriptor itself, read through the fields `animate` uses. -/
def Descriptor.toBodyData (d : Descriptor α) : BodyData α :=
  ⟨d.orbitRadius, d.orbitSpeed, d.rotationSpeed⟩

/-- The assignment `planets[key] = body`: an existing property is replaced in
place, a new one comes last in `Object.keys(planets)`. -/
def assign (key : String) (body : Body α) :
    List (String × Body α) → List (String × Body α)
  | [] => [(key, body)]
  | e :: rest => if e.1 = key then (key, body) :: rest else e :: assign key body rest

/-- The function `createSun()`: the mesh is at the origin with
`userData = { planetKey: "sun" }`; reading `planetData.sun.size` throws when
the table has no sun. -/
def createSun (planetData : String → Option (Descriptor α))
    (planets : List (String × Body α)) : Option (List (String × Body α)) :=
  match planetData "sun" with
  | none => none
  | some sunData =>
    some (assign "sun"
      { meshPosition := ⟨0, 0, 0⟩
        meshRotationY := 0
        planetKey := some "sun"
        data := sunData.toBodyData
        angle := none
        clouds := none
        moonOrbit := none
        moons := none } planets)

/-- The `data.speed` of Io, Europa, Ganymede and Callisto in
`createGalileanMoons`. -/
def galileanSpeeds : List α := [0.04, 0.03, 0.02, 0.01]

/-- The list `planets.jupiter.moons` that `createGalileanMoons` fills;
`moonRandom i` is what `Math.random()` returns for the moon of index `i`. -/
def createGalileanMoons (m : JSMath α) (moonRandom : Nat → α) : List (MoonObj α) :=
  (galileanSpeeds.enum).map (fun e =>
    { groupRotationY := moonRandom e.1 * m.PI * 2, meshRotationY := 0, speed := e.2 })

/-- The function `createPlanet(key)`. The mesh is put at `x = data.orbitRadius`
with `userData = { planetKey: key }` and the entry gets the angle
`Math.random() * Math.PI * 2`, `random` being what `Math.random()` returns
there; the earth gets clouds when `data.cloudTexture` is set (`cloudTexture`)
and a moon orbit, jupiter its moons. Reading `data.size` throws when the
table has no entry for `key`. -/
def createPlanet (m : JSMath α) (planetData : String → Option (Descriptor α))
    (random : α) (moonRandom : Nat → α) (cloudTexture : Bool) (key : String)
    (planets : List (String × Body α)) : Option (List (String × Body α)) :=
  match planetData key with
  | none => none
  | some data =>
    some (assign key
      { meshPosition := ⟨data.orbitRadius, 0, 0⟩
        meshRotationY := 0
        planetKey := some key
        data := data.toBodyData
        angle := some (random * m.PI * 2)
        clouds := if key = "earth" ∧ cloudTexture = true then some 0 else none
        moonOrbit := if key = "earth" then some 0 else none
        moons := if key = "jupiter" then some (createGalileanMoons m moonRandom) else none }
      planets)

/-- The function `createPlanets()`: `createPlanet` for each of `planetKeys` in
turn, `random key` being the value `Math.random()` returns for that planet's
angle; an exception ends the loop. -/
def createPlanets (m : JSMath α) (planetData : String → Option (Descriptor α))
    (random : String → α) (moonRandom : Nat → α) (cloudTexture : Bool)
    (planets : List (String × Body α)) : Option (List (String × Body α)) :=
  planetKeys.foldl
    (fun acc key =>
      acc.bind (createPlanet m planetData (random key) moonRandom cloudTexture key))
    (some planets)

/-- The registry entry of `createAsteroidBelt()`: a `THREE.Points` object at
the origin, on which no `userData.planetKey` is set, with the literal data
`{ rotationSpeed: 0.001, orbitSpeed: 0, orbitRadius: 0 }`. -/
def asteroidBelt : Body α where
  meshPosition := ⟨0, 0, 0⟩
  meshRotationY := 0
  planetKey := none
  data := ⟨0, 0, 0.001⟩
  angle := none
  clouds := none
  moonOrbit := none
  moons := none

/-- The function `createAsteroidBelt()`, as far as the registry goes. -/
def createAsteroidBelt (planets : List (String × Body α)) : List (String × Body α) :=
  assign "asteroids" asteroidBelt planets

/-- The registry `init()` builds from the empty object: `createSun()`,
`createPlanets()`, `createAsteroidBelt()`; undefined when one of them throws
(then `init` reports the error and never starts `animate`). -/
def buildScene (m : JSMath α) (planetData : String → Option (Descriptor α))
    (random : String → α) (moonRandom : Nat → α) (cloudTexture : Bool) :
    Option (List (String × Body α)) :=
  ((createSun planetData []).bind
    (createPlanets m planetData random moonRandom cloudTexture)).map createAsteroidBelt

/-- The globals when `init()` has built the registry `planets` and before it
calls `animate()`: the initial values of the script's variables, the camera at
`(100, 80, 150)` and the controls aimed at the origin; a shown label for every
entry but the belt's (`createSun` and `createPlanet` call `createLabel`,
`createAsteroidBelt` does not); `controlsUpdate` is what `update()` of the
controls object that `init()` makes does. -/
def initialWorld (planets : List (String × Body α))
    (controlsUpdate : Vec3 α → Vec3 α → Vec3 α × Vec3 α) : World α where
  labels := (planets.map (fun e => e.1)).filter (fun key => key ≠ "asteroids")
  showLabels := true
  controlsUpdate := controlsUpdate
  planets := planets
  selectedPlanet := none
  orbitSpeedMultiplier := 1
  rotationSpeedMultiplier := 1
  isRealTime := false
  orbitSpeedDisabled := false
  tour := ⟨false, 0, none, [], 0⟩
  startTourText := startLabel
  cameraPosition := ⟨100, 80, 150⟩
  controlsTarget := ⟨0, 0, 0⟩
  transitions := []

/-- The array `planetMeshes` of the canvas listeners, given by what picking
reads from a hit: `userData.planetKey` of the mesh of every registry entry. -/
def planetMeshes (w : World α) : List (Option String) :=
  w.planets.map (fun e => e.2.planetKey)

/-- A canvas click whose ray hits, nearest first, the meshes stored under
`keys` in the registry. -/
def clickMeshes (m : JSMath α) (planetData : String → Option (Descriptor α))
    (keys : List String) (w : World α) : Result (World α) :=
  canvasClick m planetData
    (keys.filterMap (fun key => (w.planets.lookup key).map (fun planet => planet.planetKey))) w

/-- The globals after the frames whose `clock.getDelta()` values are
`deltas`, in order. -/
def framesAfter (m : JSMath α) (planetData : String → Option (Descriptor α))
    (w : World α) (deltas : List α) : World α :=
  deltas.foldl (fun acc delta => frame m planetData delta acc) w

/-- The closure `animateCamera` after it was called once in each of the states
`worlds`, in turn: its captured variables with the new `progress`, or
undefined once a call has not asked for another frame. -/
def closureAfter (t : Transition α) : List (World α) → Option (Transition α)
  | [] => some t
  | w :: worlds =>
    match (animateCamera t w).2 with
    | none => none
    | some t1 => closureAfter t1 worlds

/-! ## Predicates -/

/-- Every entry of the registry in the planet branch that has an angle sits at
`x = cos(angle) * orbitRadius`, `z = sin(angle) * orbitRadius`. -/
def OnOrbit (m : JSMath α) (planets : List (String × Body α)) : Prop :=
  ∀ (key : String) (planet : Body α) (a : α), (key, planet) ∈ planets →
    key ≠ "sun" → key ≠ "asteroids" → planet.angle = some a →
    planet.meshPosition.x = m.cos a * planet.data.orbitRadius ∧
      planet.meshPosition.z = m.sin a * planet.data.orbitRadius

/-- Every key of the tour has an entry in the descriptor table. -/
def TourData (pd : String → Option (Descriptor α)) : Prop :=
  ∀ key ∈ tourKeys, (pd key).isSome

/-- The tour runs, its index is `i + 1`, the timer it holds is pending, the
selection is the body under index `i` and the button offers to stop. -/
def Touring (i : Nat) (w : World α) : Prop :=
  w.tour.isTouring = true ∧ w.tour.tourIndex = i + 1 ∧
    (∃ h, w.tour.tourInterval = some h ∧ h ∈ w.tour.timers) ∧
    w.selectedPlanet = tourKeys[i]? ∧ w.startTourText = stopLabel

/-- The speed settings of two states agree: both multipliers, the real-time
flag and the `disabled` flag of the orbit slider. -/
def SameSettings (w w1 : World α) : Prop :=
  w1.orbitSpeedMultiplier = w.orbitSpeedMultiplier ∧
  w1.rotationSpeedMultiplier = w.rotationSpeedMultiplier ∧
  w1.isRealTime = w.isRealTime ∧ w1.orbitSpeedDisabled = w.orbitSpeedDisabled

/-- The value an input event delivers, when it is one, is not negative. -/
def NonnegInput : Event α → Prop
  | .orbitSpeedInput value => 0 ≤ value
  | .rotationSpeedInput value => 0 ≤ value
  | _ => True

end Code

/-! ## Sample data

Data on which the definitions run (at `α = ℚ`). The descriptor table of the
repository is not among the sources; the values below are stand-ins. -/

/-- A descriptor table with an entry for the sun and for each planet. -/
def sampleData (α : Type) [LinearOrderedField α] (key : String) : Option (Descriptor α) :=
  if key = "sun" then some ⟨10, 0, 0, 0.001⟩
  else if key = "mercury" then some ⟨1.5, 20, 0.04, 0.004⟩
  else if key = "venus" then some ⟨2.5, 30, 0.015, 0.002⟩
  else if key = "earth" then some ⟨2.8, 45, 0.01, 0.02⟩
  else if key = "mars" then some ⟨2, 70, 0.008, 0.018⟩
  else if key = "jupiter" then some ⟨7, 100, 0.002, 0.04⟩
  else if key = "saturn" then some ⟨6, 140, 0.0009, 0.038⟩
  else if key = "uranus" then some ⟨4, 180, 0.0004, 0.03⟩
  else if key = "neptune" then some ⟨4, 220, 0.0001, 0.032⟩
  else none

/-- An entry for the earth at angle 1, with clouds and a moon, in the place
that angle gives under `approxMath`. -/
def sampleEarth (α : Type) [LinearOrderedField α] : Body α where
  meshPosition := ⟨45 / 2, 0, 75 / 2⟩
  meshRotationY := 0
  planetKey := some "earth"
  data := ⟨45, 0.01, 0.02⟩
  angle := some 1
  clouds := some 0
  moonOrbit := some 0
  moons := none

/-- An entry for mercury at angle 0, where the cosine is 1 and the sine 0. -/
def sampleMercury (α : Type) [LinearOrderedField α] : Body α where
  meshPosition := ⟨20, 0, 0⟩
  meshRotationY := 0
  planetKey := some "mercury"
  data := ⟨20, 0.04, 0.004⟩
  angle := some 0
  clouds := none
  moonOrbit := none
  moons := none

/-- A registry with the sun, two planets and the asteroid belt. -/
def samplePlanets (α : Type) [LinearOrderedField α] : List (String × Body α) :=
  [("sun", ⟨⟨0, 0, 0⟩, 0, some "sun", ⟨0, 0, 0.001⟩, none, none, none, none⟩),
   ("mercury", sampleMercury α),
   ("earth", sampleEarth α),
   ("asteroids", ⟨⟨0, 0, 0⟩, 0, none, ⟨0, 0, 0.001⟩, none, none, none, none⟩)]

/-- The distance limit of `THREE.OrbitControls`, a stand-in for its method
`update()` (library code outside the sources) as the library documents it for
controls at rest: the camera keeps its direction from the target, its
distance from the target is brought into `[minDistance, maxDistance]`, and
the target stays. `sqrt` is `Math.sqrt`; `init()` sets the limits 20 and 1000. -/
def orbitControlsUpdate {α : Type} [LinearOrderedField α] (sqrt : α → α)
    (minDistance maxDistance : α) (position target : Vec3 α) : Vec3 α × Vec3 α :=
  let radius := sqrt ((position.x - target.x) ^ 2 + (position.y - target.y) ^ 2
    + (position.z - target.z) ^ 2)
  let clamped := max minDistance (min maxDistance radius)
  (⟨target.x + (position.x - target.x) * (clamped / radius),
    target.y + (position.y - target.y) * (clamped / radius),
    target.z + (position.z - target.z) * (clamped / radius)⟩, target)

/-- Sample globals over `samplePlanets`: the initial values of the script's
variables, a shown label for the sun and each planet, and controls whose
`update()` leaves camera and target where it finds them. -/
def sampleWorld (α : Type) [LinearOrderedField α] : World α where
  labels := ["sun", "mercury", "earth"]
  showLabels := true
  controlsUpdate := fun position target => (position, target)
  planets := samplePlanets α
  selectedPlanet := none
  orbitSpeedMultiplier := 1
  rotationSpeedMultiplier := 1
  isRealTime := false
  orbitSpeedDisabled := false
  tour := ⟨false, 0, none, [], 0⟩
  startTourText := startLabel
  cameraPosition := ⟨100, 80, 150⟩
  controlsTarget := ⟨0, 0, 0⟩
  transitions := []

/-- Sample globals in which mercury is followed from its own follow
destination: mercury selected, the orbit slider at 0 (so that mercury stays
where it is), no camera closure pending, the camera on mercury's destination
and the look-at target on mercury, as the last step of the selection's camera
transition leaves them, and controls with the distance limits 20 and 1000
that `init()` sets. -/
def sampleFollowWorld (α : Type) [LinearOrderedField α] (m : JSMath α) (sqrt : α → α) :
    World α :=
  { sampleWorld α with
    selectedPlanet := some "mercury"
    orbitSpeedMultiplier := 0
    cameraPosition := Vec3.addVectors (sampleMercury α).meshPosition
      (cameraOffset m "mercury" (sampleMercury α) ⟨1.5, 20, 0.04, 0.004⟩)
    controlsTarget := (sampleMercury α).meshPosition
    controlsUpdate := orbitControlsUpdate sqrt 20 1000 }

/-- A rational stand-in for `Math`: Taylor polynomials of degree two and three
and the approximation 355/113 of π. -/
def approxMath : JSMath ℚ where
  cos := fun x => 1 - x ^ 2 / 2
  sin := fun x => x - x ^ 3 / 6
  PI := 355 / 113

/-! # Properties -/

section Frames

variable {α : Type} [LinearOrderedField α]

/-- A step of the camera closure writes the camera only. -/
theorem animateCamera_frame (t : Transition α) (w : World α) :
    (animateCamera t w).1.tour = w.tour ∧
    (animateCamera t w).1.startTourText = w.startTourText ∧
    (animateCamera t w).1.selectedPlanet = w.selectedPlanet ∧
    (animateCamera t w).1.planets = w.planets ∧
    (animateCamera t w).1.orbitSpeedMultiplier = w.orbitSpeedMultiplier ∧
    (animateCamera t w).1.rotationSpeedMultiplier = w.rotationSpeedMultiplier ∧
    (animateCamera t w).1.isRealTime = w.isRealTime ∧
    (animateCamera t w).1.orbitSpeedDisabled = w.orbitSpeedDisabled ∧
    (animateCamera t w).1.transitions = w.transitions := by
  unfold animateCamera
  dsimp only
  split_ifs <;> simp

/-- The camera function writes the camera and the pending closures only. -/
theorem updateCamera_frame (m : JSMath α) (pd : String → Option (Descriptor α))
    (w : World α) (k : Option String) (b : Bool) :
    (updateCameraForPlanet m pd w k b).state.tour = w.tour ∧
    (updateCameraForPlanet m pd w k b).state.startTourText = w.startTourText ∧
    (updateCameraForPlanet m pd w k b).state.selectedPlanet = w.selectedPlanet ∧
    (updateCameraForPlanet m pd w k b).state.planets = w.planets ∧
    (updateCameraForPlanet m pd w k b).state.orbitSpeedMultiplier = w.orbitSpeedMultiplier ∧
    (updateCameraForPlanet m pd w k b).state.rotationSpeedMultiplier
      = w.rotationSpeedMultiplier ∧
    (updateCameraForPlanet m pd w k b).state.isRealTime = w.isRealTime ∧
    (updateCameraForPlanet m pd w k b).state.orbitSpeedDisabled = w.orbitSpeedDisabled := by
  unfold updateCameraForPlanet
  cases k with
  | none => simp [Result.state]
  | some key =>
    dsimp only
    cases w.planets.lookup key with
    | none => simp [Result.state]
    | some planet =>
      dsimp only
      cases pd key with
      | none => simp [Result.state]
      | some data =>
        dsimp only
        cases b with
        | false => simp [Result.state]
        | true =>
          simp only [if_true]
          generalize ht : (⟨w.cameraPosition, w.controlsTarget,
            Vec3.addVectors planet.meshPosition (cameraOffset m key planet data),
            planet.meshPosition, 0⟩ : Transition α) = t
          have h := animateCamera_frame t w
          rcases hac : animateCamera t w with ⟨w1, o⟩
          rw [hac] at h
          obtain ⟨h1, h2, h3, h4, h5, h6, h7, h8, -⟩ := h
          dsimp only at h1 h2 h3 h4 h5 h6 h7 h8
          cases o <;> simp [Result.state, h1, h2, h3, h4, h5, h6, h7, h8]

/-- Selecting stores the key and otherwise writes the camera only. -/
theorem selectPlanet_frame (m : JSMath α) (pd : String → Option (Descriptor α))
    (w : World α) (k : Option String) :
    (selectPlanet m pd w k).state.tour = w.tour ∧
    (selectPlanet m pd w k).state.startTourText = w.startTourText ∧
    (selectPlanet m pd w k).state.selectedPlanet = k ∧
    (selectPlanet m pd w k).state.planets = w.planets ∧
    (selectPlanet m pd w k).state.orbitSpeedMultiplier = w.orbitSpeedMultiplier ∧
    (selectPlanet m pd w k).state.rotationSpeedMultiplier = w.rotationSpeedMultiplier ∧
    (selectPlanet m pd w k).state.isRealTime = w.isRealTime ∧
    (selectPlanet m pd w k).state.orbitSpeedDisabled = w.orbitSpeedDisabled := by
  unfold selectPlanet
  dsimp only
  cases k.bind pd with
  | none => simp [Result.state]
  | some d =>
    dsimp only
    simpa using updateCamera_frame m pd { w with selectedPlanet := k } k true

/-- The camera function throws only where the descriptor table has no entry. -/
theorem updateCamera_isOk (m : JSMath α) (pd : String → Option (Descriptor α))
    (w : World α) (key : String) (b : Bool) (h : (pd key).isSome) :
    (updateCameraForPlanet m pd w (some key) b).isOk = true := by
  unfold updateCameraForPlanet
  dsimp only
  cases w.planets.lookup key with
  | none => rfl
  | some planet =>
    dsimp only
    cases hd : pd key with
    | none => simp [hd] at h
    | some data =>
      dsimp only
      cases b with
      | false => rfl
      | true =>
        simp only [if_true]
        split <;> rfl

/-- Selecting a key of the descriptor table ends normally. -/
theorem selectPlanet_isOk (m : JSMath α) (pd : String → Option (Descriptor α))
    (w : World α) (key : String) (h : (pd key).isSome) :
    (selectPlanet m pd w (some key)).isOk = true := by
  unfold selectPlanet
  dsimp only
  cases hd : pd key with
  | none => simp [hd] at h
  | some data =>
    simp only [Option.bind, hd]
    exact updateCamera_isOk m pd _ key true (by simp [hd])

end Frames

section TourLemmas

variable {α : Type} [LinearOrderedField α]

/-- A call of `nextPlanet` with the tour running and an index in range selects
the body under that index, advances the index and sets the timer. -/
theorem nextPlanet_advance (m : JSMath α) (pd : String → Option (Descriptor α))
    (hpd : TourData pd) (w : World α) (i : Nat) (hi : i < 9)
    (ht : w.tour.isTouring = true) (hidx : w.tour.tourIndex = i)
    (hl : w.startTourText = stopLabel) :
    Touring i (nextPlanet m pd w).state := by
  have hlen : tourKeys.length = 9 := rfl
  obtain ⟨key, hkey⟩ : ∃ key, tourKeys[i]? = some key :=
    ⟨tourKeys[i], List.getElem?_eq_getElem (by omega)⟩
  have hmem : key ∈ tourKeys := List.getElem?_mem hkey
  have hok := selectPlanet_isOk m pd w key (hpd key hmem)
  obtain ⟨f1, f2, f3, -⟩ := selectPlanet_frame m pd w (some key)
  unfold nextPlanet
  rw [if_neg (by simp [ht]), if_neg (by omega), hidx, hkey]
  cases hs : selectPlanet m pd w (some key) with
  | threw w1 => simp [hs, Result.isOk] at hok
  | ok w1 =>
    rw [hs] at f1 f2 f3
    simp only [Result.state] at f1 f2 f3 ⊢
    refine ⟨?_, ?_, ⟨w1.tour.nextHandle, rfl, by simp⟩, ?_, ?_⟩
    · simp [f1, ht]
    · simp [f1, hidx]
    · simp [f3, hkey]
    · simp [f2, hl]

/-- From idle, `startTour()` selects the first body and sets the timer. -/
theorem startTour_touring (m : JSMath α) (pd : String → Option (Descriptor α))
    (hpd : TourData pd) (w : World α) (hidle : w.tour.isTouring = false) :
    Touring 0 (startTour m pd w).state := by
  unfold startTour
  rw [if_neg (by simp [hidle])]
  exact nextPlanet_advance m pd hpd _ 0 (by omega) rfl rfl rfl

/-- A firing of the tour timer before the last body selects the next body. -/
theorem fireTourTimer_touring (m : JSMath α) (pd : String → Option (Descriptor α))
    (hpd : TourData pd) (w : World α) (i : Nat) (hi : i + 1 < 9) (h : Touring i w) :
    Touring (i + 1) (fireTourTimer m pd w) := by
  obtain ⟨ht, hidx, ⟨hd, hint, hmem⟩, -, hl⟩ := h
  unfold fireTourTimer fireTimer
  rw [hint]
  dsimp only
  rw [if_pos hmem]
  exact nextPlanet_advance m pd hpd _ (i + 1) hi ht hidx hl

/-- After `startTour()` and `n < 9` firings the tour is at body `n`. -/
theorem tourRun_touring (m : JSMath α) (pd : String → Option (Descriptor α))
    (hpd : TourData pd) (w : World α) (hidle : w.tour.isTouring = false) :
    ∀ n, n < 9 → Touring n (tourRun m pd w n) := by
  intro n
  induction n with
  | zero => intro _; exact startTour_touring m pd hpd w hidle
  | succ k ih =>
    intro hk
    have := fireTourTimer_touring m pd hpd _ k hk (ih (by omega))
    simpa [tourRun, Function.iterate_succ_apply'] using this

/-- The firing after the last body: nothing is selected, the tour is idle. -/
theorem fireTourTimer_finish (m : JSMath α) (pd : String → Option (Descriptor α))
    (w : World α) (h : Touring 8 w) :
    (fireTourTimer m pd w).tour.isTouring = false ∧
    (fireTourTimer m pd w).startTourText = startLabel ∧
    (fireTourTimer m pd w).tour.tourIndex = 9 ∧
    (fireTourTimer m pd w).selectedPlanet = w.selectedPlanet ∧
    (fireTourTimer m pd w).cameraPosition = w.cameraPosition ∧
    (fireTourTimer m pd w).controlsTarget = w.controlsTarget ∧
    (fireTourTimer m pd w).transitions = w.transitions ∧
    (fireTourTimer m pd w).tour.timers
      = w.tour.timers.filter (fun k => some k ≠ w.tour.tourInterval) := by
  obtain ⟨ht, hidx, ⟨hd, hint, hmem⟩, -, -⟩ := h
  have hlen : tourKeys.length = 9 := rfl
  unfold fireTourTimer fireTimer nextPlanet
  rw [hint]
  dsimp only
  rw [if_pos hmem, if_neg (by simp [ht]), if_pos (by omega)]
  simp [Result.state, hidx]

/-- The tour globals after a call of `nextPlanet` that selects a body. -/
theorem nextPlanet_tour (m : JSMath α) (pd : String → Option (Descriptor α))
    (hpd : TourData pd) (w : World α) (hi : w.tour.tourIndex < 9)
    (ht : w.tour.isTouring = true) :
    (nextPlanet m pd w).state.tour =
      { w.tour with
        tourIndex := w.tour.tourIndex + 1
        tourInterval := some w.tour.nextHandle
        timers := w.tour.timers ++ [w.tour.nextHandle]
        nextHandle := w.tour.nextHandle + 1 } := by
  have hlen : tourKeys.length = 9 := rfl
  obtain ⟨key, hkey⟩ : ∃ key, tourKeys[w.tour.tourIndex]? = some key :=
    ⟨tourKeys[w.tour.tourIndex], List.getElem?_eq_getElem (by omega)⟩
  have hok := selectPlanet_isOk m pd w key (hpd key (List.getElem?_mem hkey))
  obtain ⟨f1, -⟩ := selectPlanet_frame m pd w (some key)
  unfold nextPlanet
  rw [if_neg (by simp [ht]), if_neg (by omega), hkey]
  cases hs : selectPlanet m pd w (some key) with
  | threw w1 => simp [hs, Result.isOk] at hok
  | ok w1 =>
    rw [hs] at f1
    simp only [Result.state] at f1 ⊢
    rw [f1]

/-- The tour globals after `startTour()` on an idle tour. -/
theorem startTour_tour (m : JSMath α) (pd : String → Option (Descriptor α))
    (hpd : TourData pd) (w : World α) (hidle : w.tour.isTouring = false) :
    (startTour m pd w).state.tour =
      { isTouring := true
        tourIndex := 1
        tourInterval := some w.tour.nextHandle
        timers := w.tour.timers ++ [w.tour.nextHandle]
        nextHandle := w.tour.nextHandle + 1 } := by
  unfold startTour
  rw [if_neg (by simp [hidle])]
  rw [nextPlanet_tour m pd hpd _ (by simp) rfl]

/-- A canvas click with a hit stores the nearest hit's key and leaves the tour
globals as they are. -/
theorem canvasClick_tour (m : JSMath α) (pd : String → Option (Descriptor α))
    (w : World α) (k : Option String) (rest : List (Option String)) :
    (canvasClick m pd (k :: rest) w).state.tour = w.tour ∧
    (canvasClick m pd (k :: rest) w).state.selectedPlanet = k := by
  obtain ⟨h1, -, h3, -⟩ := selectPlanet_frame m pd w k
  exact ⟨h1, h3⟩

/-- A navigation click stops a running tour before it selects. -/
theorem navClick_tour (m : JSMath α) (pd : String → Option (Descriptor α))
    (w : World α) (k : Option String) (ht : w.tour.isTouring = true) :
    (navClick m pd k w).state.tour = (stopTour w).tour ∧
    (navClick m pd k w).state.selectedPlanet = k := by
  unfold navClick
  rw [if_pos ht]
  obtain ⟨h1, -, h3, -⟩ := selectPlanet_frame m pd (stopTour w) k
  exact ⟨h1, h3⟩

end TourLemmas

section LoopLemmas

variable {α : Type} [LinearOrderedField α]

/-- The end of `animate` writes the camera only. -/
theorem finishFrame_frame (pd : String → Option (Descriptor α)) (r : Result (World α)) :
    (finishFrame pd r).state.tour = r.state.tour ∧
    (finishFrame pd r).state.startTourText = r.state.startTourText ∧
    (finishFrame pd r).state.selectedPlanet = r.state.selectedPlanet ∧
    (finishFrame pd r).state.planets = r.state.planets ∧
    (finishFrame pd r).state.orbitSpeedMultiplier = r.state.orbitSpeedMultiplier ∧
    (finishFrame pd r).state.rotationSpeedMultiplier = r.state.rotationSpeedMultiplier ∧
    (finishFrame pd r).state.isRealTime = r.state.isRealTime ∧
    (finishFrame pd r).state.orbitSpeedDisabled = r.state.orbitSpeedDisabled ∧
    (finishFrame pd r).state.transitions = r.state.transitions := by
  cases r with
  | threw w => simp [finishFrame, Result.state]
  | ok w =>
    unfold finishFrame
    dsimp only
    split_ifs <;> simp [Result.state]

/-- Following the selection writes the camera only. -/
theorem followSelection_frame (m : JSMath α) (pd : String → Option (Descriptor α))
    (w : World α) :
    (followSelection m pd w).state.tour = w.tour ∧
    (followSelection m pd w).state.startTourText = w.startTourText ∧
    (followSelection m pd w).state.selectedPlanet = w.selectedPlanet ∧
    (followSelection m pd w).state.planets = w.planets ∧
    (followSelection m pd w).state.orbitSpeedMultiplier = w.orbitSpeedMultiplier ∧
    (followSelection m pd w).state.rotationSpeedMultiplier = w.rotationSpeedMultiplier ∧
    (followSelection m pd w).state.isRealTime = w.isRealTime ∧
    (followSelection m pd w).state.orbitSpeedDisabled = w.orbitSpeedDisabled := by
  unfold followSelection
  split
  · simp [Result.state]
  · split_ifs
    · exact updateCamera_frame m pd w _ false
    · simp [Result.state]

/-- Turning the sun writes the registry only. -/
theorem turnSun_frame (pd : String → Option (Descriptor α)) (w w1 : World α)
    (h : turnSun pd w = some w1) :
    w1.tour = w.tour ∧ w1.startTourText = w.startTourText ∧
    w1.selectedPlanet = w.selectedPlanet ∧
    w1.orbitSpeedMultiplier = w.orbitSpeedMultiplier ∧
    w1.rotationSpeedMultiplier = w.rotationSpeedMultiplier ∧
    w1.isRealTime = w.isRealTime ∧ w1.orbitSpeedDisabled = w.orbitSpeedDisabled ∧
    w1.cameraPosition = w.cameraPosition ∧ w1.controlsTarget = w.controlsTarget ∧
    w1.transitions = w.transitions := by
  unfold turnSun at h
  cases hl : w.planets.lookup "sun" with
  | none => simp [hl] at h; subst h; simp
  | some sun =>
    cases hs : pd "sun" with
    | none => simp [hl, hs] at h
    | some sunData => simp [hl, hs] at h; subst h; simp

/-- The registry after `animate`, when reading `planetData.sun` does not throw. -/
theorem animate_planets (m : JSMath α) (pd : String → Option (Descriptor α))
    (delta : α) (w : World α) (sunData : Descriptor α) (hsun : pd "sun" = some sunData) :
    (animate m pd delta w).state.planets =
      (if (w.planets.lookup "sun").isSome then
        w.planets.map (rotateSun (sunData.rotationSpeed * w.rotationSpeedMultiplier))
       else w.planets).map (fun e =>
        (e.1, animateBody m w.isRealTime w.orbitSpeedMultiplier
          w.rotationSpeedMultiplier delta e.1 e.2)) := by
  unfold animate turnSun
  cases hl : w.planets.lookup "sun" with
  | none =>
    dsimp only
    rw [(finishFrame_frame pd _).2.2.2.1, (followSelection_frame m pd _).2.2.2.1]
    simp [advanceBodies]
  | some sun =>
    simp only [hsun]
    rw [(finishFrame_frame pd _).2.2.2.1, (followSelection_frame m pd _).2.2.2.1]
    simp [advanceBodies]

/-- The function `animate` writes the registry and the camera only. -/
theorem animate_controls (m : JSMath α) (pd : String → Option (Descriptor α))
    (delta : α) (w : World α) :
    (animate m pd delta w).state.tour = w.tour ∧
    (animate m pd delta w).state.startTourText = w.startTourText ∧
    (animate m pd delta w).state.selectedPlanet = w.selectedPlanet ∧
    (animate m pd delta w).state.orbitSpeedMultiplier = w.orbitSpeedMultiplier ∧
    (animate m pd delta w).state.rotationSpeedMultiplier = w.rotationSpeedMultiplier ∧
    (animate m pd delta w).state.isRealTime = w.isRealTime ∧
    (animate m pd delta w).state.orbitSpeedDisabled = w.orbitSpeedDisabled := by
  unfold animate
  cases ht : turnSun pd w with
  | none => simp [Result.state]
  | some w1 =>
    dsimp only
    obtain ⟨t1, t2, t3, t4, t5, t6, t7, -⟩ := turnSun_frame pd w w1 ht
    obtain ⟨f1, f2, f3, -, f5, f6, f7, f8⟩ :=
      followSelection_frame m pd (advanceBodies m delta w1)
    obtain ⟨g1, g2, g3, -, g5, g6, g7, g8, -⟩ :=
      finishFrame_frame pd (followSelection m pd (advanceBodies m delta w1))
    exact ⟨(g1.trans f1).trans t1, (g2.trans f2).trans t2, (g3.trans f3).trans t3,
      (g5.trans f5).trans t4, (g6.trans f6).trans t5, (g7.trans f7).trans t6,
      (g8.trans f8).trans t7⟩

/-- Running the pending camera closures writes the camera only. -/
theorem runTransitions_controls (w : World α) :
    (runTransitions w).tour = w.tour ∧
    (runTransitions w).startTourText = w.startTourText ∧
    (runTransitions w).selectedPlanet = w.selectedPlanet ∧
    (runTransitions w).planets = w.planets ∧
    (runTransitions w).orbitSpeedMultiplier = w.orbitSpeedMultiplier ∧
    (runTransitions w).rotationSpeedMultiplier = w.rotationSpeedMultiplier ∧
    (runTransitions w).isRealTime = w.isRealTime ∧
    (runTransitions w).orbitSpeedDisabled = w.orbitSpeedDisabled := by
  have key : ∀ (ts : List (Transition α)) (acc : World α),
      let r := ts.foldl
        (fun acc t =>
          match animateCamera t acc with
          | (w1, none) => w1
          | (w1, some t1) => { w1 with transitions := w1.transitions ++ [t1] }) acc
      r.tour = acc.tour ∧ r.startTourText = acc.startTourText ∧
      r.selectedPlanet = acc.selectedPlanet ∧ r.planets = acc.planets ∧
      r.orbitSpeedMultiplier = acc.orbitSpeedMultiplier ∧
      r.rotationSpeedMultiplier = acc.rotationSpeedMultiplier ∧
      r.isRealTime = acc.isRealTime ∧ r.orbitSpeedDisabled = acc.orbitSpeedDisabled := by
    intro ts
    induction ts with
    | nil => intro acc; simp
    | cons t ts ih =>
      intro acc
      simp only [List.foldl_cons]
      obtain ⟨h1, h2, h3, h4, h5, h6, h7, h8, -⟩ := animateCamera_frame t acc
      rcases hac : animateCamera t acc with ⟨w1, o⟩
      rw [hac] at h1 h2 h3 h4 h5 h6 h7 h8
      dsimp only at h1 h2 h3 h4 h5 h6 h7 h8
      cases o with
      | none =>
        obtain ⟨i1, i2, i3, i4, i5, i6, i7, i8⟩ := ih w1
        exact ⟨i1.trans h1, i2.trans h2, i3.trans h3, i4.trans h4, i5.trans h5,
          i6.trans h6, i7.trans h7, i8.trans h8⟩
      | some t1 =>
        obtain ⟨i1, i2, i3, i4, i5, i6, i7, i8⟩ :=
          ih { w1 with transitions := w1.transitions ++ [t1] }
        exact ⟨i1.trans h1, i2.trans h2, i3.trans h3, i4.trans h4, i5.trans h5,
          i6.trans h6, i7.trans h7, i8.trans h8⟩
  exact key w.transitions { w with transitions := [] }

/-- A frame writes the registry and the camera only. -/
theorem frame_controls (m : JSMath α) (pd : String → Option (Descriptor α))
    (delta : α) (w : World α) :
    (frame m pd delta w).tour = w.tour ∧
    (frame m pd delta w).startTourText = w.startTourText ∧
    (frame m pd delta w).selectedPlanet = w.selectedPlanet ∧
    (frame m pd delta w).orbitSpeedMultiplier = w.orbitSpeedMultiplier ∧
    (frame m pd delta w).rotationSpeedMultiplier = w.rotationSpeedMultiplier ∧
    (frame m pd delta w).isRealTime = w.isRealTime ∧
    (frame m pd delta w).orbitSpeedDisabled = w.orbitSpeedDisabled := by
  obtain ⟨a1, a2, a3, a5, a6, a7, a8⟩ := animate_controls m pd delta w
  obtain ⟨r1, r2, r3, -, r5, r6, r7, r8⟩ :=
    runTransitions_controls (animate m pd delta w).state
  exact ⟨r1.trans a1, r2.trans a2, r3.trans a3, r5.trans a5, r6.trans a6, r7.trans a7,
    r8.trans a8⟩

/-- The registry after a frame is the registry after `animate`. -/
theorem frame_planets (m : JSMath α) (pd : String → Option (Descriptor α))
    (delta : α) (w : World α) :
    (frame m pd delta w).planets = (animate m pd delta w).state.planets :=
  (runTransitions_controls (animate m pd delta w).state).2.2.2.1

/-- On an idle tour a firing timer leaves everything but the timer table. -/
theorem fireTimer_idle (m : JSMath α) (pd : String → Option (Descriptor α))
    (h : Nat) (w : World α) (hidle : w.tour.isTouring = false) :
    (fireTimer m pd h w).state.tour.isTouring = false ∧
    (fireTimer m pd h w).state.tour.tourIndex = w.tour.tourIndex ∧
    (fireTimer m pd h w).state.selectedPlanet = w.selectedPlanet ∧
    (fireTimer m pd h w).state.cameraPosition = w.cameraPosition ∧
    (fireTimer m pd h w).state.controlsTarget = w.controlsTarget ∧
    (fireTimer m pd h w).state.transitions = w.transitions ∧
    (fireTimer m pd h w).state.planets = w.planets ∧
    (fireTimer m pd h w).state.startTourText = w.startTourText := by
  unfold fireTimer nextPlanet
  split_ifs <;> simp_all [Result.state]

/-- No listener but the tour button's starts a tour. -/
theorem handle_idle (m : JSMath α) (pd : String → Option (Descriptor α))
    (w : World α) (e : Event α) (he : e ≠ Event.tourButton)
    (hidle : w.tour.isTouring = false) :
    (handle m pd w e).tour.isTouring = false := by
  cases e with
  | orbitSpeedInput v => simpa [handle, orbitSpeedInput] using hidle
  | rotationSpeedInput v => simpa [handle, rotationSpeedInput] using hidle
  | realTimeToggle c =>
    cases c <;> simpa [handle, toggleRealTime] using hidle
  | dateChange t ys =>
    cases t <;> simpa [handle, dateChange] using hidle
  | tourButton => exact absurd rfl he
  | navClick k =>
    simp only [handle, navClick, hidle, Bool.false_eq_true, if_false]
    rw [(selectPlanet_frame m pd w k).1]
    exact hidle
  | canvasClick hits =>
    cases hits with
    | nil => simpa [handle, canvasClick, Result.state] using hidle
    | cons k rest =>
      simp only [handle, canvasClick]
      rw [(selectPlanet_frame m pd w k).1]
      exact hidle
  | resetCamera => simp [handle, resetCamera, hidle]
  | closePanel => simp [handle, closePanel, hidle]
  | toggleLabels => simpa [handle, toggleLabels] using hidle
  | timer h => exact (fireTimer_idle m pd h w hidle).1
  | frame delta =>
    simp only [handle]
    rw [(frame_controls m pd delta w).1]
    exact hidle

/-- An idle tour stays idle under events that do not press the tour button. -/
theorem run_idle (m : JSMath α) (pd : String → Option (Descriptor α))
    (es : List (Event α)) :
    ∀ w : World α, (∀ e ∈ es, e ≠ Event.tourButton) → w.tour.isTouring = false →
      (run m pd w es).tour.isTouring = false := by
  induction es with
  | nil => intro w _ h; simpa [run] using h
  | cons e es ih =>
    intro w hes hidle
    have h1 := handle_idle m pd w e (hes e (List.mem_cons_self _ _)) hidle
    have := ih (handle m pd w e) (fun x hx => hes x (List.mem_cons_of_mem _ hx)) h1
    simpa [run] using this

end LoopLemmas

section RegistryLemmas

/-- Reading a key after every entry was rewritten in place. -/
theorem lookup_map_entry {α : Type} (f : String → Body α → Body α) (key : String)
    (l : List (String × Body α)) :
    (l.map (fun e => (e.1, f e.1 e.2))).lookup key = (l.lookup key).map (f key) := by
  induction l with
  | nil => rfl
  | cons e l ih =>
    obtain ⟨k, b⟩ := e
    simp only [List.map_cons, List.lookup_cons]
    by_cases hk : key = k
    · subst hk; simp
    · have : (key == k) = false := by simpa using hk
      simp only [this]
      exact ih

variable {α : Type} [LinearOrderedField α]

/-- Turning the sun leaves the entries under other keys. -/
theorem lookup_rotateSun (r : α) (key : String) (hkey : key ≠ "sun")
    (l : List (String × Body α)) :
    (l.map (rotateSun r)).lookup key = l.lookup key := by
  have hform : rotateSun r = fun e : String × Body α =>
      (e.1, (fun (k : String) (b : Body α) =>
        if k = "sun" then { b with meshRotationY := b.meshRotationY + r } else b) e.1 e.2) := by
    funext e
    obtain ⟨k, b⟩ := e
    unfold rotateSun
    by_cases hk : k = "sun" <;> simp [hk]
  rw [hform]
  refine (lookup_map_entry (fun (k : String) (b : Body α) =>
    if k = "sun" then { b with meshRotationY := b.meshRotationY + r } else b) key l).trans ?_
  cases l.lookup key with
  | none => rfl
  | some b => simp [hkey]

/-- The entry under a key other than the sun's after `animate`, when the read
of `planetData.sun` does not throw. -/
theorem animate_lookup (m : JSMath α) (pd : String → Option (Descriptor α))
    (delta : α) (w : World α) (key : String) (hkey : key ≠ "sun")
    (hsun : (turnSun pd w).isSome) :
    (animate m pd delta w).state.planets.lookup key =
      (w.planets.lookup key).map (animateBody m w.isRealTime w.orbitSpeedMultiplier
        w.rotationSpeedMultiplier delta key) := by
  unfold animate
  cases ht : turnSun pd w with
  | none => simp [ht] at hsun
  | some w1 =>
    dsimp only
    rw [(finishFrame_frame pd _).2.2.2.1, (followSelection_frame m pd _).2.2.2.1]
    obtain ⟨-, -, -, t4, t5, t6, -⟩ := turnSun_frame pd w w1 ht
    have hl : w1.planets.lookup key = w.planets.lookup key := by
      unfold turnSun at ht
      cases hl : w.planets.lookup "sun" with
      | none => simp [hl] at ht; subst ht; rfl
      | some sun =>
        cases hs : pd "sun" with
        | none => simp [hl, hs] at ht
        | some sunData =>
          simp [hl, hs] at ht
          subst ht
          exact lookup_rotateSun _ key hkey _
    simp only [advanceBodies]
    rw [lookup_map_entry (fun k b => animateBody m w1.isRealTime w1.orbitSpeedMultiplier
      w1.rotationSpeedMultiplier delta k b), hl, t4, t5, t6]

/-- The keys of the planets are neither the sun's nor the belt's, and each has
a positive period in the table. -/
theorem planetKeys_period (key : String) (hkey : key ∈ planetKeys) :
    key ≠ "sun" ∧ key ≠ "asteroids" ∧
      ∃ period : α, orbitalPeriods key = some period ∧ 0 < period := by
  simp only [planetKeys, List.mem_cons, List.mem_singleton, List.not_mem_nil, or_false] at hkey
  rcases hkey with h | h | h | h | h | h | h | h <;> subst h <;>
    exact ⟨by decide, by decide, by simp [orbitalPeriods] <;> norm_num⟩

/-- The period `orbitalPeriods[key] || 365` is positive for every key. -/
theorem period_pos (key : String) : 0 < jsOr (orbitalPeriods key : Option α) 365 := by
  unfold orbitalPeriods jsOr
  split_ifs <;> norm_num

end RegistryLemmas

section TourTheorems

variable {α : Type} [LinearOrderedField α]

/-- C1. From an idle tour, `startTour()` and the firings of the tour timer
select sun, mercury, venus, earth, mars, jupiter, saturn, uranus, neptune in
that order, one body per step (the nine keys are distinct); while they do the
tour runs and its index counts the bodies selected; the firing after neptune
selects nothing, starts no camera transition, and leaves the tour idle with
the button label reset. -/
theorem tour_selects_nine_bodies_in_order (m : JSMath α)
    (pd : String → Option (Descriptor α)) (w : World α)
    (hidle : w.tour.isTouring = false) (hpd : TourData pd) :
    (List.range 9).map (fun n => (tourRun m pd w n).selectedPlanet)
      = [some "sun", some "mercury", some "venus", some "earth", some "mars",
          some "jupiter", some "saturn", some "uranus", some "neptune"] ∧
    tourKeys.Nodup ∧
    (∀ n, n < 9 → (tourRun m pd w n).tour.isTouring = true ∧
      (tourRun m pd w n).tour.tourIndex = n + 1) ∧
    (tourRun m pd w 9).tour.isTouring = false ∧
    (tourRun m pd w 9).startTourText = startLabel ∧
    (tourRun m pd w 9).selectedPlanet = (tourRun m pd w 8).selectedPlanet ∧
    (tourRun m pd w 9).cameraPosition = (tourRun m pd w 8).cameraPosition ∧
    (tourRun m pd w 9).controlsTarget = (tourRun m pd w 8).controlsTarget ∧
    (tourRun m pd w 9).transitions = (tourRun m pd w 8).transitions := by
  have hrun := tourRun_touring m pd hpd w hidle
  have hfin := fireTourTimer_finish m pd _ (hrun 8 (by omega))
  have h9 : tourRun m pd w 9 = fireTourTimer m pd (tourRun m pd w 8) := by
    simp [tourRun, Function.iterate_succ_apply']
  refine ⟨?_, by decide, fun n hn => ⟨(hrun n hn).1, (hrun n hn).2.1⟩, ?_⟩
  · have sel : ∀ n, n < 9 → (tourRun m pd w n).selectedPlanet = tourKeys[n]? :=
      fun n hn => (hrun n hn).2.2.2.1
    simp only [List.range, List.range.loop, List.map]
    rw [sel 0 (by omega), sel 1 (by omega), sel 2 (by omega), sel 3 (by omega),
      sel 4 (by omega), sel 5 (by omega), sel 6 (by omega), sel 7 (by omega),
      sel 8 (by omega)]
    rfl
  · rw [h9]
    exact ⟨hfin.1, hfin.2.1, hfin.2.2.2.1, hfin.2.2.2.2.1, hfin.2.2.2.2.2.1,
      hfin.2.2.2.2.2.2.1⟩

/-- C2. In every state `stopTour()` leaves the tour idle, with the timer held
in `tourInterval` no longer pending and the button label reset; and
afterwards, through any events that do not press the tour button (the only
caller of `startTour`), the tour stays idle and a firing timer selects no
body, starts no camera transition and leaves the tour index as it is. -/
theorem stopTour_halts_tour (m : JSMath α) (pd : String → Option (Descriptor α))
    (w : World α) :
    (stopTour w).tour.isTouring = false ∧
    (∀ h, w.tour.tourInterval = some h → h ∉ (stopTour w).tour.timers) ∧
    (stopTour w).startTourText = startLabel ∧
    ∀ (es : List (Event α)) (h : Nat), (∀ e ∈ es, e ≠ Event.tourButton) →
      (run m pd (stopTour w) es).tour.isTouring = false ∧
      (handle m pd (run m pd (stopTour w) es) (Event.timer h)).tour.isTouring = false ∧
      (handle m pd (run m pd (stopTour w) es) (Event.timer h)).tour.tourIndex
        = (run m pd (stopTour w) es).tour.tourIndex ∧
      (handle m pd (run m pd (stopTour w) es) (Event.timer h)).selectedPlanet
        = (run m pd (stopTour w) es).selectedPlanet ∧
      (handle m pd (run m pd (stopTour w) es) (Event.timer h)).transitions
        = (run m pd (stopTour w) es).transitions ∧
      (handle m pd (run m pd (stopTour w) es) (Event.timer h)).cameraPosition
        = (run m pd (stopTour w) es).cameraPosition := by
  refine ⟨rfl, ?_, rfl, ?_⟩
  · intro h hh
    simp [stopTour, clearTimeout, hh]
  · intro es h hes
    have hidle := run_idle m pd es (stopTour w) hes rfl
    obtain ⟨h1, h2, h3, h4, -, h6, -⟩ := fireTimer_idle m pd h _ hidle
    exact ⟨hidle, h1, h2, h3, h6, h4⟩

end TourTheorems

/-- The sample descriptor table covers the tour. -/
theorem sampleData_tour : TourData (sampleData ℚ) := by
  intro key hkey
  simp only [tourKeys, List.mem_cons, List.mem_singleton, List.not_mem_nil, or_false] at hkey
  rcases hkey with h | h | h | h | h | h | h | h | h <;> subst h <;> decide

/-- C1 at the sample data: the nine selections of the tour. -/
theorem tour_selects_nine_bodies_in_order_witness :
    (sampleWorld ℚ).tour.isTouring = false ∧
    (List.range 9).map (fun n => (tourRun approxMath (sampleData ℚ) (sampleWorld ℚ) n).selectedPlanet)
      = [some "sun", some "mercury", some "venus", some "earth", some "mars",
          some "jupiter", some "saturn", some "uranus", some "neptune"] :=
  ⟨rfl, (tour_selects_nine_bodies_in_order approxMath (sampleData ℚ) (sampleWorld ℚ) rfl
    sampleData_tour).1⟩

/-- C2 at the sample data: the tour is stopped after its fourth body; a frame,
a navigation click and the firing of the cancelled timer follow. -/
theorem stopTour_halts_tour_witness :
    (∀ e ∈ [Event.frame (1 / 60 : ℚ), Event.navClick (some "earth"), Event.timer 3],
      e ≠ Event.tourButton) ∧
    (handle approxMath (sampleData ℚ)
      (run approxMath (sampleData ℚ) (stopTour (tourRun approxMath (sampleData ℚ) (sampleWorld ℚ) 3))
        [Event.frame (1 / 60 : ℚ), Event.navClick (some "earth"), Event.timer 3])
      (Event.timer 3)).selectedPlanet
      = (run approxMath (sampleData ℚ) (stopTour (tourRun approxMath (sampleData ℚ) (sampleWorld ℚ) 3))
        [Event.frame (1 / 60 : ℚ), Event.navClick (some "earth"), Event.timer 3]).selectedPlanet :=
  ⟨by simp, ((stopTour_halts_tour approxMath (sampleData ℚ)
    (tourRun approxMath (sampleData ℚ) (sampleWorld ℚ) 3)).2.2.2 _ 3 (by simp)).2.2.2.1⟩

/-- C3, the failing input. With the tour running after `startTour()` (its
timer 0 pending), a canvas click whose nearest hit is the earth selects the
earth and leaves the tour running with its timer pending; the same selection
through the navigation list stops the tour and cancels the timer. -/
theorem canvasClick_leaves_tour_running :
    (startTour approxMath (sampleData ℚ) (sampleWorld ℚ)).state.tour.isTouring = true ∧
    (startTour approxMath (sampleData ℚ) (sampleWorld ℚ)).state.tour.timers = [0] ∧
    (canvasClick approxMath (sampleData ℚ) [some "earth"]
      (startTour approxMath (sampleData ℚ) (sampleWorld ℚ)).state).state.selectedPlanet
      = some "earth" ∧
    (canvasClick approxMath (sampleData ℚ) [some "earth"]
      (startTour approxMath (sampleData ℚ) (sampleWorld ℚ)).state).state.tour.isTouring = true ∧
    (canvasClick approxMath (sampleData ℚ) [some "earth"]
      (startTour approxMath (sampleData ℚ) (sampleWorld ℚ)).state).state.tour.timers = [0] ∧
    (navClick approxMath (sampleData ℚ) (some "earth")
      (startTour approxMath (sampleData ℚ) (sampleWorld ℚ)).state).state.tour.isTouring = false ∧
    (navClick approxMath (sampleData ℚ) (some "earth")
      (startTour approxMath (sampleData ℚ) (sampleWorld ℚ)).state).state.tour.timers = [] := by
  have hs := startTour_tour approxMath (sampleData ℚ) sampleData_tour (sampleWorld ℚ) rfl
  have hc := canvasClick_tour approxMath (sampleData ℚ)
    (startTour approxMath (sampleData ℚ) (sampleWorld ℚ)).state (some "earth") []
  have hn := navClick_tour approxMath (sampleData ℚ)
    (startTour approxMath (sampleData ℚ) (sampleWorld ℚ)).state (some "earth") (by rw [hs])
  rw [hc.1, hc.2, hn.1]
  simp only [stopTour, hs]
  decide

section LoopTheorems

variable {α : Type} [LinearOrderedField α]

/-- What `animate` does to the angle and the position of an entry stored under
a key other than the sun's and the belt's. -/
theorem animateBody_orbit (m : JSMath α) (rt : Bool) (om rm delta : α) (key : String)
    (planet : Body α) (a : α) (h1 : key ≠ "sun") (h2 : key ≠ "asteroids")
    (ha : planet.angle = some a) :
    (animateBody m rt om rm delta key planet).angle
      = some (a + orbitIncrement key planet.data rt om delta) ∧
    (animateBody m rt om rm delta key planet).meshPosition
      = ⟨m.cos (a + orbitIncrement key planet.data rt om delta) * planet.data.orbitRadius,
          planet.meshPosition.y,
          m.sin (a + orbitIncrement key planet.data rt om delta) * planet.data.orbitRadius⟩ ∧
    (animateBody m rt om rm delta key planet).data = planet.data := by
  unfold animateBody
  rw [if_neg h1, if_neg h2]
  simp [ha]

/-- C4. For every planet of the registry, one run of `animate` adds to its
orbit angle exactly `orbitSpeed * orbitSpeedMultiplier * delta * 10` when
real-time mode is off, and exactly
`(365.25 / period) * 0.01 * orbitSpeedMultiplier * 0.1` when it is on, with
`period` the planet's entry in `orbitalPeriods` and no `delta` in the
increment; with multiplier 2 and delta 0.1 a planet of base speed `s` advances
by `2 * s`, twice its advance with multiplier 1. -/
theorem animate_adds_orbit_increment (m : JSMath α) (pd : String → Option (Descriptor α))
    (delta : α) (w : World α) (key : String) (planet : Body α) (a : α)
    (hkey : key ∈ planetKeys) (hp : w.planets.lookup key = some planet)
    (ha : planet.angle = some a) (hsun : (turnSun pd w).isSome) :
    ∃ (period : α) (planet1 : Body α),
      orbitalPeriods key = some period ∧
      (animate m pd delta w).state.planets.lookup key = some planet1 ∧
      (w.isRealTime = false → planet1.angle
        = some (a + planet.data.orbitSpeed * w.orbitSpeedMultiplier * delta * 10)) ∧
      (w.isRealTime = true → planet1.angle
        = some (a + (365.25 / period) * 0.01 * w.orbitSpeedMultiplier * 0.1)) ∧
      (w.isRealTime = false → w.orbitSpeedMultiplier = 2 → delta = 0.1 →
        planet1.angle = some (a + 2 * planet.data.orbitSpeed) ∧
        2 * planet.data.orbitSpeed = 2 * orbitIncrement key planet.data false 1 delta) := by
  obtain ⟨k1, k2, period, hper, hpos⟩ := planetKeys_period (α := α) key hkey
  have hl := animate_lookup m pd delta w key k1 hsun
  rw [hp] at hl
  obtain ⟨hang, -, -⟩ := animateBody_orbit m w.isRealTime w.orbitSpeedMultiplier
    w.rotationSpeedMultiplier delta key planet a k1 k2 ha
  refine ⟨period, _, hper, hl, ?_, ?_, ?_⟩
  · intro hrt
    rw [hang, hrt]
    simp [orbitIncrement]
  · intro hrt
    rw [hang, hrt]
    simp [orbitIncrement, hper, jsOr, hpos.ne']
  · intro hrt hom hd
    rw [hang, hrt, hom, hd]
    simp only [orbitIncrement, Bool.false_eq_true, if_false]
    constructor
    · congr 2; ring
    · ring

/-- C5. After a run of `animate`, every entry in the planet branch that has an
orbit angle sits at `(cos(angle) * orbitRadius, y, sin(angle) * orbitRadius)`
for the angle it holds at the end of the frame, its `y` being the one it had
before the frame. -/
theorem animate_places_body_on_orbit (m : JSMath α) (pd : String → Option (Descriptor α))
    (delta : α) (w : World α) (key : String) (planet : Body α)
    (h1 : key ≠ "sun") (h2 : key ≠ "asteroids")
    (hp : w.planets.lookup key = some planet) (ha : planet.angle.isSome)
    (hsun : (turnSun pd w).isSome) :
    ∃ (planet1 : Body α) (a1 : α),
      (animate m pd delta w).state.planets.lookup key = some planet1 ∧
      planet1.angle = some a1 ∧
      planet1.meshPosition
        = ⟨m.cos a1 * planet1.data.orbitRadius, planet.meshPosition.y,
            m.sin a1 * planet1.data.orbitRadius⟩ ∧
      planet1.meshPosition.y = planet.meshPosition.y := by
  obtain ⟨a, ha⟩ := Option.isSome_iff_exists.mp ha
  have hl := animate_lookup m pd delta w key h1 hsun
  rw [hp] at hl
  obtain ⟨hang, hpos, hdata⟩ := animateBody_orbit m w.isRealTime w.orbitSpeedMultiplier
    w.rotationSpeedMultiplier delta key planet a h1 h2 ha
  refine ⟨_, _, hl, hang, ?_, ?_⟩
  · rw [hpos, hdata]
  · rw [hpos]

/-- C6. For an entry in the planet branch with a non-negative base orbit speed
and a frame with `delta >= 0`: with a positive orbit multiplier the angle
after `animate` is at least the angle before it, in real-time mode and out of
it; with multiplier 0 the angle after the frame is the angle before it. -/
theorem animate_angle_monotone (m : JSMath α) (pd : String → Option (Descriptor α))
    (delta : α) (w : World α) (key : String) (planet : Body α) (a : α)
    (h1 : key ≠ "sun") (h2 : key ≠ "asteroids")
    (hp : w.planets.lookup key = some planet) (ha : planet.angle = some a)
    (hspeed : 0 ≤ planet.data.orbitSpeed) (hdelta : 0 ≤ delta)
    (hsun : (turnSun pd w).isSome) :
    ∃ (planet1 : Body α) (a1 : α),
      (animate m pd delta w).state.planets.lookup key = some planet1 ∧
      planet1.angle = some a1 ∧
      (0 < w.orbitSpeedMultiplier → a ≤ a1) ∧
      (w.orbitSpeedMultiplier = 0 → a1 = a) := by
  have hl := animate_lookup m pd delta w key h1 hsun
  rw [hp] at hl
  obtain ⟨hang, -, -⟩ := animateBody_orbit m w.isRealTime w.orbitSpeedMultiplier
    w.rotationSpeedMultiplier delta key planet a h1 h2 ha
  have hper := period_pos (α := α) key
  refine ⟨_, _, hl, hang, ?_, ?_⟩
  · intro hom
    have : 0 ≤ orbitIncrement key planet.data w.isRealTime w.orbitSpeedMultiplier delta := by
      unfold orbitIncrement
      split_ifs
      · positivity
      · positivity
    linarith
  · intro hom
    rw [hom]
    unfold orbitIncrement
    split_ifs <;> simp

end LoopTheorems

/-- The sample registry holds the earth, and the sample table the sun. -/
theorem sampleWorld_earth :
    (sampleWorld ℚ).planets.lookup "earth" = some (sampleEarth ℚ) ∧
      (turnSun (sampleData ℚ) (sampleWorld ℚ)).isSome = true := by
  constructor
  · rfl
  · rfl

/-- C4 at the sample data: the earth in a frame of a tenth of a second. -/
theorem animate_adds_orbit_increment_witness :
    "earth" ∈ planetKeys ∧ (sampleEarth ℚ).angle = some 1 ∧
    ∃ (period : ℚ) (planet1 : Body ℚ),
      orbitalPeriods "earth" = some period ∧
      (animate approxMath (sampleData ℚ) (1 / 10) (sampleWorld ℚ)).state.planets.lookup "earth"
        = some planet1 ∧
      ((sampleWorld ℚ).isRealTime = false → planet1.angle
        = some (1 + (sampleEarth ℚ).data.orbitSpeed * (sampleWorld ℚ).orbitSpeedMultiplier
            * (1 / 10) * 10)) ∧
      ((sampleWorld ℚ).isRealTime = true → planet1.angle
        = some (1 + (365.25 / period) * 0.01 * (sampleWorld ℚ).orbitSpeedMultiplier * 0.1)) ∧
      ((sampleWorld ℚ).isRealTime = false → (sampleWorld ℚ).orbitSpeedMultiplier = 2 →
        (1 / 10 : ℚ) = 0.1 →
        planet1.angle = some (1 + 2 * (sampleEarth ℚ).data.orbitSpeed) ∧
        2 * (sampleEarth ℚ).data.orbitSpeed
          = 2 * orbitIncrement "earth" (sampleEarth ℚ).data false 1 (1 / 10)) :=
  ⟨by decide, rfl, animate_adds_orbit_increment approxMath (sampleData ℚ) (1 / 10) (sampleWorld ℚ)
    "earth" (sampleEarth ℚ) 1 (by decide) sampleWorld_earth.1 rfl sampleWorld_earth.2⟩

/-- C5 at the sample data: the earth after a frame. -/
theorem animate_places_body_on_orbit_witness :
    (sampleEarth ℚ).angle.isSome = true ∧
    ∃ (planet1 : Body ℚ) (a1 : ℚ),
      (animate approxMath (sampleData ℚ) (1 / 10) (sampleWorld ℚ)).state.planets.lookup "earth"
        = some planet1 ∧
      planet1.angle = some a1 ∧
      planet1.meshPosition
        = ⟨approxMath.cos a1 * planet1.data.orbitRadius, (sampleEarth ℚ).meshPosition.y,
            approxMath.sin a1 * planet1.data.orbitRadius⟩ ∧
      planet1.meshPosition.y = (sampleEarth ℚ).meshPosition.y :=
  ⟨rfl, animate_places_body_on_orbit approxMath (sampleData ℚ) (1 / 10) (sampleWorld ℚ) "earth"
    (sampleEarth ℚ) (by decide) (by decide) sampleWorld_earth.1 rfl sampleWorld_earth.2⟩

/-- C6 at the sample data: the earth, of base speed 0.01, after a frame. -/
theorem animate_angle_monotone_witness :
    (0 : ℚ) ≤ (sampleEarth ℚ).data.orbitSpeed ∧ (0 : ℚ) ≤ 1 / 10 ∧
    ∃ (planet1 : Body ℚ) (a1 : ℚ),
      (animate approxMath (sampleData ℚ) (1 / 10) (sampleWorld ℚ)).state.planets.lookup "earth"
        = some planet1 ∧
      planet1.angle = some a1 ∧
      (0 < (sampleWorld ℚ).orbitSpeedMultiplier → 1 ≤ a1) ∧
      ((sampleWorld ℚ).orbitSpeedMultiplier = 0 → a1 = 1) :=
  ⟨by norm_num [sampleEarth], by norm_num,
    animate_angle_monotone approxMath (sampleData ℚ) (1 / 10) (sampleWorld ℚ) "earth" (sampleEarth ℚ) 1
      (by decide) (by decide) sampleWorld_earth.1 rfl (by norm_num [sampleEarth])
      (by norm_num) sampleWorld_earth.2⟩

section SettingsLemmas

variable {α : Type} [LinearOrderedField α]

/-- The function `nextPlanet` leaves the speed settings. -/
theorem nextPlanet_settings (m : JSMath α) (pd : String → Option (Descriptor α))
    (w : World α) : SameSettings w (nextPlanet m pd w).state := by
  unfold nextPlanet SameSettings
  split_ifs
  · simp [Result.state]
  · simp [Result.state]
  · obtain ⟨-, -, -, -, h5, h6, h7, h8⟩ :=
      selectPlanet_frame m pd w tourKeys[w.tour.tourIndex]?
    cases hs : selectPlanet m pd w tourKeys[w.tour.tourIndex]? with
    | threw w1 => rw [hs] at h5 h6 h7 h8; exact ⟨h5, h6, h7, h8⟩
    | ok w1 => rw [hs] at h5 h6 h7 h8; exact ⟨h5, h6, h7, h8⟩

/-- Every listener but the two inputs' and the real-time toggle's leaves the
speed settings. -/
theorem handle_settings (m : JSMath α) (pd : String → Option (Descriptor α))
    (w : World α) (e : Event α)
    (h1 : ∀ v, e ≠ Event.orbitSpeedInput v) (h2 : ∀ v, e ≠ Event.rotationSpeedInput v)
    (h3 : ∀ c, e ≠ Event.realTimeToggle c) :
    SameSettings w (handle m pd w e) := by
  cases e with
  | orbitSpeedInput v => exact absurd rfl (h1 v)
  | rotationSpeedInput v => exact absurd rfl (h2 v)
  | realTimeToggle c => exact absurd rfl (h3 c)
  | dateChange t ys => cases t <;> simp [handle, dateChange, SameSettings]
  | tourButton =>
    simp only [handle, tourButton, startTour]
    split_ifs
    · simp [SameSettings, Result.state, stopTour]
    · exact nextPlanet_settings m pd _
  | navClick k =>
    simp only [handle, navClick]
    obtain ⟨-, -, -, -, h5, h6, h7, h8⟩ :=
      selectPlanet_frame m pd (if w.tour.isTouring then stopTour w else w) k
    refine ⟨h5.trans ?_, h6.trans ?_, h7.trans ?_, h8.trans ?_⟩ <;>
      split_ifs <;> simp [stopTour]
  | canvasClick hits =>
    cases hits with
    | nil => simp [handle, canvasClick, Result.state, SameSettings]
    | cons k rest =>
      obtain ⟨-, -, -, -, h5, h6, h7, h8⟩ := selectPlanet_frame m pd w k
      exact ⟨h5, h6, h7, h8⟩
  | resetCamera =>
    simp only [handle, resetCamera, SameSettings]
    split_ifs <;> simp [stopTour]
  | closePanel =>
    simp only [handle, closePanel, SameSettings]
    split_ifs <;> simp [stopTour]
  | toggleLabels => simp [handle, toggleLabels, SameSettings]
  | timer h =>
    simp only [handle, fireTimer]
    split_ifs
    · exact nextPlanet_settings m pd _
    · simp [SameSettings, Result.state]
  | frame delta =>
    obtain ⟨-, -, -, f4, f5, f6, f7⟩ := frame_controls m pd delta w
    exact ⟨f4, f5, f6, f7⟩

/-- Each listener keeps the orbit slider disabled exactly in real-time mode. -/
theorem handle_disabled_iff (m : JSMath α) (pd : String → Option (Descriptor α))
    (w : World α) (e : Event α) (h : w.orbitSpeedDisabled = w.isRealTime) :
    (handle m pd w e).orbitSpeedDisabled = (handle m pd w e).isRealTime := by
  by_cases h1 : ∃ v, e = Event.orbitSpeedInput v
  · obtain ⟨v, rfl⟩ := h1; simpa [handle, orbitSpeedInput] using h
  by_cases h2 : ∃ v, e = Event.rotationSpeedInput v
  · obtain ⟨v, rfl⟩ := h2; simpa [handle, rotationSpeedInput] using h
  by_cases h3 : ∃ c, e = Event.realTimeToggle c
  · obtain ⟨c, rfl⟩ := h3; cases c <;> simp [handle, toggleRealTime]
  · obtain ⟨-, -, s3, s4⟩ := handle_settings m pd w e
      (fun v hv => h1 ⟨v, hv⟩) (fun v hv => h2 ⟨v, hv⟩) (fun c hc => h3 ⟨c, hc⟩)
    rw [s3, s4, h]

/-- Each listener keeps both multipliers non-negative when the value it is
given, if any, is non-negative. -/
theorem handle_nonneg (m : JSMath α) (pd : String → Option (Descriptor α))
    (w : World α) (e : Event α) (he : NonnegInput e)
    (h : 0 ≤ w.orbitSpeedMultiplier ∧ 0 ≤ w.rotationSpeedMultiplier) :
    0 ≤ (handle m pd w e).orbitSpeedMultiplier ∧
      0 ≤ (handle m pd w e).rotationSpeedMultiplier := by
  by_cases h1 : ∃ v, e = Event.orbitSpeedInput v
  · obtain ⟨v, rfl⟩ := h1; exact ⟨he, h.2⟩
  by_cases h2 : ∃ v, e = Event.rotationSpeedInput v
  · obtain ⟨v, rfl⟩ := h2; exact ⟨h.1, he⟩
  by_cases h3 : ∃ c, e = Event.realTimeToggle c
  · obtain ⟨c, rfl⟩ := h3
    cases c
    · exact ⟨by simp [handle, toggleRealTime], h.2⟩
    · exact ⟨by simp [handle, toggleRealTime]; norm_num, h.2⟩
  · obtain ⟨s1, s2, -, -⟩ := handle_settings m pd w e
      (fun v hv => h1 ⟨v, hv⟩) (fun v hv => h2 ⟨v, hv⟩) (fun c hc => h3 ⟨c, hc⟩)
    rw [s1, s2]
    exact h

end SettingsLemmas

section SettingsTheorems

variable {α : Type} [LinearOrderedField α]

/-- C7. For a valid date the date listener stores, under every planet key of
the registry, the angle `(dayOfYear / period) * 2π` with `period` the key's
entry in `orbitalPeriods`, and leaves the entries of the sun and of the
asteroid belt as they are; for an invalid date it changes nothing. -/
theorem dateChange_sets_planet_angles (m : JSMath α) (yearStart : Int) (w : World α) :
    (∀ (t : Int) (key : String) (planet : Body α), key ∈ planetKeys →
      w.planets.lookup key = some planet →
      ∃ period : α, orbitalPeriods key = some period ∧
        (dateChange m (some t) yearStart w).planets.lookup key
          = some { planet with
              angle := some (((dayOfYear t yearStart : Int) : α) / period * (2 * m.PI)) }) ∧
    (∀ t : Int,
      (dateChange m (some t) yearStart w).planets.lookup "sun" = w.planets.lookup "sun" ∧
      (dateChange m (some t) yearStart w).planets.lookup "asteroids"
        = w.planets.lookup "asteroids") ∧
    dateChange m none yearStart w = w := by
  refine ⟨?_, ?_, rfl⟩
  · intro t key planet hkey hp
    obtain ⟨k1, k2, period, hper, hpos⟩ := planetKeys_period (α := α) key hkey
    refine ⟨period, hper, ?_⟩
    simp only [dateChange]
    rw [lookup_map_entry (fun k b => setAngleFromDay m (dayOfYear t yearStart) k b), hp]
    simp only [Option.map_some', setAngleFromDay, k1, k2, or_self, if_false, hper, jsOr,
      hpos.ne']
    congr 3
    ring
  · intro t
    simp only [dateChange]
    rw [lookup_map_entry (fun k b => setAngleFromDay m (dayOfYear t yearStart) k b),
      lookup_map_entry (fun k b => setAngleFromDay m (dayOfYear t yearStart) k b)]
    constructor
    · cases w.planets.lookup "sun" <;> simp [setAngleFromDay]
    · cases w.planets.lookup "asteroids" <;> simp [setAngleFromDay]

/-- C8. In every state `toggleRealTime(true)` turns real-time mode on and
disables the orbit slider, `toggleRealTime(false)` turns it off, sets the
orbit multiplier to 1 and enables the slider; and after a toggle, whatever
events follow, the slider is disabled exactly when real-time mode is on. -/
theorem toggleRealTime_excludes_manual_speed (m : JSMath α)
    (pd : String → Option (Descriptor α)) (w : World α) :
    (toggleRealTime true w).isRealTime = true ∧
    (toggleRealTime true w).orbitSpeedDisabled = true ∧
    (toggleRealTime false w).isRealTime = false ∧
    (toggleRealTime false w).orbitSpeedMultiplier = 1 ∧
    (toggleRealTime false w).orbitSpeedDisabled = false ∧
    ∀ (b : Bool) (es : List (Event α)),
      (run m pd (toggleRealTime b w) es).orbitSpeedDisabled
        = (run m pd (toggleRealTime b w) es).isRealTime := by
  refine ⟨rfl, rfl, rfl, rfl, rfl, ?_⟩
  intro b es
  have key : ∀ (es : List (Event α)) (w0 : World α),
      w0.orbitSpeedDisabled = w0.isRealTime →
      (run m pd w0 es).orbitSpeedDisabled = (run m pd w0 es).isRealTime := by
    intro es
    induction es with
    | nil => intro w0 h; simpa [run] using h
    | cons e es ih =>
      intro w0 h
      simpa [run] using ih (handle m pd w0 e) (handle_disabled_iff m pd w0 e h)
  apply key
  cases b <;> rfl

/-- C9, as amended. From a state in which both multipliers are 1, after any
events whose input values (the numbers the two speed inputs deliver) are not
negative, both multipliers are non-negative. -/
theorem multipliers_nonneg_of_nonneg_inputs (m : JSMath α)
    (pd : String → Option (Descriptor α)) (w : World α) (es : List (Event α))
    (ho : w.orbitSpeedMultiplier = 1) (hr : w.rotationSpeedMultiplier = 1)
    (hes : ∀ e ∈ es, NonnegInput e) :
    0 ≤ (run m pd w es).orbitSpeedMultiplier ∧
      0 ≤ (run m pd w es).rotationSpeedMultiplier := by
  have key : ∀ (es : List (Event α)) (w0 : World α),
      (∀ e ∈ es, NonnegInput e) →
      0 ≤ w0.orbitSpeedMultiplier ∧ 0 ≤ w0.rotationSpeedMultiplier →
      0 ≤ (run m pd w0 es).orbitSpeedMultiplier ∧
        0 ≤ (run m pd w0 es).rotationSpeedMultiplier := by
    intro es
    induction es with
    | nil => intro w0 _ h; simpa [run] using h
    | cons e es ih =>
      intro w0 hes h
      have h1 := handle_nonneg m pd w0 e (hes e (List.mem_cons_self _ _)) h
      simpa [run] using ih (handle m pd w0 e) (fun x hx => hes x (List.mem_cons_of_mem _ hx)) h1
  exact key es w hes ⟨by rw [ho]; exact zero_le_one, by rw [hr]; exact zero_le_one⟩

end SettingsTheorems

/-- C7 at the sample data: 13 February 2023 is day 44, half of mercury's
period of 88 days. -/
theorem dateChange_sets_planet_angles_witness :
    "mercury" ∈ planetKeys ∧
    (sampleWorld ℚ).planets.lookup "mercury" = some (sampleMercury ℚ) ∧
    ∃ period : ℚ, orbitalPeriods "mercury" = some period ∧
      (dateChange approxMath (some 1676246400000) 1672444800000
        (sampleWorld ℚ)).planets.lookup "mercury"
        = some { sampleMercury ℚ with
            angle := some (((dayOfYear 1676246400000 1672444800000 : Int) : ℚ) / period
              * (2 * approxMath.PI)) } :=
  ⟨by decide, rfl,
    (dateChange_sets_planet_angles approxMath 1672444800000 (sampleWorld ℚ)).1
      1676246400000 "mercury" (sampleMercury ℚ) (by decide) rfl⟩

/-- C9, the counterexample. From the initial multipliers (both 1) the orbit
input delivering -1 leaves the orbit multiplier negative, and the rotation
input delivering -1/2 leaves the rotation multiplier negative. -/
theorem speed_input_stores_negative_value :
    (sampleWorld ℚ).orbitSpeedMultiplier = 1 ∧
    (sampleWorld ℚ).rotationSpeedMultiplier = 1 ∧
    (orbitSpeedInput (-1) (sampleWorld ℚ)).orbitSpeedMultiplier < 0 ∧
    (rotationSpeedInput (-1 / 2) (sampleWorld ℚ)).rotationSpeedMultiplier < 0 ∧
    (run approxMath (sampleData ℚ) (sampleWorld ℚ)
      [Event.orbitSpeedInput (-1)]).orbitSpeedMultiplier < 0 := by
  refine ⟨rfl, rfl, ?_, ?_, ?_⟩ <;>
    norm_num [orbitSpeedInput, rotationSpeedInput, run, handle]

/-- C9 as amended, at the sample data: the sliders deliver 2 and 0, real-time
mode is switched on and a frame passes. -/
theorem multipliers_nonneg_of_nonneg_inputs_witness :
    (sampleWorld ℚ).orbitSpeedMultiplier = 1 ∧
    (sampleWorld ℚ).rotationSpeedMultiplier = 1 ∧
    (∀ e ∈ [Event.orbitSpeedInput (2 : ℚ), Event.rotationSpeedInput 0,
      Event.realTimeToggle true, Event.frame (1 / 60)], NonnegInput e) ∧
    0 ≤ (run approxMath (sampleData ℚ) (sampleWorld ℚ)
      [Event.orbitSpeedInput (2 : ℚ), Event.rotationSpeedInput 0,
        Event.realTimeToggle true, Event.frame (1 / 60)]).orbitSpeedMultiplier ∧
    0 ≤ (run approxMath (sampleData ℚ) (sampleWorld ℚ)
      [Event.orbitSpeedInput (2 : ℚ), Event.rotationSpeedInput 0,
        Event.realTimeToggle true, Event.frame (1 / 60)]).rotationSpeedMultiplier :=
  ⟨rfl, rfl, by simp [NonnegInput],
    multipliers_nonneg_of_nonneg_inputs approxMath (sampleData ℚ) (sampleWorld ℚ) _ rfl rfl
      (by simp [NonnegInput])⟩

section CameraLemmas

variable {α : Type} [LinearOrderedField α]

/-- The closure a selection builds and the step it takes at once: the camera
leaves its start by `easeOutCubic 0.02` and the closure waits for a frame. -/
theorem selectPlanet_initial (m : JSMath α) (pd : String → Option (Descriptor α))
    (w : World α) (key : String) (planet : Body α) (data : Descriptor α)
    (hp : w.planets.lookup key = some planet) (hd : pd key = some data) :
    (selectPlanet m pd w (some key)).state.transitions =
      w.transitions ++
        [{ startPosition := w.cameraPosition
           startTarget := w.controlsTarget
           cameraTarget := Vec3.addVectors planet.meshPosition (cameraOffset m key planet data)
           targetPosition := planet.meshPosition
           progress := 0.02 }] := by
  have h02 : ¬ ((1 : α) ≤ 0.02) := by norm_num
  simp [selectPlanet, updateCameraForPlanet, hp, hd, animateCamera, h02, Result.state]

/-- The follow step of the camera leaves the pending closures. -/
theorem followSelection_transitions (m : JSMath α) (pd : String → Option (Descriptor α))
    (w : World α) : (followSelection m pd w).state.transitions = w.transitions := by
  unfold followSelection
  split
  · rfl
  · split_ifs
    · unfold updateCameraForPlanet
      dsimp only
      split
      · rfl
      · split <;> rfl
    · rfl

/-- The function `animate` leaves the pending closures. -/
theorem animate_transitions (m : JSMath α) (pd : String → Option (Descriptor α))
    (delta : α) (w : World α) : (animate m pd delta w).state.transitions = w.transitions := by
  unfold animate
  cases ht : turnSun pd w with
  | none => rfl
  | some w1 =>
    dsimp only
    rw [(finishFrame_frame pd _).2.2.2.2.2.2.2.2, followSelection_transitions]
    exact (turnSun_frame pd w w1 ht).2.2.2.2.2.2.2.2.2

/-- A frame with one pending closure: the camera ends where that closure puts
it, from the values the closure captured. -/
theorem frame_single_transition (m : JSMath α) (pd : String → Option (Descriptor α))
    (delta : α) (w : World α) (t : Transition α) (ht : w.transitions = [t]) :
    (t.progress + 0.02 < 1 →
      (frame m pd delta w).cameraPosition
        = Vec3.lerpVectors t.startPosition t.cameraTarget (easeOutCubic (t.progress + 0.02)) ∧
      (frame m pd delta w).controlsTarget
        = Vec3.lerpVectors t.startTarget t.targetPosition (easeOutCubic (t.progress + 0.02)) ∧
      (frame m pd delta w).transitions = [{ t with progress := t.progress + 0.02 }]) ∧
    (1 ≤ t.progress + 0.02 →
      (frame m pd delta w).cameraPosition = t.cameraTarget ∧
      (frame m pd delta w).controlsTarget = t.targetPosition ∧
      (frame m pd delta w).transitions = []) := by
  have h := animate_transitions m pd delta w
  rw [ht] at h
  constructor
  · intro hlt
    have hn : ¬ (t.progress + 0.02 ≥ 1) := not_le.mpr hlt
    simp [frame, runTransitions, h, animateCamera, hn]
  · intro hge
    have hn : t.progress + 0.02 ≥ 1 := hge
    simp [frame, runTransitions, h, animateCamera, hn]

/-- Where the descriptor table has the sun, `animate` does not throw on it. -/
theorem turnSun_isSome (pd : String → Option (Descriptor α)) (w : World α)
    (h : (pd "sun").isSome) : (turnSun pd w).isSome := by
  unfold turnSun
  cases w.planets.lookup "sun" with
  | none => rfl
  | some sun =>
    cases hs : pd "sun" with
    | none => simp [hs] at h
    | some d => rfl

end CameraLemmas

section CameraTheorems

variable {α : Type} [LinearOrderedField α]

/-- C10, as amended. Selecting a registered body builds one camera closure
whose destination and look-at target are computed then, from the angle and the
position the body has at the selection; and in every later frame in which
that closure is the pending one, whatever the registry holds by then, the
camera is put on the line from the captured start to the captured destination
(the look-at target likewise), and in the last step on the captured
destination and target themselves. -/
theorem initial_transition_heads_for_captured_destination (m : JSMath α)
    (pd : String → Option (Descriptor α)) (w : World α) (key : String) (planet : Body α)
    (data : Descriptor α) (hp : w.planets.lookup key = some planet)
    (hd : pd key = some data) :
    (selectPlanet m pd w (some key)).state.transitions =
      w.transitions ++
        [{ startPosition := w.cameraPosition
           startTarget := w.controlsTarget
           cameraTarget := Vec3.addVectors planet.meshPosition (cameraOffset m key planet data)
           targetPosition := planet.meshPosition
           progress := 0.02 }] ∧
    ∀ (t : Transition α) (w1 : World α) (delta : α), w1.transitions = [t] →
      (t.progress + 0.02 < 1 →
        (frame m pd delta w1).cameraPosition
          = Vec3.lerpVectors t.startPosition t.cameraTarget
              (easeOutCubic (t.progress + 0.02)) ∧
        (frame m pd delta w1).controlsTarget
          = Vec3.lerpVectors t.startTarget t.targetPosition
              (easeOutCubic (t.progress + 0.02)) ∧
        (frame m pd delta w1).transitions = [{ t with progress := t.progress + 0.02 }]) ∧
      (1 ≤ t.progress + 0.02 →
        (frame m pd delta w1).cameraPosition = t.cameraTarget ∧
        (frame m pd delta w1).controlsTarget = t.targetPosition ∧
        (frame m pd delta w1).transitions = []) :=
  ⟨selectPlanet_initial m pd w key planet data hp hd,
    fun t w1 delta ht => frame_single_transition m pd delta w1 t ht⟩

end CameraTheorems

/-- The date 13 February 2023 (UTC) is day 44 of its year. -/
theorem dayOfYear_sample : dayOfYear 1676246400000 1672444800000 = 44 := by
  norm_num [dayOfYear]

/-- C10 as amended, at the sample data: mercury is selected and a frame passes. -/
theorem initial_transition_heads_for_captured_destination_witness :
    (sampleWorld ℚ).planets.lookup "mercury" = some (sampleMercury ℚ) ∧
    sampleData ℚ "mercury" = some ⟨1.5, 20, 0.04, 0.004⟩ ∧
    (selectPlanet approxMath (sampleData ℚ) (sampleWorld ℚ) (some "mercury")).state.transitions
      = (sampleWorld ℚ).transitions ++
        [{ startPosition := (sampleWorld ℚ).cameraPosition
           startTarget := (sampleWorld ℚ).controlsTarget
           cameraTarget := Vec3.addVectors (sampleMercury ℚ).meshPosition
            (cameraOffset approxMath "mercury" (sampleMercury ℚ) ⟨1.5, 20, 0.04, 0.004⟩)
           targetPosition := (sampleMercury ℚ).meshPosition
           progress := 0.02 }] :=
  ⟨rfl, rfl, (initial_transition_heads_for_captured_destination approxMath (sampleData ℚ)
    (sampleWorld ℚ) "mercury" (sampleMercury ℚ) ⟨1.5, 20, 0.04, 0.004⟩ rfl rfl).1⟩

/-- C10, the counterexample, with the real cosine, sine and π. The orbit
slider is at 0, mercury (at angle 0, position (20, 0, 0)) is selected through
the navigation list, the date is set to 13 February 2023 (mercury's angle
becomes π) and a frame passes. In that frame, the second step of the
transition, mercury is at (-20, 0, 0), yet the look-at target is put on the
segment from the origin to (20, 0, 0), the position at the selection, not on
the segment to mercury's position at that step. -/
theorem initial_transition_ignores_motion :
    ((run (⟨Real.cos, Real.sin, Real.pi⟩ : JSMath ℝ) (sampleData ℝ) (sampleWorld ℝ)
      [Event.orbitSpeedInput 0, Event.navClick (some "mercury"),
        Event.dateChange (some 1676246400000) 1672444800000,
        Event.frame (1 / 60)]).planets.lookup "mercury").map Body.meshPosition
      = some ⟨-20, 0, 0⟩ ∧
    (run (⟨Real.cos, Real.sin, Real.pi⟩ : JSMath ℝ) (sampleData ℝ) (sampleWorld ℝ)
      [Event.orbitSpeedInput 0, Event.navClick (some "mercury"),
        Event.dateChange (some 1676246400000) 1672444800000,
        Event.frame (1 / 60)]).controlsTarget
      = Vec3.lerpVectors ⟨0, 0, 0⟩ ⟨20, 0, 0⟩ (easeOutCubic 0.04) ∧
    (run (⟨Real.cos, Real.sin, Real.pi⟩ : JSMath ℝ) (sampleData ℝ) (sampleWorld ℝ)
      [Event.orbitSpeedInput 0, Event.navClick (some "mercury"),
        Event.dateChange (some 1676246400000) 1672444800000,
        Event.frame (1 / 60)]).controlsTarget
      ≠ Vec3.lerpVectors ⟨0, 0, 0⟩ ⟨-20, 0, 0⟩ (easeOutCubic 0.04) := by
  set M : JSMath ℝ := ⟨Real.cos, Real.sin, Real.pi⟩ with hM
  set w1 : World ℝ := orbitSpeedInput 0 (sampleWorld ℝ) with hw1
  set w2 : World ℝ := (selectPlanet M (sampleData ℝ) w1 (some "mercury")).state with hw2
  set w3 : World ℝ := dateChange M (some 1676246400000) 1672444800000 w2 with hw3
  have hrun : run M (sampleData ℝ) (sampleWorld ℝ)
      [Event.orbitSpeedInput 0, Event.navClick (some "mercury"),
        Event.dateChange (some 1676246400000) 1672444800000, Event.frame (1 / 60)]
      = frame M (sampleData ℝ) (1 / 60) w3 := by
    simp only [run, List.foldl_cons, List.foldl_nil, handle, navClick]
    rfl
  rw [hrun]
  have hlook1 : w1.planets.lookup "mercury" = some (sampleMercury ℝ) := rfl
  have hdata : sampleData ℝ "mercury" = some ⟨1.5, 20, 0.04, 0.004⟩ := rfl
  have hsel := selectPlanet_frame M (sampleData ℝ) w1 (some "mercury")
  have htr2 := selectPlanet_initial M (sampleData ℝ) w1 "mercury" (sampleMercury ℝ) _
    hlook1 hdata
  have htr3 : w3.transitions =
      [{ startPosition := w1.cameraPosition
         startTarget := w1.controlsTarget
         cameraTarget := Vec3.addVectors (sampleMercury ℝ).meshPosition
          (cameraOffset M "mercury" (sampleMercury ℝ) ⟨1.5, 20, 0.04, 0.004⟩)
         targetPosition := (sampleMercury ℝ).meshPosition
         progress := 0.02 }] := by
    rw [hw3]
    simp only [dateChange]
    exact htr2
  have hstep := (frame_single_transition M (sampleData ℝ) (1 / 60) w3 _ htr3).1
    (by norm_num)
  have htarget : (frame M (sampleData ℝ) (1 / 60) w3).controlsTarget
      = Vec3.lerpVectors ⟨0, 0, 0⟩ ⟨20, 0, 0⟩ (easeOutCubic 0.04) := by
    rw [hstep.2.1]
    norm_num [hw1, orbitSpeedInput, sampleWorld, sampleMercury]
  have hlook3 : w3.planets.lookup "mercury"
      = some { sampleMercury ℝ with angle := some Real.pi } := by
    rw [hw3]
    simp only [dateChange]
    rw [lookup_map_entry (fun k b => setAngleFromDay M (dayOfYear 1676246400000 1672444800000)
      k b), hsel.2.2.2.1, hlook1, dayOfYear_sample]
    simp only [Option.map_some', setAngleFromDay, orbitalPeriods, jsOr, hM]
    rw [if_neg (by decide)]
    norm_num
    ring
  have hom : w3.orbitSpeedMultiplier = 0 := by
    rw [hw3]
    simp only [dateChange]
    rw [hsel.2.2.2.2.1]
    rfl
  refine ⟨?_, htarget, ?_⟩
  · rw [frame_planets, animate_lookup M (sampleData ℝ) (1 / 60) w3 "mercury" (by decide)
      (turnSun_isSome _ _ rfl), hlook3, hom]
    simp [animateBody, orbitIncrement, hM, sampleMercury]
  · rw [htarget]
    intro h
    have hx := congrArg Vec3.x h
    norm_num [Vec3.lerpVectors, easeOutCubic] at hx

section SceneLemmas

/-- Reading a key right after it was assigned. -/
theorem lookup_assign_self {α : Type} (key : String) (body : Body α)
    (l : List (String × Body α)) : (assign key body l).lookup key = some body := by
  induction l with
  | nil => simp [assign, List.lookup]
  | cons e l ih =>
    obtain ⟨k, b⟩ := e
    by_cases hk : k = key
    · simp [assign, hk, List.lookup]
    · have : (key == k) = false := by simpa using fun h => hk h.symm
      simp [assign, hk, List.lookup, this, ih]

/-- An entry that a read finds is in the registry. -/
theorem mem_of_lookup {α : Type} (key : String) (body : Body α)
    (l : List (String × Body α)) (h : l.lookup key = some body) : (key, body) ∈ l := by
  induction l with
  | nil => simp [List.lookup] at h
  | cons e l ih =>
    obtain ⟨k, b⟩ := e
    by_cases hk : key = k
    · subst hk
      simp [List.lookup] at h
      simp [h]
    · have hb : (key == k) = false := by simpa using hk
      simp only [List.lookup, hb] at h
      exact List.mem_cons_of_mem _ (ih h)

variable {α : Type} [LinearOrderedField α]

/-- In a registry that `init()` has built, the entry under `asteroids` is the
one `createAsteroidBelt` stores. -/
theorem buildScene_asteroids (m : JSMath α) (pd : String → Option (Descriptor α))
    (random : String → α) (moonRandom : Nat → α) (cloudTexture : Bool)
    (planets : List (String × Body α))
    (h : buildScene m pd random moonRandom cloudTexture = some planets) :
    planets.lookup "asteroids" = some asteroidBelt := by
  unfold buildScene at h
  cases hb : (createSun pd []).bind (createPlanets m pd random moonRandom cloudTexture) with
  | none => simp [hb] at h
  | some l =>
    simp only [hb, Option.map_some', Option.some.injEq] at h
    subst h
    exact lookup_assign_self "asteroids" asteroidBelt l

/-- Selecting an undefined key stores it and throws on `data.name`. -/
theorem selectPlanet_undefined (m : JSMath α) (pd : String → Option (Descriptor α))
    (w : World α) :
    selectPlanet m pd w none = Result.threw { w with selectedPlanet := none } := rfl

end SceneLemmas

/-- C11, the failing input, with the real cosine, sine and π. In the registry
that `init()` builds over the sample table the mesh of the asteroid belt is
among the objects picking tests and carries no `planetKey`; a click whose
nearest hit is the belt stores the undefined key as the selection and throws,
while a click on the mesh of mars selects mars and ends normally. -/
theorem canvasClick_on_asteroid_belt_throws :
    ∃ planets : List (String × Body ℝ),
      buildScene (⟨Real.cos, Real.sin, Real.pi⟩ : JSMath ℝ) (sampleData ℝ)
        (fun _ => 1 / 2) (fun _ => 0) true = some planets ∧
      planets.lookup "asteroids" = some asteroidBelt ∧
      (asteroidBelt : Body ℝ).planetKey = none ∧
      none ∈ planetMeshes (initialWorld planets (orbitControlsUpdate Real.sqrt 20 1000)) ∧
      clickMeshes (⟨Real.cos, Real.sin, Real.pi⟩ : JSMath ℝ) (sampleData ℝ) ["asteroids"]
        (initialWorld planets (orbitControlsUpdate Real.sqrt 20 1000))
        = Result.threw { initialWorld planets (orbitControlsUpdate Real.sqrt 20 1000) with
            selectedPlanet := none } ∧
      (clickMeshes (⟨Real.cos, Real.sin, Real.pi⟩ : JSMath ℝ) (sampleData ℝ) ["mars"]
        (initialWorld planets (orbitControlsUpdate Real.sqrt 20 1000))).isOk = true ∧
      (clickMeshes (⟨Real.cos, Real.sin, Real.pi⟩ : JSMath ℝ) (sampleData ℝ) ["mars"]
        (initialWorld planets (orbitControlsUpdate Real.sqrt 20 1000))).state.selectedPlanet = some "mars" := by
  have hsome : (buildScene (⟨Real.cos, Real.sin, Real.pi⟩ : JSMath ℝ) (sampleData ℝ)
      (fun _ => 1 / 2) (fun _ => 0) true).isSome = true := rfl
  obtain ⟨planets, hb⟩ := Option.isSome_iff_exists.mp hsome
  have hbelt := buildScene_asteroids _ _ _ _ _ planets hb
  have hmars : (planets.lookup "mars").map (fun planet => planet.planetKey)
      = some (some "mars") := by
    have : ((buildScene (⟨Real.cos, Real.sin, Real.pi⟩ : JSMath ℝ) (sampleData ℝ)
        (fun _ => 1 / 2) (fun _ => 0) true).bind
        (fun l => (l.lookup "mars").map (fun planet => planet.planetKey)))
        = some (some "mars") := rfl
    rw [hb] at this
    exact this
  refine ⟨planets, hb, hbelt, rfl, ?_, ?_, ?_, ?_⟩
  · simp only [planetMeshes, initialWorld, List.mem_map]
    exact ⟨_, mem_of_lookup "asteroids" asteroidBelt planets hbelt, rfl⟩
  · simp [clickMeshes, initialWorld, hbelt, canvasClick, selectPlanet_undefined, asteroidBelt]
  · simp only [clickMeshes, initialWorld, List.filterMap_cons, hmars, List.filterMap_nil,
      canvasClick]
    exact selectPlanet_isOk _ _ _ "mars" rfl
  · simp only [clickMeshes, initialWorld, List.filterMap_cons, hmars, List.filterMap_nil,
      canvasClick]
    exact (selectPlanet_frame _ _ _ (some "mars")).2.2.1

section FrameSafety

variable {α : Type} [LinearOrderedField α]

/-- The entry under any key after the sun was turned by `r`. -/
theorem lookup_rotateSun_all (r : α) (key : String) (l : List (String × Body α)) :
    (l.map (rotateSun r)).lookup key = (l.lookup key).map (fun b =>
      if key = "sun" then { b with meshRotationY := b.meshRotationY + r } else b) := by
  have hform : rotateSun r = fun e : String × Body α =>
      (e.1, (fun (k : String) (b : Body α) =>
        if k = "sun" then { b with meshRotationY := b.meshRotationY + r } else b) e.1 e.2) := by
    funext e
    obtain ⟨k, b⟩ := e
    unfold rotateSun
    by_cases hk : k = "sun" <;> simp [hk]
  rw [hform]
  exact lookup_map_entry (fun (k : String) (b : Body α) =>
    if k = "sun" then { b with meshRotationY := b.meshRotationY + r } else b) key l

/-- The entry under any key after `animate`, when the read of
`planetData.sun` does not throw: the sun turned by some `r`, then the body of
the loop. -/
theorem animate_lookup_all (m : JSMath α) (pd : String → Option (Descriptor α))
    (delta : α) (w : World α) (key : String) (hsun : (turnSun pd w).isSome) :
    ∃ r : α, (animate m pd delta w).state.planets.lookup key =
      (w.planets.lookup key).map (fun b =>
        animateBody m w.isRealTime w.orbitSpeedMultiplier w.rotationSpeedMultiplier delta key
          (if key = "sun" then { b with meshRotationY := b.meshRotationY + r } else b)) := by
  unfold animate
  cases ht : turnSun pd w with
  | none => simp [ht] at hsun
  | some w1 =>
    dsimp only
    rw [(finishFrame_frame pd _).2.2.2.1, (followSelection_frame m pd _).2.2.2.1]
    obtain ⟨-, -, -, t4, t5, t6, -⟩ := turnSun_frame pd w w1 ht
    simp only [advanceBodies]
    rw [lookup_map_entry (fun k b => animateBody m w1.isRealTime w1.orbitSpeedMultiplier
      w1.rotationSpeedMultiplier delta k b), t4, t5, t6]
    unfold turnSun at ht
    cases hl : w.planets.lookup "sun" with
    | none =>
      simp [hl] at ht
      subst ht
      refine ⟨0, ?_⟩
      by_cases hk : key = "sun"
      · subst hk; simp [hl]
      · simp [hk]
    | some sun =>
      cases hs : pd "sun" with
      | none => simp [hl, hs] at ht
      | some sunData =>
        simp [hl, hs] at ht
        subst ht
        refine ⟨sunData.rotationSpeed * w.rotationSpeedMultiplier, ?_⟩
        simp only [lookup_rotateSun_all, Option.map_map]
        rfl

/-- The body of the loop makes no clouds, moon orbit or moon list where the
entry has none. -/
theorem animateBody_absent (m : JSMath α) (rt : Bool) (om rm delta : α) (key : String)
    (planet : Body α) :
    (planet.clouds = none → (animateBody m rt om rm delta key planet).clouds = none) ∧
    (planet.moonOrbit = none → (animateBody m rt om rm delta key planet).moonOrbit = none) ∧
    (planet.moons = none → (animateBody m rt om rm delta key planet).moons = none) := by
  unfold animateBody
  refine ⟨fun h => ?_, fun h => ?_, fun h => ?_⟩ <;> split_ifs <;> simp [h]

/-- The follow step ends normally when the selected key, if registered, has a
descriptor. -/
theorem followSelection_isOk (m : JSMath α) (pd : String → Option (Descriptor α))
    (w : World α)
    (h : ∀ key, w.selectedPlanet = some key → key ≠ "" → key ≠ "sun" →
      (w.planets.lookup key).isSome → (pd key).isSome) :
    (followSelection m pd w).isOk = true := by
  unfold followSelection
  split
  · rfl
  · next key hsel =>
    split_ifs with hk
    · cases hl : w.planets.lookup key with
      | none => simp [updateCameraForPlanet, hl, Result.isOk]
      | some planet =>
        exact updateCamera_isOk m pd w key false (h key hsel hk.1 hk.2 (by simp [hl]))
    · rfl

/-- The follow step leaves the camera when nothing is selected or the selected
key is not registered. -/
theorem followSelection_skips (m : JSMath α) (pd : String → Option (Descriptor α))
    (w : World α)
    (h : w.selectedPlanet = none ∨
      ∃ key, w.selectedPlanet = some key ∧ w.planets.lookup key = none) :
    followSelection m pd w = Result.ok w := by
  unfold followSelection
  rcases h with h | ⟨key, hsel, hl⟩
  · simp [h]
  · simp only [hsel]
    split_ifs
    · simp [updateCameraForPlanet, hl]
    · rfl

/-- The follow step throws when the selected key is registered and has no
descriptor. -/
theorem followSelection_throws (m : JSMath α) (pd : String → Option (Descriptor α))
    (w : World α) (key : String) (planet : Body α) (hsel : w.selectedPlanet = some key)
    (h1 : key ≠ "") (h2 : key ≠ "sun") (hl : w.planets.lookup key = some planet)
    (hd : pd key = none) :
    followSelection m pd w = Result.threw w := by
  unfold followSelection
  simp only [hsel]
  rw [if_pos ⟨h1, h2⟩]
  simp [updateCameraForPlanet, hl, hd]

end FrameSafety

section FrameSafetyTheorems

variable {α : Type} [LinearOrderedField α]

/-- Turning the sun and advancing the bodies keep the keys of the registry. -/
theorem advanced_lookup_none (m : JSMath α) (pd : String → Option (Descriptor α))
    (delta : α) (w w1 : World α) (ht : turnSun pd w = some w1) (key : String) :
    ((advanceBodies m delta w1).planets.lookup key = none ↔ w.planets.lookup key = none) := by
  have h1 : w1.planets.lookup key = none ↔ w.planets.lookup key = none := by
    unfold turnSun at ht
    cases hl : w.planets.lookup "sun" with
    | none => simp [hl] at ht; subst ht; rfl
    | some sun =>
      cases hs : pd "sun" with
      | none => simp [hl, hs] at ht
      | some sunData =>
        simp [hl, hs] at ht
        subst ht
        simp only [lookup_rotateSun_all, Option.map_eq_none']
  simp only [advanceBodies]
  rw [lookup_map_entry (fun k b => animateBody m w1.isRealTime w1.orbitSpeedMultiplier
    w1.rotationSpeedMultiplier delta k b), Option.map_eq_none']
  exact h1

/-- What the follow step can do: nothing, throw, or write the camera position
and the look-at target. -/
theorem followSelection_cases (m : JSMath α) (pd : String → Option (Descriptor α))
    (w : World α) :
    followSelection m pd w = Result.ok w ∨ followSelection m pd w = Result.threw w ∨
      ∃ (p t : Vec3 α),
        followSelection m pd w = Result.ok { w with cameraPosition := p, controlsTarget := t } := by
  unfold followSelection
  split
  · exact Or.inl rfl
  · next key _ =>
    split_ifs
    · unfold updateCameraForPlanet
      dsimp only
      cases w.planets.lookup key with
      | none => exact Or.inl rfl
      | some planet =>
        dsimp only
        cases pd key with
        | none => exact Or.inr (Or.inl rfl)
        | some data => exact Or.inr (Or.inr ⟨_, _, rfl⟩)
    · exact Or.inl rfl

/-- The follow step leaves the labels and the controls. -/
theorem followSelection_view (m : JSMath α) (pd : String → Option (Descriptor α))
    (w : World α) :
    (followSelection m pd w).state.labels = w.labels ∧
    (followSelection m pd w).state.showLabels = w.showLabels ∧
    (followSelection m pd w).state.controlsUpdate = w.controlsUpdate := by
  rcases followSelection_cases m pd w with h | h | ⟨p, t, h⟩ <;> rw [h] <;>
    exact ⟨rfl, rfl, rfl⟩

/-- Turning the sun and advancing the bodies leave everything but the
registry. -/
theorem advanced_view (m : JSMath α) (pd : String → Option (Descriptor α))
    (delta : α) (w w1 : World α) (ht : turnSun pd w = some w1) :
    (advanceBodies m delta w1).labels = w.labels ∧
    (advanceBodies m delta w1).showLabels = w.showLabels ∧
    (advanceBodies m delta w1).controlsUpdate = w.controlsUpdate ∧
    (advanceBodies m delta w1).cameraPosition = w.cameraPosition ∧
    (advanceBodies m delta w1).controlsTarget = w.controlsTarget ∧
    (advanceBodies m delta w1).selectedPlanet = w.selectedPlanet ∧
    (advanceBodies m delta w1).transitions = w.transitions ∧
    (advanceBodies m delta w1).orbitSpeedMultiplier = w.orbitSpeedMultiplier := by
  unfold turnSun at ht
  cases hl : w.planets.lookup "sun" with
  | none => simp [hl] at ht; subst ht; simp [advanceBodies]
  | some sun =>
    cases hs : pd "sun" with
    | none => simp [hl, hs] at ht
    | some sunData => simp [hl, hs] at ht; subst ht; simp [advanceBodies]

/-- The labels are placed without exception when they are hidden or every
labelled key has a descriptor. -/
theorem updateLabels_of (pd : String → Option (Descriptor α)) (w : World α)
    (h : w.showLabels = true → ∀ key ∈ w.labels, (pd key).isSome) :
    updateLabels pd w = true := by
  unfold updateLabels
  rw [List.all_eq_true]
  intro key hk
  by_cases hs : w.showLabels = true
  · simp [hs, h hs key hk]
  · simp [hs]

/-- The run of `animate` once the sun is turned. -/
theorem animate_eq (m : JSMath α) (pd : String → Option (Descriptor α))
    (delta : α) (w w1 : World α) (ht : turnSun pd w = some w1) :
    animate m pd delta w
      = finishFrame pd (followSelection m pd (advanceBodies m delta w1)) := by
  unfold animate
  rw [ht]

/-- C12, as amended. One run of `animate` ends normally whenever the
descriptor table has the sun (if the registry has one), the selected key (if
it is registered and neither empty nor the sun) and, while the labels are
shown, every labelled key. With no selection, or a selected key that is not
registered, the follow step leaves the camera position and the look-at target
(`updateCameraForPlanet` returns at once for a key without entry), so that
after the frame they are what `controls.update()` makes of the ones before
it; and an entry without clouds, moon orbit or moon list has none after the
frame. -/
theorem animate_completes_with_descriptors (m : JSMath α)
    (pd : String → Option (Descriptor α)) (delta : α) (w : World α)
    (hsun : (w.planets.lookup "sun").isSome → (pd "sun").isSome)
    (hsel : ∀ key, w.selectedPlanet = some key → key ≠ "" → key ≠ "sun" →
      (w.planets.lookup key).isSome → (pd key).isSome)
    (hlabels : w.showLabels = true → ∀ key ∈ w.labels, (pd key).isSome) :
    (animate m pd delta w).isOk = true ∧
    ((w.selectedPlanet = none ∨
        ∃ key, w.selectedPlanet = some key ∧ w.planets.lookup key = none) →
      followSelection m pd w = Result.ok w ∧
      (animate m pd delta w).state.cameraPosition
        = (w.controlsUpdate w.cameraPosition w.controlsTarget).1 ∧
      (animate m pd delta w).state.controlsTarget
        = (w.controlsUpdate w.cameraPosition w.controlsTarget).2) ∧
    (∀ (key : String) (isInitial : Bool), w.planets.lookup key = none →
      updateCameraForPlanet m pd w (some key) isInitial = Result.ok w) ∧
    (∀ (key : String) (planet : Body α), w.planets.lookup key = some planet →
      ∃ planet1 : Body α, (animate m pd delta w).state.planets.lookup key = some planet1 ∧
        (planet.clouds = none → planet1.clouds = none) ∧
        (planet.moonOrbit = none → planet1.moonOrbit = none) ∧
        (planet.moons = none → planet1.moons = none)) := by
  have hts : (turnSun pd w).isSome := by
    unfold turnSun
    cases hl : w.planets.lookup "sun" with
    | none => rfl
    | some sun =>
      have := hsun (by simp [hl])
      cases hs : pd "sun" with
      | none => simp [hs] at this
      | some d => rfl
  obtain ⟨w1, ht⟩ := Option.isSome_iff_exists.mp hts
  obtain ⟨v1, v2, v3, v4, v5, v6, -, -⟩ := advanced_view m pd delta w w1 ht
  have han := animate_eq m pd delta w w1 ht
  have hnone := advanced_lookup_none m pd delta w w1 ht
  refine ⟨?_, ?_, ?_, ?_⟩
  · rw [han]
    have hok : (followSelection m pd (advanceBodies m delta w1)).isOk = true := by
      apply followSelection_isOk
      intro key hk h1 h2 hreg
      apply hsel key (by rw [← v6]; exact hk) h1 h2
      cases hw : w.planets.lookup key with
      | none => rw [(hnone key).mpr hw] at hreg; simp at hreg
      | some b => rfl
    obtain ⟨f1, f2, -⟩ := followSelection_view m pd (advanceBodies m delta w1)
    cases hf : followSelection m pd (advanceBodies m delta w1) with
    | threw w3 => simp [hf, Result.isOk] at hok
    | ok w3 =>
      rw [hf] at f1 f2
      simp only [Result.state] at f1 f2
      have hl := updateLabels_of pd w3 (by
        rw [f1, f2, v1, v2]
        exact hlabels)
      simp [finishFrame, hl, Result.isOk]
  · intro h
    refine ⟨followSelection_skips m pd w h, ?_⟩
    have hskip : followSelection m pd (advanceBodies m delta w1)
        = Result.ok (advanceBodies m delta w1) := by
      apply followSelection_skips
      rcases h with h | ⟨key, hk, hl⟩
      · left; exact v6.trans h
      · right; exact ⟨key, v6.trans hk, (hnone key).mpr hl⟩
    have hl := updateLabels_of pd (advanceBodies m delta w1) (by
      rw [v1, v2]
      exact hlabels)
    rw [han, hskip]
    simp only [finishFrame, hl, if_true, Result.state]
    rw [v3, v4, v5]
    exact ⟨rfl, rfl⟩
  · intro key isInitial hl
    simp [updateCameraForPlanet, hl]
  · intro key planet hl
    obtain ⟨r, hr⟩ := animate_lookup_all m pd delta w key hts
    rw [hl] at hr
    refine ⟨_, hr, ?_⟩
    obtain ⟨a1, a2, a3⟩ := animateBody_absent m w.isRealTime w.orbitSpeedMultiplier
      w.rotationSpeedMultiplier delta key
      (if key = "sun" then { planet with meshRotationY := planet.meshRotationY + r }
        else planet)
    refine ⟨fun h => a1 ?_, fun h => a2 ?_, fun h => a3 ?_⟩ <;> split_ifs <;> exact h

end FrameSafetyTheorems

/-- Every label of the sample globals has a descriptor in the sample table. -/
theorem sample_labels (β : Type) [LinearOrderedField β] :
    ∀ label ∈ ["sun", "mercury", "earth"], (sampleData β label).isSome := by
  intro label hk
  simp only [List.mem_cons, List.mem_singleton, List.not_mem_nil, or_false] at hk
  rcases hk with h | h | h <;> subst h <;> rfl

/-- C12 as amended, at the sample data: the table has the sun and the
labelled keys, and nothing is selected. -/
theorem animate_completes_with_descriptors_witness :
    ((sampleWorld ℚ).planets.lookup "sun").isSome = true ∧
    (sampleData ℚ "sun").isSome = true ∧
    (sampleWorld ℚ).selectedPlanet = none ∧
    (sampleWorld ℚ).labels = ["sun", "mercury", "earth"] ∧
    (animate approxMath (sampleData ℚ) (1 / 60) (sampleWorld ℚ)).isOk = true ∧
    (animate approxMath (sampleData ℚ) (1 / 60) (sampleWorld ℚ)).state.cameraPosition
      = ((sampleWorld ℚ).controlsUpdate (sampleWorld ℚ).cameraPosition
          (sampleWorld ℚ).controlsTarget).1 :=
  ⟨rfl, rfl, rfl, rfl,
    (animate_completes_with_descriptors approxMath (sampleData ℚ) (1 / 60) (sampleWorld ℚ)
      (fun _ => rfl) (fun key hk => by simp [sampleWorld] at hk) (fun _ => sample_labels ℚ)).1,
    ((animate_completes_with_descriptors approxMath (sampleData ℚ) (1 / 60) (sampleWorld ℚ)
      (fun _ => rfl) (fun key hk => by simp [sampleWorld] at hk) (fun _ => sample_labels ℚ)).2.1
      (Or.inl rfl)).2.1⟩

/-- C12, the counterexample, with the real cosine, sine and π. The asteroid
belt is registered and has no descriptor; once `asteroids` is the selected
key (a navigation click stores it before `selectPlanet` throws) the next run
of `animate` throws in the follow step instead of skipping it. -/
theorem animate_throws_without_descriptor :
    (sampleWorld ℝ).planets.lookup "asteroids" ≠ none ∧
    sampleData ℝ "asteroids" = none ∧
    (navClick (⟨Real.cos, Real.sin, Real.pi⟩ : JSMath ℝ) (sampleData ℝ) (some "asteroids")
      (sampleWorld ℝ)).state.selectedPlanet = some "asteroids" ∧
    (animate (⟨Real.cos, Real.sin, Real.pi⟩ : JSMath ℝ) (sampleData ℝ) (1 / 60)
      (navClick (⟨Real.cos, Real.sin, Real.pi⟩ : JSMath ℝ) (sampleData ℝ) (some "asteroids")
        (sampleWorld ℝ)).state).isOk = false := by
  have hnav : (navClick (⟨Real.cos, Real.sin, Real.pi⟩ : JSMath ℝ) (sampleData ℝ)
      (some "asteroids") (sampleWorld ℝ)).state
      = { sampleWorld ℝ with selectedPlanet := some "asteroids" } := rfl
  refine ⟨by rw [show (sampleWorld ℝ).planets.lookup "asteroids" = some _ from rfl]; simp,
    rfl, by rw [hnav], ?_⟩
  rw [hnav]
  have hts : (turnSun (sampleData ℝ)
      { sampleWorld ℝ with selectedPlanet := some "asteroids" }).isSome :=
    turnSun_isSome _ _ rfl
  obtain ⟨w1, ht⟩ := Option.isSome_iff_exists.mp hts
  obtain ⟨-, -, t3, -⟩ := turnSun_frame _ _ w1 ht
  have hreg : (advanceBodies (⟨Real.cos, Real.sin, Real.pi⟩ : JSMath ℝ) (1 / 60)
      w1).planets.lookup "asteroids" ≠ none := by
    rw [Ne, advanced_lookup_none _ (sampleData ℝ) _ _ w1 ht "asteroids"]
    rw [show ({ sampleWorld ℝ with selectedPlanet := some "asteroids" } :
      World ℝ).planets.lookup "asteroids" = some _ from rfl]
    simp
  obtain ⟨planet, hplanet⟩ := Option.ne_none_iff_exists'.mp hreg
  unfold animate
  rw [ht]
  dsimp only
  rw [followSelection_throws _ (sampleData ℝ) _ "asteroids" planet (by exact t3)
    (by decide) (by decide) hplanet rfl]
  rfl

section OrbitLemmas

variable {α : Type} [LinearOrderedField α]

/-- The function `nextPlanet` leaves the registry. -/
theorem nextPlanet_planets (m : JSMath α) (pd : String → Option (Descriptor α))
    (w : World α) : (nextPlanet m pd w).state.planets = w.planets := by
  unfold nextPlanet
  split_ifs
  · rfl
  · rfl
  · have h := (selectPlanet_frame m pd w tourKeys[w.tour.tourIndex]?).2.2.2.1
    cases hs : selectPlanet m pd w tourKeys[w.tour.tourIndex]? with
    | threw w1 => rw [hs] at h; exact h
    | ok w1 => rw [hs] at h; exact h

/-- No listener but the date listener's and the animation frame writes the
registry. -/
theorem handle_planets (m : JSMath α) (pd : String → Option (Descriptor α))
    (w : World α) (e : Event α) (h1 : ∀ t ys, e ≠ Event.dateChange t ys)
    (h2 : ∀ delta, e ≠ Event.frame delta) :
    (handle m pd w e).planets = w.planets := by
  cases e with
  | orbitSpeedInput v => rfl
  | rotationSpeedInput v => rfl
  | realTimeToggle c => cases c <;> rfl
  | dateChange t ys => exact absurd rfl (h1 t ys)
  | tourButton =>
    simp only [handle, tourButton, startTour]
    split_ifs
    · rfl
    · exact nextPlanet_planets m pd _
  | navClick k =>
    simp only [handle, navClick]
    rw [(selectPlanet_frame m pd _ k).2.2.2.1]
    split_ifs <;> rfl
  | canvasClick hits =>
    cases hits with
    | nil => rfl
    | cons k rest => exact (selectPlanet_frame m pd w k).2.2.2.1
  | resetCamera =>
    simp only [handle, resetCamera]
    split_ifs <;> rfl
  | closePanel =>
    simp only [handle, closePanel]
    split_ifs <;> rfl
  | toggleLabels => rfl
  | timer h =>
    simp only [handle, fireTimer]
    split_ifs
    · exact nextPlanet_planets m pd _
    · rfl
  | frame delta => exact absurd rfl (h2 delta)

/-- After the loop of `animate` every entry of the planet branch with an angle
is on its orbit. -/
theorem advanceBodies_onOrbit (m : JSMath α) (delta : α) (w : World α) :
    OnOrbit m (advanceBodies m delta w).planets := by
  intro key planet a hmem h1 h2 ha
  simp only [advanceBodies, List.mem_map] at hmem
  obtain ⟨⟨k, p⟩, -, heq⟩ := hmem
  simp only [Prod.mk.injEq] at heq
  obtain ⟨hk, hp⟩ := heq
  subst hk
  subst hp
  cases hpa : p.angle with
  | none =>
    simp [animateBody, h1, h2, hpa] at ha
  | some a0 =>
    obtain ⟨hang, hpos, hdata⟩ := animateBody_orbit m w.isRealTime w.orbitSpeedMultiplier
      w.rotationSpeedMultiplier delta k p a0 h1 h2 hpa
    rw [hang] at ha
    simp only [Option.some.injEq] at ha
    rw [hpos, hdata, ha]
    exact ⟨rfl, rfl⟩

/-- After a frame, when the table has the sun, every entry of the planet
branch with an angle is on its orbit. -/
theorem frame_onOrbit (m : JSMath α) (pd : String → Option (Descriptor α))
    (delta : α) (w : World α) (hsun : (pd "sun").isSome) :
    OnOrbit m (frame m pd delta w).planets := by
  rw [frame_planets]
  obtain ⟨w1, ht⟩ := Option.isSome_iff_exists.mp (turnSun_isSome pd w hsun)
  unfold animate
  rw [ht]
  dsimp only
  rw [(finishFrame_frame pd _).2.2.2.1, (followSelection_frame m pd _).2.2.2.1]
  exact advanceBodies_onOrbit m delta w1

end OrbitLemmas

section OrbitTheorems

variable {α : Type} [LinearOrderedField α]

/-- C13, as amended. After every frame of the animation loop, whatever state
it starts from (the scene as built, a state in which a date was just set),
every planet with an angle sits at `x = cos(angle) * orbitRadius`,
`z = sin(angle) * orbitRadius`; every listener but the date listener's keeps
it so; the date listener writes the angle and leaves the position, which the
next frame derives again. -/
theorem frame_puts_planets_on_orbit (m : JSMath α) (pd : String → Option (Descriptor α))
    (hsun : (pd "sun").isSome) :
    (∀ (w : World α) (events : List (Event α)) (delta : α),
      OnOrbit m (run m pd w (events ++ [Event.frame delta])).planets) ∧
    (∀ (w : World α) (e : Event α), (∀ t ys, e ≠ Event.dateChange t ys) →
      OnOrbit m w.planets → OnOrbit m (handle m pd w e).planets) ∧
    (∀ (w : World α) (t : Option Int) (yearStart : Int) (key : String) (planet : Body α),
      w.planets.lookup key = some planet →
      ∃ planet1 : Body α, (dateChange m t yearStart w).planets.lookup key = some planet1 ∧
        planet1.meshPosition = planet.meshPosition) := by
  refine ⟨?_, ?_, ?_⟩
  · intro w events delta
    have : run m pd w (events ++ [Event.frame delta])
        = frame m pd delta (run m pd w events) := by
      simp [run, List.foldl_append, handle]
    rw [this]
    exact frame_onOrbit m pd delta _ hsun
  · intro w e he hw
    by_cases hf : ∃ delta, e = Event.frame delta
    · obtain ⟨delta, rfl⟩ := hf
      exact frame_onOrbit m pd delta w hsun
    · rw [handle_planets m pd w e he (fun delta hd => hf ⟨delta, hd⟩)]
      exact hw
  · intro w t yearStart key planet hl
    cases t with
    | none => exact ⟨planet, hl, rfl⟩
    | some time =>
      simp only [dateChange]
      rw [lookup_map_entry (fun k b => setAngleFromDay m (dayOfYear time yearStart) k b), hl]
      refine ⟨_, rfl, ?_⟩
      unfold setAngleFromDay
      split_ifs <;> rfl

end OrbitTheorems

/-- C13 as amended, at the sample data: a date is set and a frame passes. -/
theorem frame_puts_planets_on_orbit_witness :
    (sampleData ℚ "sun").isSome = true ∧
    OnOrbit approxMath (run approxMath (sampleData ℚ) (sampleWorld ℚ)
      ([Event.dateChange (some 1676246400000) 1672444800000]
        ++ [Event.frame (1 / 60)])).planets :=
  ⟨rfl, (frame_puts_planets_on_orbit approxMath (sampleData ℚ) rfl).1 (sampleWorld ℚ)
    [Event.dateChange (some 1676246400000) 1672444800000] (1 / 60)⟩

/-- C13, the counterexample, with the real cosine, sine and π. Where
`Math.random()` returns 1/2 for mercury, the scene as built has mercury at
angle π and at `x = 20`, its orbit radius, while `cos(π) * 20 = -20`; and in a
registry that holds mercury on its orbit at angle 0, setting the date to
13 February 2023 gives angle π and leaves the position `(20, 0, 0)`. -/
theorem angle_and_position_desync :
    (∃ planets : List (String × Body ℝ),
      buildScene (⟨Real.cos, Real.sin, Real.pi⟩ : JSMath ℝ) (sampleData ℝ)
        (fun _ => 1 / 2) (fun _ => 0) true = some planets ∧
      ¬ OnOrbit (⟨Real.cos, Real.sin, Real.pi⟩ : JSMath ℝ) planets) ∧
    OnOrbit (⟨Real.cos, Real.sin, Real.pi⟩ : JSMath ℝ) [("mercury", sampleMercury ℝ)] ∧
    ¬ OnOrbit (⟨Real.cos, Real.sin, Real.pi⟩ : JSMath ℝ)
      (dateChange (⟨Real.cos, Real.sin, Real.pi⟩ : JSMath ℝ) (some 1676246400000)
        1672444800000 (initialWorld [("mercury", sampleMercury ℝ)]
          (orbitControlsUpdate Real.sqrt 20 1000))).planets := by
  refine ⟨?_, ?_, ?_⟩
  · have hsome : (buildScene (⟨Real.cos, Real.sin, Real.pi⟩ : JSMath ℝ) (sampleData ℝ)
        (fun _ => 1 / 2) (fun _ => 0) true).isSome = true := rfl
    obtain ⟨planets, hb⟩ := Option.isSome_iff_exists.mp hsome
    refine ⟨planets, hb, fun hon => ?_⟩
    have hlook : (buildScene (⟨Real.cos, Real.sin, Real.pi⟩ : JSMath ℝ) (sampleData ℝ)
        (fun _ => 1 / 2) (fun _ => 0) true).bind (fun l => l.lookup "mercury")
        = some { meshPosition := ⟨20, 0, 0⟩
                 meshRotationY := 0
                 planetKey := some "mercury"
                 data := ⟨20, 0.04, 0.004⟩
                 angle := some (1 / 2 * Real.pi * 2)
                 clouds := none
                 moonOrbit := none
                 moons := none } := rfl
    rw [hb] at hlook
    have hx := (hon "mercury" _ _ (mem_of_lookup _ _ _ hlook) (by decide) (by decide) rfl).1
    have hpi : (1 / 2 * Real.pi * 2 : ℝ) = Real.pi := by ring
    simp only [hpi, Real.cos_pi] at hx
    norm_num at hx
  · intro key planet a hmem h1 h2 ha
    simp only [List.mem_singleton, Prod.mk.injEq] at hmem
    obtain ⟨-, rfl⟩ := hmem
    simp only [sampleMercury, Option.some.injEq] at ha
    subst ha
    simp [sampleMercury]
  · intro hon
    have hlook : (dateChange (⟨Real.cos, Real.sin, Real.pi⟩ : JSMath ℝ) (some 1676246400000)
        1672444800000 (initialWorld [("mercury", sampleMercury ℝ)]
          (orbitControlsUpdate Real.sqrt 20 1000))).planets.lookup "mercury"
        = some { sampleMercury ℝ with
            angle := some (((dayOfYear 1676246400000 1672444800000 : Int) : ℝ) / 88
              * Real.pi * 2) } := by
      simp only [dateChange, initialWorld]
      rw [lookup_map_entry (fun k b => setAngleFromDay (⟨Real.cos, Real.sin, Real.pi⟩ :
        JSMath ℝ) (dayOfYear 1676246400000 1672444800000) k b)]
      simp [List.lookup, setAngleFromDay, orbitalPeriods, jsOr]
    have hx := (hon "mercury" _ _ (mem_of_lookup _ _ _ hlook) (by decide) (by decide) rfl).1
    rw [dayOfYear_sample] at hx
    have hpi : (((44 : Int) : ℝ) / 88 * Real.pi * 2 : ℝ) = Real.pi := by
      push_cast; ring
    simp only [hpi, Real.cos_pi, sampleMercury] at hx
    norm_num at hx

section TransitionLemmas

variable {α : Type} [LinearOrderedField α]

/-- The camera right after a selection: the first step of the closure. -/
theorem selectPlanet_initial_camera (m : JSMath α) (pd : String → Option (Descriptor α))
    (w : World α) (key : String) (planet : Body α) (data : Descriptor α)
    (hp : w.planets.lookup key = some planet) (hd : pd key = some data) :
    (selectPlanet m pd w (some key)).state.cameraPosition
      = Vec3.lerpVectors w.cameraPosition
          (Vec3.addVectors planet.meshPosition (cameraOffset m key planet data))
          (easeOutCubic 0.02) ∧
    (selectPlanet m pd w (some key)).state.controlsTarget
      = Vec3.lerpVectors w.controlsTarget planet.meshPosition (easeOutCubic 0.02) := by
  have h02 : ¬ ((1 : α) ≤ 0.02) := by norm_num
  simp [selectPlanet, updateCameraForPlanet, hp, hd, animateCamera, h02, Result.state]

/-- Progress `0.02 * n` stays below 1 for another step exactly while
`n + 1 < 50`. -/
theorem progress_lt_one (n : Nat) (h : n + 1 < 50) : (0.02 : α) * (n : α) + 0.02 < 1 := by
  have hc : ((n : α)) + 1 < 50 := by exact_mod_cast h
  norm_num
  linarith

/-- Progress reaches 1 with step 50. -/
theorem progress_eq_one (n : Nat) (h : n + 1 = 50) : (1 : α) ≤ 0.02 * (n : α) + 0.02 := by
  have hn : n = 49 := by omega
  subst hn
  norm_num

/-- The frames of a pending closure that has taken `n` steps: it stays
pending, with progress `0.02` per step, while fewer than 50 steps are taken,
each step putting the camera on the segment to the captured destination; the
step that makes 50 puts the camera on the destination and ends the closure. -/
theorem framesAfter_transition (m : JSMath α) (pd : String → Option (Descriptor α))
    (deltas : List α) :
    ∀ (w : World α) (t : Transition α) (n : Nat), w.transitions = [t] →
      t.progress = 0.02 * (n : α) →
      (n + deltas.length < 50 →
        (framesAfter m pd w deltas).transitions
          = [{ t with progress := 0.02 * ((n + deltas.length : Nat) : α) }] ∧
        (deltas ≠ [] →
          (framesAfter m pd w deltas).cameraPosition
            = Vec3.lerpVectors t.startPosition t.cameraTarget
                (easeOutCubic (0.02 * ((n + deltas.length : Nat) : α))) ∧
          (framesAfter m pd w deltas).controlsTarget
            = Vec3.lerpVectors t.startTarget t.targetPosition
                (easeOutCubic (0.02 * ((n + deltas.length : Nat) : α))))) ∧
      (n + deltas.length = 50 → deltas ≠ [] →
        (framesAfter m pd w deltas).cameraPosition = t.cameraTarget ∧
        (framesAfter m pd w deltas).controlsTarget = t.targetPosition ∧
        (framesAfter m pd w deltas).transitions = []) := by
  induction deltas with
  | nil =>
    intro w t n ht hp
    refine ⟨fun _ => ⟨?_, fun h => absurd rfl h⟩, fun _ h => absurd rfl h⟩
    simp only [framesAfter, List.foldl_nil, List.length_nil, Nat.add_zero, ht, ← hp]
  | cons d ds ih =>
    intro w t n ht hp
    have hstep := frame_single_transition m pd d w t ht
    have hfold : framesAfter m pd w (d :: ds) = framesAfter m pd (frame m pd d w) ds := rfl
    have hprog : t.progress + 0.02 = 0.02 * ((n + 1 : Nat) : α) := by
      rw [hp]; push_cast; ring
    rw [hfold]
    constructor
    · intro hlt
      simp only [List.length_cons] at hlt
      obtain ⟨hcam, htar, htr⟩ := hstep.1 (by rw [hp]; exact progress_lt_one n (by omega))
      have hih := (ih (frame m pd d w) { t with progress := t.progress + 0.02 } (n + 1) htr
        hprog).1 (by omega)
      have hlen : n + 1 + ds.length = n + (d :: ds).length := by
        simp only [List.length_cons]; omega
      rw [hlen] at hih
      refine ⟨hih.1, fun _ => ?_⟩
      by_cases hds : ds = []
      · subst hds
        simp only [framesAfter, List.foldl_nil, List.length_singleton]
        rw [hcam, htar, hprog]
        exact ⟨rfl, rfl⟩
      · exact hih.2 hds
    · intro heq _
      simp only [List.length_cons] at heq
      by_cases hds : ds = []
      · subst hds
        simp only [List.length_nil] at heq
        simp only [framesAfter, List.foldl_nil]
        exact hstep.2 (by rw [hp]; exact progress_eq_one n (by omega))
      · have hpos : 0 < ds.length := List.length_pos.mpr hds
        obtain ⟨-, -, htr⟩ := hstep.1 (by rw [hp]; exact progress_lt_one n (by omega))
        exact (ih (frame m pd d w) { t with progress := t.progress + 0.02 } (n + 1) htr
          hprog).2 (by omega) hds

/-- A closure that has taken `n` steps is pending, with progress `0.02` per
step, after further calls while fewer than 50 steps are taken. -/
theorem closureAfter_pending (worlds : List (World α)) :
    ∀ (t : Transition α) (n : Nat), t.progress = 0.02 * (n : α) →
      n + worlds.length < 50 →
      closureAfter t worlds
        = some { t with progress := 0.02 * ((n + worlds.length : Nat) : α) } := by
  induction worlds with
  | nil =>
    intro t n hp _
    simp only [closureAfter, List.length_nil, Nat.add_zero, ← hp]
  | cons w ws ih =>
    intro t n hp hlt
    simp only [List.length_cons] at hlt
    have hnot : ¬ (t.progress + 0.02 ≥ 1) := by
      rw [hp]; exact not_le.mpr (progress_lt_one n (by omega))
    have hprog : t.progress + 0.02 = 0.02 * ((n + 1 : Nat) : α) := by
      rw [hp]; push_cast; ring
    have hnext : (animateCamera t w).2 = some { t with progress := t.progress + 0.02 } := by
      simp [animateCamera, hnot]
    simp only [closureAfter, hnext]
    have := ih { t with progress := t.progress + 0.02 } (n + 1) hprog (by omega)
    rw [this]
    have hlen : n + 1 + ws.length = n + (w :: ws).length := by
      simp only [List.length_cons]; omega
    rw [hlen]

end TransitionLemmas

section TransitionTheorems

variable {α : Type} [LinearOrderedField α]

/-- C14. In exact arithmetic, whatever the start and the destination, the
closure `animateCamera` built with progress 0 runs exactly 50 times: its call
number `k`, for `k = 1..49`, in whatever state it is made, puts the camera
position on `start + e(0.02 * k) * (destination - start)` with
`e = easeOutCubic` (the look-at target likewise, toward the body position)
and asks for another frame; call 50 reaches progress 1, puts the camera on the
destination and the look-at target on the body position exactly, and asks for
no further frame. For a selection made while no other closure is pending the
calls are the one at the selection and one in each of the next 49 frames, and
the camera is found there after each of these frames. -/
theorem initial_transition_takes_fifty_steps (m : JSMath α)
    (pd : String → Option (Descriptor α)) (w : World α) (key : String) (planet : Body α)
    (data : Descriptor α) (hp : w.planets.lookup key = some planet)
    (hd : pd key = some data) (hnone : w.transitions = []) (deltas : List α) :
    (∀ (t : Transition α) (worlds : List (World α)) (w1 : World α), t.progress = 0 →
      (worlds.length < 49 →
        ∃ t1 : Transition α, closureAfter t worlds = some t1 ∧
          (animateCamera t1 w1).1.cameraPosition
            = Vec3.lerpVectors t.startPosition t.cameraTarget
                (easeOutCubic (0.02 * ((worlds.length + 1 : Nat) : α))) ∧
          (animateCamera t1 w1).1.controlsTarget
            = Vec3.lerpVectors t.startTarget t.targetPosition
                (easeOutCubic (0.02 * ((worlds.length + 1 : Nat) : α))) ∧
          closureAfter t (worlds ++ [w1]) ≠ none) ∧
      (worlds.length = 49 →
        ∃ t1 : Transition α, closureAfter t worlds = some t1 ∧
          t1.progress + 0.02 = 1 ∧
          (animateCamera t1 w1).1.cameraPosition = t.cameraTarget ∧
          (animateCamera t1 w1).1.controlsTarget = t.targetPosition ∧
          closureAfter t (worlds ++ [w1]) = none)) ∧
    (deltas.length < 49 →
      (framesAfter m pd (selectPlanet m pd w (some key)).state deltas).cameraPosition
        = Vec3.lerpVectors w.cameraPosition
            (Vec3.addVectors planet.meshPosition (cameraOffset m key planet data))
            (easeOutCubic (0.02 * ((deltas.length + 1 : Nat) : α))) ∧
      (framesAfter m pd (selectPlanet m pd w (some key)).state deltas).controlsTarget
        = Vec3.lerpVectors w.controlsTarget planet.meshPosition
            (easeOutCubic (0.02 * ((deltas.length + 1 : Nat) : α))) ∧
      (framesAfter m pd (selectPlanet m pd w (some key)).state deltas).transitions.length
        = 1) ∧
    (deltas.length = 49 →
      (framesAfter m pd (selectPlanet m pd w (some key)).state deltas).cameraPosition
        = Vec3.addVectors planet.meshPosition (cameraOffset m key planet data) ∧
      (framesAfter m pd (selectPlanet m pd w (some key)).state deltas).controlsTarget
        = planet.meshPosition ∧
      (framesAfter m pd (selectPlanet m pd w (some key)).state deltas).transitions = []) := by
  have htr := selectPlanet_initial m pd w key planet data hp hd
  rw [hnone, List.nil_append] at htr
  have hrun := framesAfter_transition m pd deltas _ _ 1 htr (by simp)
  have hlen : 1 + deltas.length = deltas.length + 1 := by omega
  rw [hlen] at hrun
  refine ⟨?_, ?_, ?_⟩
  · intro t worlds w1 ht0
    have hp0 : t.progress = 0.02 * ((0 : Nat) : α) := by simp [ht0]
    constructor
    · intro hlt
      have h1 := closureAfter_pending worlds t 0 hp0 (by omega)
      have h2 := closureAfter_pending (worlds ++ [w1]) t 0 hp0 (by simp; omega)
      have hnot : ¬ ((0.02 : α) * ((0 + worlds.length : Nat) : α) + 0.02 ≥ 1) :=
        not_le.mpr (progress_lt_one _ (by omega))
      have hprog : (0.02 : α) * ((0 + worlds.length : Nat) : α) + 0.02
          = 0.02 * ((worlds.length + 1 : Nat) : α) := by push_cast; ring
      rw [hprog] at hnot
      refine ⟨_, h1, ?_, ?_, by rw [h2]; simp⟩
      · simp only [animateCamera, hprog, hnot, if_false]
      · simp only [animateCamera, hprog, hnot, if_false]
    · intro heq
      have h1 := closureAfter_pending worlds t 0 hp0 (by omega)
      have hge : (0.02 : α) * ((0 + worlds.length : Nat) : α) + 0.02 ≥ 1 :=
        progress_eq_one _ (by omega)
      have hone : (0.02 : α) * ((0 + worlds.length : Nat) : α) + 0.02 = 1 := by
        rw [heq]; norm_num
      refine ⟨_, h1, hone, ?_, ?_, ?_⟩
      · simp only [animateCamera, hge, if_true]
      · simp only [animateCamera, hge, if_true]
      · have hend : ∀ (ws : List (World α)) (t0 t2 : Transition α),
            closureAfter t0 ws = some t2 → (animateCamera t2 w1).2 = none →
            closureAfter t0 (ws ++ [w1]) = none := by
          intro ws
          induction ws with
          | nil =>
            intro t0 t2 h0 hn
            simp only [closureAfter, Option.some.injEq] at h0
            subst h0
            simp [closureAfter, hn]
          | cons v vs ihv =>
            intro t0 t2 h0 hn
            simp only [closureAfter, List.cons_append] at h0 ⊢
            cases hv : (animateCamera t0 v).2 with
            | none => simp [hv] at h0
            | some t3 =>
              simp only [hv] at h0 ⊢
              exact ihv t3 t2 h0 hn
        exact hend worlds t _ h1 (by simp only [animateCamera, hge, if_true])
  · intro hlt
    obtain ⟨h1, h2⟩ := hrun.1 (by omega)
    by_cases hds : deltas = []
    · subst hds
      obtain ⟨c1, c2⟩ := selectPlanet_initial_camera m pd w key planet data hp hd
      simp only [framesAfter, List.foldl_nil, List.length_nil, Nat.zero_add, Nat.cast_one,
        mul_one]
      exact ⟨c1, c2, by rw [htr]; rfl⟩
    · obtain ⟨c1, c2⟩ := h2 hds
      exact ⟨c1, c2, by rw [h1]; rfl⟩
  · intro heq
    have hds : deltas ≠ [] := by
      intro h
      rw [h] at heq
      simp at heq
    exact hrun.2 (by omega) hds

end TransitionTheorems

/-- C14 at the sample data: mercury is selected and 49 frames of a sixtieth of
a second pass. -/
theorem initial_transition_takes_fifty_steps_witness :
    (sampleWorld ℚ).planets.lookup "mercury" = some (sampleMercury ℚ) ∧
    sampleData ℚ "mercury" = some ⟨1.5, 20, 0.04, 0.004⟩ ∧
    (sampleWorld ℚ).transitions = [] ∧
    (List.replicate 49 (1 / 60 : ℚ)).length = 49 ∧
    (framesAfter approxMath (sampleData ℚ)
      (selectPlanet approxMath (sampleData ℚ) (sampleWorld ℚ) (some "mercury")).state
      (List.replicate 49 (1 / 60))).cameraPosition
      = Vec3.addVectors (sampleMercury ℚ).meshPosition
          (cameraOffset approxMath "mercury" (sampleMercury ℚ) ⟨1.5, 20, 0.04, 0.004⟩) ∧
    (framesAfter approxMath (sampleData ℚ)
      (selectPlanet approxMath (sampleData ℚ) (sampleWorld ℚ) (some "mercury")).state
      (List.replicate 49 (1 / 60))).transitions = [] :=
  ⟨rfl, rfl, rfl, by simp,
    ((initial_transition_takes_fifty_steps approxMath (sampleData ℚ) (sampleWorld ℚ)
      "mercury" (sampleMercury ℚ) ⟨1.5, 20, 0.04, 0.004⟩ rfl rfl rfl
      (List.replicate 49 (1 / 60))).2.2 (by simp)).1,
    ((initial_transition_takes_fifty_steps approxMath (sampleData ℚ) (sampleWorld ℚ)
      "mercury" (sampleMercury ℚ) ⟨1.5, 20, 0.04, 0.004⟩ rfl rfl rfl
      (List.replicate 49 (1 / 60))).2.2 (by simp)).2.2⟩

section DestinationLemmas

variable {α : Type} [LinearOrderedField α]

/-- The expression `planet.angle || 0` is the angle, or 0 where there is none. -/
theorem jsOr_zero (v : Option α) : jsOr v 0 = v.getD 0 := by
  cases v with
  | none => rfl
  | some x =>
    simp only [jsOr, Option.getD_some]
    split_ifs with h
    · exact h.symm
    · rfl

/-- The camera function without `isInitial`, on a registered key with a
descriptor: the camera moves by 0.05 toward the destination and the look-at
target by 0.1 toward the body. -/
theorem updateCamera_follow (m : JSMath α) (pd : String → Option (Descriptor α))
    (w : World α) (key : String) (planet : Body α) (data : Descriptor α)
    (hp : w.planets.lookup key = some planet) (hd : pd key = some data) :
    updateCameraForPlanet m pd w (some key) false =
      Result.ok { w with
        cameraPosition := Vec3.lerp w.cameraPosition
          (Vec3.addVectors planet.meshPosition (cameraOffset m key planet data)) 0.05
        controlsTarget := Vec3.lerp w.controlsTarget planet.meshPosition 0.1 } := by
  simp [updateCameraForPlanet, hp, hd]

end DestinationLemmas

/-- C15. With the real cosine, sine and π, for a registered body with
descriptor size `s` and `d = 8 * s`: the destination, the one the closure of a
selection captures and the one the follow step moves toward, is the body's
position plus an offset that is `(d, 0.5 * d, d)` for the sun and
`(cos(angle + 0.75π) * d, 0.4 * d, sin(angle + 0.75π) * d)` for any other key,
with angle 0 where the body has none; so for a key other than the sun's the
destination lies `0.4 * d` above the body and at horizontal distance `|d|`
from it, which is `d` as sizes are not negative, whatever the angle. -/
theorem camera_destination_offset (pd : String → Option (Descriptor ℝ)) (w : World ℝ)
    (key : String) (planet : Body ℝ) (data : Descriptor ℝ)
    (hp : w.planets.lookup key = some planet) (hd : pd key = some data) :
    (∃ t : Transition ℝ,
      (selectPlanet (⟨Real.cos, Real.sin, Real.pi⟩ : JSMath ℝ) pd w (some key)).state.transitions
        = w.transitions ++ [t] ∧
      t.cameraTarget = Vec3.addVectors planet.meshPosition
        (cameraOffset (⟨Real.cos, Real.sin, Real.pi⟩ : JSMath ℝ) key planet data)) ∧
    (updateCameraForPlanet (⟨Real.cos, Real.sin, Real.pi⟩ : JSMath ℝ) pd w (some key)
        false).state.cameraPosition
      = Vec3.lerp w.cameraPosition (Vec3.addVectors planet.meshPosition
          (cameraOffset (⟨Real.cos, Real.sin, Real.pi⟩ : JSMath ℝ) key planet data)) 0.05 ∧
    (key = "sun" →
      cameraOffset (⟨Real.cos, Real.sin, Real.pi⟩ : JSMath ℝ) key planet data
        = ⟨8 * data.size, 0.5 * (8 * data.size), 8 * data.size⟩) ∧
    (key ≠ "sun" →
      cameraOffset (⟨Real.cos, Real.sin, Real.pi⟩ : JSMath ℝ) key planet data
        = ⟨Real.cos (planet.angle.getD 0 + 0.75 * Real.pi) * (8 * data.size),
            0.4 * (8 * data.size),
            Real.sin (planet.angle.getD 0 + 0.75 * Real.pi) * (8 * data.size)⟩ ∧
      (Vec3.addVectors planet.meshPosition
        (cameraOffset (⟨Real.cos, Real.sin, Real.pi⟩ : JSMath ℝ) key planet data)).y
        - planet.meshPosition.y = 0.4 * (8 * data.size) ∧
      Real.sqrt
        (((Vec3.addVectors planet.meshPosition
            (cameraOffset (⟨Real.cos, Real.sin, Real.pi⟩ : JSMath ℝ) key planet data)).x
            - planet.meshPosition.x) ^ 2 +
          ((Vec3.addVectors planet.meshPosition
            (cameraOffset (⟨Real.cos, Real.sin, Real.pi⟩ : JSMath ℝ) key planet data)).z
            - planet.meshPosition.z) ^ 2) = |8 * data.size| ∧
      (0 ≤ data.size →
        Real.sqrt
          (((Vec3.addVectors planet.meshPosition
              (cameraOffset (⟨Real.cos, Real.sin, Real.pi⟩ : JSMath ℝ) key planet data)).x
              - planet.meshPosition.x) ^ 2 +
            ((Vec3.addVectors planet.meshPosition
              (cameraOffset (⟨Real.cos, Real.sin, Real.pi⟩ : JSMath ℝ) key planet data)).z
              - planet.meshPosition.z) ^ 2) = 8 * data.size)) := by
  refine ⟨⟨_, selectPlanet_initial _ pd w key planet data hp hd, rfl⟩, ?_, ?_, ?_⟩
  · rw [updateCamera_follow _ pd w key planet data hp hd]
    rfl
  · intro hk
    simp only [cameraOffset, hk, if_true]
    congr 1 <;> ring
  · intro hk
    have hoff : cameraOffset (⟨Real.cos, Real.sin, Real.pi⟩ : JSMath ℝ) key planet data
        = ⟨Real.cos (planet.angle.getD 0 + 0.75 * Real.pi) * (8 * data.size),
            0.4 * (8 * data.size),
            Real.sin (planet.angle.getD 0 + 0.75 * Real.pi) * (8 * data.size)⟩ := by
      simp only [cameraOffset, hk, if_false, jsOr_zero, Vec3.mk.injEq]
      refine ⟨?_, ?_, ?_⟩
      · rw [mul_comm Real.pi 0.75, mul_comm data.size 8]
      · ring
      · rw [mul_comm Real.pi 0.75, mul_comm data.size 8]
    have hsq : (Real.cos (planet.angle.getD 0 + 0.75 * Real.pi) * (8 * data.size)) ^ 2
        + (Real.sin (planet.angle.getD 0 + 0.75 * Real.pi) * (8 * data.size)) ^ 2
        = (8 * data.size) ^ 2 := by
      have := Real.cos_sq_add_sin_sq (planet.angle.getD 0 + 0.75 * Real.pi)
      calc (Real.cos (planet.angle.getD 0 + 0.75 * Real.pi) * (8 * data.size)) ^ 2
            + (Real.sin (planet.angle.getD 0 + 0.75 * Real.pi) * (8 * data.size)) ^ 2
          = (Real.cos (planet.angle.getD 0 + 0.75 * Real.pi) ^ 2
              + Real.sin (planet.angle.getD 0 + 0.75 * Real.pi) ^ 2) * (8 * data.size) ^ 2 := by
            ring
        _ = (8 * data.size) ^ 2 := by rw [this, one_mul]
    have hdist : Real.sqrt
        (((Vec3.addVectors planet.meshPosition
            (cameraOffset (⟨Real.cos, Real.sin, Real.pi⟩ : JSMath ℝ) key planet data)).x
            - planet.meshPosition.x) ^ 2 +
          ((Vec3.addVectors planet.meshPosition
            (cameraOffset (⟨Real.cos, Real.sin, Real.pi⟩ : JSMath ℝ) key planet data)).z
            - planet.meshPosition.z) ^ 2) = |8 * data.size| := by
      rw [hoff]
      simp only [Vec3.addVectors, add_sub_cancel_left]
      rw [hsq, Real.sqrt_sq_eq_abs]
    refine ⟨hoff, ?_, hdist, ?_⟩
    · rw [hoff]
      simp only [Vec3.addVectors, add_sub_cancel_left]
    · intro hs
      rw [hdist, abs_of_nonneg (by positivity)]

/-- C15 at the sample data: mercury, of size 1.5. -/
theorem camera_destination_offset_witness :
    (sampleWorld ℝ).planets.lookup "mercury" = some (sampleMercury ℝ) ∧
    sampleData ℝ "mercury" = some ⟨1.5, 20, 0.04, 0.004⟩ ∧
    "mercury" ≠ "sun" ∧ (0 : ℝ) ≤ 1.5 ∧
    Real.sqrt
      (((Vec3.addVectors (sampleMercury ℝ).meshPosition
          (cameraOffset (⟨Real.cos, Real.sin, Real.pi⟩ : JSMath ℝ) "mercury"
            (sampleMercury ℝ) ⟨1.5, 20, 0.04, 0.004⟩)).x
          - (sampleMercury ℝ).meshPosition.x) ^ 2 +
        ((Vec3.addVectors (sampleMercury ℝ).meshPosition
          (cameraOffset (⟨Real.cos, Real.sin, Real.pi⟩ : JSMath ℝ) "mercury"
            (sampleMercury ℝ) ⟨1.5, 20, 0.04, 0.004⟩)).z
          - (sampleMercury ℝ).meshPosition.z) ^ 2) = 8 * 1.5 :=
  ⟨rfl, rfl, by decide, by norm_num,
    ((camera_destination_offset (sampleData ℝ) (sampleWorld ℝ) "mercury" (sampleMercury ℝ)
      ⟨1.5, 20, 0.04, 0.004⟩ rfl rfl).2.2.2 (by decide)).2.2.2 (by norm_num)⟩

section FollowLemmas

variable {α : Type} [LinearOrderedField α]

/-- The offset of the camera from a fixed destination after `n` follow steps
is `0.95 ^ n` times the offset at the start, coordinate by coordinate. -/
theorem lerp_iterate_offset (dest : Vec3 α) (n : Nat) (old : Vec3 α) :
    ((fun c => Vec3.lerp c dest 0.05)^[n] old).x - dest.x = 0.95 ^ n * (old.x - dest.x) ∧
    ((fun c => Vec3.lerp c dest 0.05)^[n] old).y - dest.y = 0.95 ^ n * (old.y - dest.y) ∧
    ((fun c => Vec3.lerp c dest 0.05)^[n] old).z - dest.z = 0.95 ^ n * (old.z - dest.z) := by
  induction n with
  | zero => simp
  | succ k ih =>
    obtain ⟨hx, hy, hz⟩ := ih
    rw [Function.iterate_succ_apply']
    generalize (fun c => Vec3.lerp c dest 0.05)^[k] old = c at hx hy hz ⊢
    simp only [Vec3.lerp, pow_succ]
    refine ⟨?_, ?_, ?_⟩
    · linear_combination (0.95 : α) * hx
    · linear_combination (0.95 : α) * hy
    · linear_combination (0.95 : α) * hz

/-- Follow steps toward a fixed destination end on it exactly when they start
on it. -/
theorem lerp_iterate_eq_iff (dest old : Vec3 α) (n : Nat) :
    (fun c => Vec3.lerp c dest 0.05)^[n] old = dest ↔ old = dest := by
  obtain ⟨hx, hy, hz⟩ := lerp_iterate_offset dest n old
  have hpow : (0.95 : α) ^ n ≠ 0 := pow_ne_zero n (by norm_num)
  constructor
  · intro h
    rw [h] at hx hy hz
    simp only [sub_self] at hx hy hz
    have ex : old.x - dest.x = 0 := by
      rcases mul_eq_zero.mp hx.symm with h0 | h0
      · exact absurd h0 hpow
      · exact h0
    have ey : old.y - dest.y = 0 := by
      rcases mul_eq_zero.mp hy.symm with h0 | h0
      · exact absurd h0 hpow
      · exact h0
    have ez : old.z - dest.z = 0 := by
      rcases mul_eq_zero.mp hz.symm with h0 | h0
      · exact absurd h0 hpow
      · exact h0
    cases old
    cases dest
    simp only [Vec3.mk.injEq]
    exact ⟨sub_eq_zero.mp ex, sub_eq_zero.mp ey, sub_eq_zero.mp ez⟩
  · intro h
    subst h
    have key : ∀ k : Nat, (fun c => Vec3.lerp c old 0.05)^[k] old = old := by
      intro k
      induction k with
      | zero => rfl
      | succ j ih =>
        rw [Function.iterate_succ_apply', ih]
        simp [Vec3.lerp]
    exact key n

/-- With a key selected that is neither empty nor the sun's, the follow step
is the call `updateCameraForPlanet(selectedPlanet, false)`. -/
theorem followSelection_eq (m : JSMath α) (pd : String → Option (Descriptor α))
    (w : World α) (key : String) (hsel : w.selectedPlanet = some key)
    (h1 : key ≠ "") (h2 : key ≠ "sun") :
    followSelection m pd w = updateCameraForPlanet m pd w (some key) false := by
  unfold followSelection
  split
  · next h => rw [hsel] at h; exact absurd h (by simp)
  · next k hk =>
    rw [hsel] at hk
    injection hk with hk
    subst hk
    rw [if_pos ⟨h1, h2⟩]

/-- A blend of a vector with itself is that vector. -/
theorem lerp_self (v : Vec3 α) (alpha : α) : Vec3.lerp v v alpha = v := by
  cases v
  simp [Vec3.lerp]

/-- With the orbit slider at zero no angle is added. -/
theorem orbitIncrement_zero (key : String) (data : BodyData α) (rt : Bool) (om delta : α)
    (hom : om = 0) : orbitIncrement key data rt om delta = 0 := by
  subst hom
  unfold orbitIncrement
  split_ifs <;> simp

/-- A planet on its orbit keeps angle and position in a frame while the orbit
slider is at zero. -/
theorem animateBody_fixed (m : JSMath α) (rt : Bool) (om rm delta : α) (key : String)
    (planet : Body α) (a : α) (h1 : key ≠ "sun") (h2 : key ≠ "asteroids")
    (ha : planet.angle = some a) (hom : om = 0)
    (hx : planet.meshPosition.x = m.cos a * planet.data.orbitRadius)
    (hz : planet.meshPosition.z = m.sin a * planet.data.orbitRadius) :
    (animateBody m rt om rm delta key planet).angle = planet.angle ∧
    (animateBody m rt om rm delta key planet).meshPosition = planet.meshPosition ∧
    (animateBody m rt om rm delta key planet).data = planet.data := by
  obtain ⟨b1, b2, b3⟩ := animateBody_orbit m rt om rm delta key planet a h1 h2 ha
  rw [orbitIncrement_zero key planet.data rt om delta hom, add_zero] at b1 b2
  refine ⟨b1.trans ha.symm, ?_, b3⟩
  rw [b2, ← hx, ← hz]

/-- The camera offset reads the angle of the entry and nothing else of it. -/
theorem cameraOffset_angle (m : JSMath α) (key : String) (planet planet0 : Body α)
    (data : Descriptor α) (h : planet.angle = planet0.angle) :
    cameraOffset m key planet data = cameraOffset m key planet0 data := by
  unfold cameraOffset
  simp only [h]

/-- With no camera closure pending the closures of a frame do nothing. -/
theorem runTransitions_nil (w : World α) (h : w.transitions = []) : runTransitions w = w := by
  unfold runTransitions
  rw [h, List.foldl_nil]
  cases w
  dsimp only at h
  subst h
  rfl

/-- One run of `animate` with a registered key selected that has a descriptor
and is not the sun's: the body is advanced, the follow step blends camera and
target toward the advanced body, and `controls.update()` has the last word on
both. -/
theorem animate_follow (m : JSMath α) (pd : String → Option (Descriptor α))
    (delta : α) (w : World α) (key : String) (planet planet1 : Body α) (data : Descriptor α)
    (hsel : w.selectedPlanet = some key) (h1 : key ≠ "") (h2 : key ≠ "sun")
    (hp : w.planets.lookup key = some planet) (hd : pd key = some data)
    (hts : (turnSun pd w).isSome)
    (hlab : w.showLabels = true → ∀ label ∈ w.labels, (pd label).isSome)
    (hp1 : planet1 = animateBody m w.isRealTime w.orbitSpeedMultiplier
      w.rotationSpeedMultiplier delta key planet) :
    (animate m pd delta w).isOk = true ∧
    (animate m pd delta w).state.planets.lookup key = some planet1 ∧
    (animate m pd delta w).state.cameraPosition
      = (w.controlsUpdate
          (Vec3.lerp w.cameraPosition
            (Vec3.addVectors planet1.meshPosition (cameraOffset m key planet1 data)) 0.05)
          (Vec3.lerp w.controlsTarget planet1.meshPosition 0.1)).1 ∧
    (animate m pd delta w).state.controlsTarget
      = (w.controlsUpdate
          (Vec3.lerp w.cameraPosition
            (Vec3.addVectors planet1.meshPosition (cameraOffset m key planet1 data)) 0.05)
          (Vec3.lerp w.controlsTarget planet1.meshPosition 0.1)).2 ∧
    (animate m pd delta w).state.labels = w.labels ∧
    (animate m pd delta w).state.showLabels = w.showLabels ∧
    (animate m pd delta w).state.controlsUpdate = w.controlsUpdate := by
  obtain ⟨w1, ht⟩ := Option.isSome_iff_exists.mp hts
  obtain ⟨v1, v2, v3, v4, v5, v6, -, -⟩ := advanced_view m pd delta w w1 ht
  have han := animate_eq m pd delta w w1 ht
  have hlook : (advanceBodies m delta w1).planets.lookup key = some planet1 := by
    have h := animate_lookup m pd delta w key h2 hts
    rw [han, (finishFrame_frame pd _).2.2.2.1, (followSelection_frame m pd _).2.2.2.1, hp,
      Option.map_some', ← hp1] at h
    exact h
  have hfollow : followSelection m pd (advanceBodies m delta w1)
      = Result.ok { advanceBodies m delta w1 with
          cameraPosition := Vec3.lerp (advanceBodies m delta w1).cameraPosition
            (Vec3.addVectors planet1.meshPosition (cameraOffset m key planet1 data)) 0.05
          controlsTarget := Vec3.lerp (advanceBodies m delta w1).controlsTarget
            planet1.meshPosition 0.1 } := by
    rw [followSelection_eq m pd _ key (v6.trans hsel) h1 h2]
    exact updateCamera_follow m pd _ key planet1 data hlook hd
  have hl := updateLabels_of pd
    { advanceBodies m delta w1 with
      cameraPosition := Vec3.lerp (advanceBodies m delta w1).cameraPosition
        (Vec3.addVectors planet1.meshPosition (cameraOffset m key planet1 data)) 0.05
      controlsTarget := Vec3.lerp (advanceBodies m delta w1).controlsTarget
        planet1.meshPosition 0.1 } (by
      show (advanceBodies m delta w1).showLabels = true →
        ∀ label ∈ (advanceBodies m delta w1).labels, (pd label).isSome
      rw [v1, v2]
      exact hlab)
  rw [han, hfollow]
  simp only [finishFrame, hl, if_true, Result.state, Result.isOk]
  rw [v3, v4, v5]
  exact ⟨trivial, hlook, rfl, rfl, v1, v2, rfl⟩

/-- A frame with no camera closure pending is the run of `animate`. -/
theorem frame_eq_animate (m : JSMath α) (pd : String → Option (Descriptor α))
    (delta : α) (w : World α) (htr : w.transitions = []) :
    frame m pd delta w = (animate m pd delta w).state := by
  unfold frame
  exact runTransitions_nil _ ((animate_transitions m pd delta w).trans htr)

/-- Frames of a followed planet that stays where it is (orbit slider at
zero): as long as `controls.update()` leaves camera and target where the
follow step puts them, the camera after the frames is the iterated blend
toward the destination and the target the iterated blend toward the body. -/
theorem framesAfter_follow (m : JSMath α) (pd : String → Option (Descriptor α))
    (key : String) (planet0 : Body α) (a : α) (data : Descriptor α)
    (h1 : key ≠ "") (h2 : key ≠ "sun") (h3 : key ≠ "asteroids")
    (hd : pd key = some data) (hsun : (pd "sun").isSome)
    (ha : planet0.angle = some a)
    (hx : planet0.meshPosition.x = m.cos a * planet0.data.orbitRadius)
    (hz : planet0.meshPosition.z = m.sin a * planet0.data.orbitRadius)
    (dest : Vec3 α)
    (hdest : dest = Vec3.addVectors planet0.meshPosition (cameraOffset m key planet0 data))
    (deltas : List α) :
    ∀ (w : World α) (planet : Body α), w.selectedPlanet = some key →
      w.planets.lookup key = some planet → planet.angle = planet0.angle →
      planet.meshPosition = planet0.meshPosition → planet.data = planet0.data →
      (w.showLabels = true → ∀ label ∈ w.labels, (pd label).isSome) →
      w.orbitSpeedMultiplier = 0 → w.transitions = [] →
      (∀ k, k < deltas.length →
        w.controlsUpdate ((fun c => Vec3.lerp c dest 0.05)^[k + 1] w.cameraPosition)
            ((fun c => Vec3.lerp c planet0.meshPosition 0.1)^[k + 1] w.controlsTarget)
          = ((fun c => Vec3.lerp c dest 0.05)^[k + 1] w.cameraPosition,
              (fun c => Vec3.lerp c planet0.meshPosition 0.1)^[k + 1] w.controlsTarget)) →
      (framesAfter m pd w deltas).cameraPosition
        = (fun c => Vec3.lerp c dest 0.05)^[deltas.length] w.cameraPosition ∧
      (framesAfter m pd w deltas).controlsTarget
        = (fun c => Vec3.lerp c planet0.meshPosition 0.1)^[deltas.length] w.controlsTarget := by
  induction deltas with
  | nil =>
    intro w planet _ _ _ _ _ _ _ _ _
    exact ⟨rfl, rfl⟩
  | cons delta rest ih =>
    intro w planet hsel hp hang hpos hdata hlab hom htr hcu
    obtain ⟨b1, b2, b3⟩ := animateBody_fixed m w.isRealTime w.orbitSpeedMultiplier
      w.rotationSpeedMultiplier delta key planet a h2 h3 (hang.trans ha) hom
      (by rw [hpos, hdata]; exact hx) (by rw [hpos, hdata]; exact hz)
    obtain ⟨-, f1, f2, f3, f4, f5, f6⟩ := animate_follow m pd delta w key planet _ data
      hsel h1 h2 hp hd (turnSun_isSome pd w hsun) hlab rfl
    have hf := frame_eq_animate m pd delta w htr
    rw [← hf] at f1 f2 f3 f4 f5 f6
    rw [b2, cameraOffset_angle m key _ planet0 data (b1.trans hang), hpos, ← hdest] at f2 f3
    have h0 := hcu 0 (by simp)
    simp only [zero_add, Function.iterate_one] at h0
    rw [h0] at f2 f3
    dsimp only at f2 f3
    obtain ⟨c1, -, c3, c4, -⟩ := frame_controls m pd delta w
    have htr1 : (frame m pd delta w).transitions = [] := by
      rw [hf]
      exact (animate_transitions m pd delta w).trans htr
    obtain ⟨i1, i2⟩ := ih (frame m pd delta w) _ (c3.trans hsel) f1 (b1.trans hang)
      (b2.trans hpos) (b3.trans hdata) (by rw [f4, f5]; exact hlab) (c4.trans hom) htr1 (by
        intro k hk
        rw [f6, f2, f3, ← Function.iterate_succ_apply, ← Function.iterate_succ_apply]
        exact hcu (k + 1) (by simpa using hk))
    refine ⟨?_, ?_⟩
    · show (framesAfter m pd (frame m pd delta w) rest).cameraPosition = _
      rw [i1, f2, List.length_cons, Function.iterate_succ_apply]
    · show (framesAfter m pd (frame m pd delta w) rest).controlsTarget = _
      rw [i2, f3, List.length_cons, Function.iterate_succ_apply]

/-- The distance limit leaves a camera whose distance from the target is
within the limits. -/
theorem orbitControlsUpdate_within (sqrt : α → α) (position target : Vec3 α)
    (hmin : 20 ≤ sqrt ((position.x - target.x) ^ 2 + (position.y - target.y) ^ 2
      + (position.z - target.z) ^ 2))
    (hmax : sqrt ((position.x - target.x) ^ 2 + (position.y - target.y) ^ 2
      + (position.z - target.z) ^ 2) ≤ 1000) :
    orbitControlsUpdate sqrt 20 1000 position target = (position, target) := by
  unfold orbitControlsUpdate
  dsimp only
  rw [min_eq_right hmax, max_eq_right hmin,
    div_self (ne_of_gt (lt_of_lt_of_le (by norm_num) hmin))]
  cases position
  cases target
  simp

end FollowLemmas

/-- The distance limit moves a camera that is nearer than 20 to the target and
not level with it. -/
theorem orbitControlsUpdate_near (position target : Vec3 ℝ) (hy : position.y ≠ target.y)
    (hlt : (position.x - target.x) ^ 2 + (position.y - target.y) ^ 2
      + (position.z - target.z) ^ 2 < 400) :
    (orbitControlsUpdate Real.sqrt 20 1000 position target).1 ≠ position := by
  intro h
  have hS : 0 < (position.x - target.x) ^ 2 + (position.y - target.y) ^ 2
      + (position.z - target.z) ^ 2 := by
    have hpos : 0 < (position.y - target.y) ^ 2 :=
      lt_of_le_of_ne (sq_nonneg _) (Ne.symm (pow_ne_zero 2 (sub_ne_zero.mpr hy)))
    nlinarith [sq_nonneg (position.x - target.x), sq_nonneg (position.z - target.z)]
  have hr0 := Real.sqrt_pos.mpr hS
  have hr20 : Real.sqrt ((position.x - target.x) ^ 2 + (position.y - target.y) ^ 2
      + (position.z - target.z) ^ 2) < 20 := by
    rw [Real.sqrt_lt' (by norm_num)]
    norm_num
    exact hlt
  have hyy := congrArg Vec3.y h
  simp only [orbitControlsUpdate] at hyy
  rw [min_eq_right (by linarith), max_eq_left hr20.le] at hyy
  have hzero : (position.y - target.y) * (20 / Real.sqrt ((position.x - target.x) ^ 2
      + (position.y - target.y) ^ 2 + (position.z - target.z) ^ 2) - 1) = 0 := by
    linear_combination hyy
  rcases mul_eq_zero.mp hzero with h0 | h0
  · exact hy (sub_eq_zero.mp h0)
  · have hone : 20 / Real.sqrt ((position.x - target.x) ^ 2
        + (position.y - target.y) ^ 2 + (position.z - target.z) ^ 2) = 1 := by linarith
    rw [div_eq_one_iff_eq hr0.ne'] at hone
    linarith

section FollowTheorems

variable {α : Type} [LinearOrderedField α]

/-- C16, as amended. The follow step of a frame leaves the camera when nothing
is selected, or the empty key, or the sun, or a key without registry entry;
with the key of a registered body other than the sun selected it runs, and
puts the camera position on `old + 0.05 * (destination - old)` and the look-at
target on `old + 0.10 * (bodyPosition - old)`, destination and body position
being those of the body as `animate` has just advanced it in that frame.
`controls.update()` runs after it in the same frame, and camera and target
end the run of `animate` as that call leaves these two. Over frames in which
the destination is held fixed (the orbit slider at zero, the planet on its
orbit, no camera closure pending) and in which `controls.update()` leaves
camera and target where the follow step puts them, as the distance limit does
while the camera is between 20 and 1000 from the target, the offset of the
camera from the destination is multiplied by 0.95 by every frame, so the
camera is on the destination after the frames only if it was there before
them. -/
theorem follow_step_blends_toward_live_destination (m : JSMath α)
    (pd : String → Option (Descriptor α)) (delta : α) (w : World α) :
    ((w.selectedPlanet = none ∨ w.selectedPlanet = some "" ∨ w.selectedPlanet = some "sun" ∨
        ∃ key, w.selectedPlanet = some key ∧ w.planets.lookup key = none) →
      followSelection m pd w = Result.ok w) ∧
    (∀ (key : String) (planet : Body α) (data : Descriptor α),
      w.selectedPlanet = some key → key ≠ "" → key ≠ "sun" →
      w.planets.lookup key = some planet → pd key = some data →
      followSelection m pd w = Result.ok { w with
        cameraPosition := Vec3.lerp w.cameraPosition
          (Vec3.addVectors planet.meshPosition (cameraOffset m key planet data)) 0.05
        controlsTarget := Vec3.lerp w.controlsTarget planet.meshPosition 0.1 }) ∧
    (∀ (key : String) (planet : Body α) (data : Descriptor α),
      w.selectedPlanet = some key → key ≠ "" → key ≠ "sun" →
      w.planets.lookup key = some planet → pd key = some data → (turnSun pd w).isSome →
      (w.showLabels = true → ∀ label ∈ w.labels, (pd label).isSome) →
      ∃ planet1 : Body α,
        (animate m pd delta w).isOk = true ∧
        (animate m pd delta w).state.planets.lookup key = some planet1 ∧
        (animate m pd delta w).state.cameraPosition
          = (w.controlsUpdate
              (Vec3.lerp w.cameraPosition
                (Vec3.addVectors planet1.meshPosition (cameraOffset m key planet1 data)) 0.05)
              (Vec3.lerp w.controlsTarget planet1.meshPosition 0.1)).1 ∧
        (animate m pd delta w).state.controlsTarget
          = (w.controlsUpdate
              (Vec3.lerp w.cameraPosition
                (Vec3.addVectors planet1.meshPosition (cameraOffset m key planet1 data)) 0.05)
              (Vec3.lerp w.controlsTarget planet1.meshPosition 0.1)).2) ∧
    (∀ old dest : Vec3 α,
      Vec3.lerp old dest 0.05
        = ⟨old.x + 0.05 * (dest.x - old.x), old.y + 0.05 * (dest.y - old.y),
            old.z + 0.05 * (dest.z - old.z)⟩ ∧
      Vec3.lerp old dest 0.1
        = ⟨old.x + 0.10 * (dest.x - old.x), old.y + 0.10 * (dest.y - old.y),
            old.z + 0.10 * (dest.z - old.z)⟩ ∧
      (Vec3.lerp old dest 0.05).x - dest.x = 0.95 * (old.x - dest.x) ∧
      (Vec3.lerp old dest 0.05).y - dest.y = 0.95 * (old.y - dest.y) ∧
      (Vec3.lerp old dest 0.05).z - dest.z = 0.95 * (old.z - dest.z)) ∧
    (∀ (key : String) (planet : Body α) (a : α) (data : Descriptor α) (dest : Vec3 α)
        (deltas : List α),
      w.selectedPlanet = some key → key ≠ "" → key ≠ "sun" → key ≠ "asteroids" →
      w.planets.lookup key = some planet → planet.angle = some a →
      planet.meshPosition.x = m.cos a * planet.data.orbitRadius →
      planet.meshPosition.z = m.sin a * planet.data.orbitRadius →
      pd key = some data → (pd "sun").isSome →
      (w.showLabels = true → ∀ label ∈ w.labels, (pd label).isSome) →
      w.orbitSpeedMultiplier = 0 → w.transitions = [] →
      dest = Vec3.addVectors planet.meshPosition (cameraOffset m key planet data) →
      (∀ k, k < deltas.length →
        w.controlsUpdate ((fun c => Vec3.lerp c dest 0.05)^[k + 1] w.cameraPosition)
            ((fun c => Vec3.lerp c planet.meshPosition 0.1)^[k + 1] w.controlsTarget)
          = ((fun c => Vec3.lerp c dest 0.05)^[k + 1] w.cameraPosition,
              (fun c => Vec3.lerp c planet.meshPosition 0.1)^[k + 1] w.controlsTarget)) →
      (framesAfter m pd w deltas).cameraPosition
        = (fun c => Vec3.lerp c dest 0.05)^[deltas.length] w.cameraPosition ∧
      (framesAfter m pd w deltas).controlsTarget
        = (fun c => Vec3.lerp c planet.meshPosition 0.1)^[deltas.length] w.controlsTarget ∧
      (framesAfter m pd w deltas).cameraPosition.x - dest.x
        = 0.95 ^ deltas.length * (w.cameraPosition.x - dest.x) ∧
      (framesAfter m pd w deltas).cameraPosition.y - dest.y
        = 0.95 ^ deltas.length * (w.cameraPosition.y - dest.y) ∧
      (framesAfter m pd w deltas).cameraPosition.z - dest.z
        = 0.95 ^ deltas.length * (w.cameraPosition.z - dest.z) ∧
      ((framesAfter m pd w deltas).cameraPosition = dest ↔ w.cameraPosition = dest)) ∧
    (∀ (sqrt : α → α) (position target : Vec3 α),
      20 ≤ sqrt ((position.x - target.x) ^ 2 + (position.y - target.y) ^ 2
        + (position.z - target.z) ^ 2) →
      sqrt ((position.x - target.x) ^ 2 + (position.y - target.y) ^ 2
        + (position.z - target.z) ^ 2) ≤ 1000 →
      orbitControlsUpdate sqrt 20 1000 position target = (position, target)) := by
  refine ⟨?_, ?_, ?_, ?_, ?_, ?_⟩
  · rintro (h | h | h | h)
    · exact followSelection_skips m pd w (Or.inl h)
    · simp [followSelection, h]
    · simp [followSelection, h]
    · exact followSelection_skips m pd w (Or.inr h)
  · intro key planet data hsel h1 h2 hp hd
    rw [followSelection_eq m pd w key hsel h1 h2]
    exact updateCamera_follow m pd w key planet data hp hd
  · intro key planet data hsel h1 h2 hp hd hts hlab
    obtain ⟨f0, f1, f2, f3, -⟩ := animate_follow m pd delta w key planet _ data
      hsel h1 h2 hp hd hts hlab rfl
    exact ⟨_, f0, f1, f2, f3⟩
  · intro old dest
    simp only [Vec3.lerp, Vec3.mk.injEq]
    refine ⟨⟨?_, ?_, ?_⟩, ⟨?_, ?_, ?_⟩, ?_, ?_, ?_⟩ <;> ring
  · intro key planet a data dest deltas hsel h1 h2 h3 hp ha hx hz hd hsun hlab hom htr
      hdest hcu
    obtain ⟨i1, i2⟩ := framesAfter_follow m pd key planet a data h1 h2 h3 hd hsun ha hx hz
      dest hdest deltas w planet hsel hp rfl rfl rfl hlab hom htr hcu
    obtain ⟨ox, oy, oz⟩ := lerp_iterate_offset dest deltas.length w.cameraPosition
    refine ⟨i1, i2, ?_, ?_, ?_, ?_⟩
    · rw [i1]; exact ox
    · rw [i1]; exact oy
    · rw [i1]; exact oz
    · rw [i1]; exact lerp_iterate_eq_iff dest w.cameraPosition deltas.length
  · intro sqrt position target hmin hmax
    exact orbitControlsUpdate_within sqrt position target hmin hmax

end FollowTheorems

/-- From the camera and target of `init()`, a follow step toward mercury
leaves the camera between 20 and 1000 from the target, where the distance
limit leaves both. -/
theorem sampleFollow_within :
    orbitControlsUpdate Real.sqrt 20 1000
        (Vec3.lerp ⟨100, 80, 150⟩
          (Vec3.addVectors (sampleMercury ℝ).meshPosition
            (cameraOffset ⟨Real.cos, Real.sin, Real.pi⟩ "mercury" (sampleMercury ℝ)
              ⟨1.5, 20, 0.04, 0.004⟩)) 0.05)
        (Vec3.lerp ⟨0, 0, 0⟩ (sampleMercury ℝ).meshPosition 0.1)
      = (Vec3.lerp ⟨100, 80, 150⟩
          (Vec3.addVectors (sampleMercury ℝ).meshPosition
            (cameraOffset ⟨Real.cos, Real.sin, Real.pi⟩ "mercury" (sampleMercury ℝ)
              ⟨1.5, 20, 0.04, 0.004⟩)) 0.05,
          Vec3.lerp ⟨0, 0, 0⟩ (sampleMercury ℝ).meshPosition 0.1) := by
  have hk : ¬ ("mercury" = "sun") := by decide
  have hdest : Vec3.addVectors (sampleMercury ℝ).meshPosition
      (cameraOffset ⟨Real.cos, Real.sin, Real.pi⟩ "mercury" (sampleMercury ℝ)
        ⟨1.5, 20, 0.04, 0.004⟩)
      = ⟨20 + Real.cos (0 + Real.pi * 0.75) * (1.5 * 8), 0 + 1.5 * 8 * 0.4,
          0 + Real.sin (0 + Real.pi * 0.75) * (1.5 * 8)⟩ := by
    simp only [sampleMercury, Vec3.addVectors, cameraOffset, hk, if_false, jsOr_zero,
      Option.getD_some]
  have htarget : (sampleMercury ℝ).meshPosition = ⟨20, 0, 0⟩ := rfl
  have hcs := Real.cos_sq_add_sin_sq (0 + Real.pi * 0.75)
  have hc1 := Real.neg_one_le_cos (0 + Real.pi * 0.75)
  have hc2 := Real.cos_le_one (0 + Real.pi * 0.75)
  have hs1 := Real.neg_one_le_sin (0 + Real.pi * 0.75)
  have hs2 := Real.sin_le_one (0 + Real.pi * 0.75)
  rw [hdest, htarget]
  apply orbitControlsUpdate_within
  · rw [Real.le_sqrt' (by norm_num)]
    simp only [Vec3.lerp]
    nlinarith [hcs, hc1, hc2, hs1, hs2]
  · rw [Real.sqrt_le_iff]
    refine ⟨by norm_num, ?_⟩
    simp only [Vec3.lerp]
    nlinarith [hcs, hc1, hc2, hs1, hs2]

/-- C16 as amended, at the sample data. With exact rational arithmetic the
earth is followed over two frames with the orbit slider at zero and controls
that leave the camera; with the real cosine, sine, π and square root mercury
is followed for a frame from the camera and target of `init()`, under the
distance limits of `init()`. -/
theorem follow_step_blends_toward_live_destination_witness :
    (({ sampleWorld ℚ with selectedPlanet := some "earth", orbitSpeedMultiplier := 0 } :
      World ℚ).planets.lookup "earth" = some (sampleEarth ℚ) ∧
    (sampleEarth ℚ).angle = some 1 ∧
    sampleData ℚ "earth" = some ⟨2.8, 45, 0.01, 0.02⟩ ∧
    (framesAfter approxMath (sampleData ℚ)
        { sampleWorld ℚ with selectedPlanet := some "earth", orbitSpeedMultiplier := 0 }
        [1 / 60, 1 / 60]).cameraPosition
      = (fun c => Vec3.lerp c
          (Vec3.addVectors (sampleEarth ℚ).meshPosition
            (cameraOffset approxMath "earth" (sampleEarth ℚ) ⟨2.8, 45, 0.01, 0.02⟩))
          0.05)^[2] (sampleWorld ℚ).cameraPosition) ∧
    (({ sampleFollowWorld ℝ ⟨Real.cos, Real.sin, Real.pi⟩ Real.sqrt with
        cameraPosition := ⟨100, 80, 150⟩, controlsTarget := ⟨0, 0, 0⟩ } :
      World ℝ).planets.lookup "mercury" = some (sampleMercury ℝ) ∧
    (sampleMercury ℝ).angle = some 0 ∧
    sampleData ℝ "mercury" = some ⟨1.5, 20, 0.04, 0.004⟩ ∧
    (framesAfter ⟨Real.cos, Real.sin, Real.pi⟩ (sampleData ℝ)
        { sampleFollowWorld ℝ ⟨Real.cos, Real.sin, Real.pi⟩ Real.sqrt with
          cameraPosition := ⟨100, 80, 150⟩, controlsTarget := ⟨0, 0, 0⟩ }
        [1 / 60]).cameraPosition
      = Vec3.lerp ⟨100, 80, 150⟩
          (Vec3.addVectors (sampleMercury ℝ).meshPosition
            (cameraOffset ⟨Real.cos, Real.sin, Real.pi⟩ "mercury" (sampleMercury ℝ)
              ⟨1.5, 20, 0.04, 0.004⟩)) 0.05) :=
  ⟨⟨rfl, rfl, rfl,
    ((follow_step_blends_toward_live_destination approxMath (sampleData ℚ) (1 / 60)
      { sampleWorld ℚ with selectedPlanet := some "earth", orbitSpeedMultiplier := 0 }).2.2.2.2.1
      "earth" (sampleEarth ℚ) 1 ⟨2.8, 45, 0.01, 0.02⟩ _ [1 / 60, 1 / 60]
      rfl (by decide) (by decide) (by decide) rfl rfl
      (by norm_num [sampleEarth, approxMath]) (by norm_num [sampleEarth, approxMath])
      rfl rfl (fun _ => sample_labels ℚ) rfl rfl rfl (fun _ _ => rfl)).1⟩,
   ⟨rfl, rfl, rfl,
    ((follow_step_blends_toward_live_destination ⟨Real.cos, Real.sin, Real.pi⟩ (sampleData ℝ)
      (1 / 60)
      { sampleFollowWorld ℝ ⟨Real.cos, Real.sin, Real.pi⟩ Real.sqrt with
        cameraPosition := ⟨100, 80, 150⟩, controlsTarget := ⟨0, 0, 0⟩ }).2.2.2.2.1
      "mercury" (sampleMercury ℝ) 0 ⟨1.5, 20, 0.04, 0.004⟩ _ [1 / 60]
      rfl (by decide) (by decide) (by decide) rfl rfl
      (by
        show (sampleMercury ℝ).meshPosition.x = Real.cos 0 * (sampleMercury ℝ).data.orbitRadius
        rw [Real.cos_zero]
        norm_num [sampleMercury])
      (by
        show (sampleMercury ℝ).meshPosition.z = Real.sin 0 * (sampleMercury ℝ).data.orbitRadius
        rw [Real.sin_zero]
        norm_num [sampleMercury])
      rfl rfl (fun _ => sample_labels ℝ) rfl rfl rfl
      (fun k hk => by
        have hk0 : k = 0 := by simpa using hk
        subst hk0
        exact sampleFollow_within)).1⟩⟩

/-- C16, the counterexample, with the real cosine, sine, π and square root.
Mercury (size 1.5) is followed, the orbit slider at zero, the camera on
mercury's follow destination and the target on mercury, the distance limits
those of `init()`. The frame runs the follow step on a destination that is
where the camera is, and ends with the camera elsewhere: the destination is
nearer than 20 to the target, and `controls.update()` moves the camera out. -/
theorem follow_frame_leaves_destination :
    (sampleFollowWorld ℝ ⟨Real.cos, Real.sin, Real.pi⟩ Real.sqrt).selectedPlanet
      = some "mercury" ∧
    (sampleFollowWorld ℝ ⟨Real.cos, Real.sin, Real.pi⟩ Real.sqrt).planets.lookup "mercury"
      = some (sampleMercury ℝ) ∧
    sampleData ℝ "mercury" = some ⟨1.5, 20, 0.04, 0.004⟩ ∧
    (sampleFollowWorld ℝ ⟨Real.cos, Real.sin, Real.pi⟩ Real.sqrt).transitions = [] ∧
    (animate ⟨Real.cos, Real.sin, Real.pi⟩ (sampleData ℝ) (1 / 60)
      (sampleFollowWorld ℝ ⟨Real.cos, Real.sin, Real.pi⟩ Real.sqrt)).isOk = true ∧
    (∃ planet1 : Body ℝ,
      (frame ⟨Real.cos, Real.sin, Real.pi⟩ (sampleData ℝ) (1 / 60)
        (sampleFollowWorld ℝ ⟨Real.cos, Real.sin, Real.pi⟩ Real.sqrt)).planets.lookup "mercury"
        = some planet1 ∧
      Vec3.addVectors planet1.meshPosition
          (cameraOffset ⟨Real.cos, Real.sin, Real.pi⟩ "mercury" planet1 ⟨1.5, 20, 0.04, 0.004⟩)
        = (sampleFollowWorld ℝ ⟨Real.cos, Real.sin, Real.pi⟩ Real.sqrt).cameraPosition ∧
      (frame ⟨Real.cos, Real.sin, Real.pi⟩ (sampleData ℝ) (1 / 60)
        (sampleFollowWorld ℝ ⟨Real.cos, Real.sin, Real.pi⟩ Real.sqrt)).cameraPosition
        ≠ Vec3.lerp (sampleFollowWorld ℝ ⟨Real.cos, Real.sin, Real.pi⟩ Real.sqrt).cameraPosition
            (Vec3.addVectors planet1.meshPosition
              (cameraOffset ⟨Real.cos, Real.sin, Real.pi⟩ "mercury" planet1
                ⟨1.5, 20, 0.04, 0.004⟩)) 0.05) ∧
    (frame ⟨Real.cos, Real.sin, Real.pi⟩ (sampleData ℝ) (1 / 60)
      (sampleFollowWorld ℝ ⟨Real.cos, Real.sin, Real.pi⟩ Real.sqrt)).cameraPosition
      ≠ (sampleFollowWorld ℝ ⟨Real.cos, Real.sin, Real.pi⟩ Real.sqrt).cameraPosition := by
  have hx : (sampleMercury ℝ).meshPosition.x
      = Real.cos 0 * (sampleMercury ℝ).data.orbitRadius := by
    rw [Real.cos_zero]
    norm_num [sampleMercury]
  have hz : (sampleMercury ℝ).meshPosition.z
      = Real.sin 0 * (sampleMercury ℝ).data.orbitRadius := by
    rw [Real.sin_zero]
    norm_num [sampleMercury]
  obtain ⟨b1, b2, -⟩ := animateBody_fixed (⟨Real.cos, Real.sin, Real.pi⟩ : JSMath ℝ)
    (sampleFollowWorld ℝ ⟨Real.cos, Real.sin, Real.pi⟩ Real.sqrt).isRealTime
    (sampleFollowWorld ℝ ⟨Real.cos, Real.sin, Real.pi⟩ Real.sqrt).orbitSpeedMultiplier
    (sampleFollowWorld ℝ ⟨Real.cos, Real.sin, Real.pi⟩ Real.sqrt).rotationSpeedMultiplier
    (1 / 60) "mercury" (sampleMercury ℝ) 0 (by decide) (by decide) rfl rfl hx hz
  obtain ⟨f0, f1, f2, -⟩ := animate_follow (⟨Real.cos, Real.sin, Real.pi⟩ : JSMath ℝ)
    (sampleData ℝ) (1 / 60) (sampleFollowWorld ℝ ⟨Real.cos, Real.sin, Real.pi⟩ Real.sqrt)
    "mercury" (sampleMercury ℝ) _ ⟨1.5, 20, 0.04, 0.004⟩ rfl (by decide) (by decide) rfl rfl
    (turnSun_isSome _ _ rfl) (fun _ => sample_labels ℝ) rfl
  have hf := frame_eq_animate (⟨Real.cos, Real.sin, Real.pi⟩ : JSMath ℝ) (sampleData ℝ)
    (1 / 60) (sampleFollowWorld ℝ ⟨Real.cos, Real.sin, Real.pi⟩ Real.sqrt) rfl
  rw [← hf] at f1 f2
  have hdest : Vec3.addVectors
      (animateBody (⟨Real.cos, Real.sin, Real.pi⟩ : JSMath ℝ)
        (sampleFollowWorld ℝ ⟨Real.cos, Real.sin, Real.pi⟩ Real.sqrt).isRealTime
        (sampleFollowWorld ℝ ⟨Real.cos, Real.sin, Real.pi⟩ Real.sqrt).orbitSpeedMultiplier
        (sampleFollowWorld ℝ ⟨Real.cos, Real.sin, Real.pi⟩ Real.sqrt).rotationSpeedMultiplier
        (1 / 60) "mercury" (sampleMercury ℝ)).meshPosition
      (cameraOffset ⟨Real.cos, Real.sin, Real.pi⟩ "mercury"
        (animateBody (⟨Real.cos, Real.sin, Real.pi⟩ : JSMath ℝ)
          (sampleFollowWorld ℝ ⟨Real.cos, Real.sin, Real.pi⟩ Real.sqrt).isRealTime
          (sampleFollowWorld ℝ ⟨Real.cos, Real.sin, Real.pi⟩ Real.sqrt).orbitSpeedMultiplier
          (sampleFollowWorld ℝ ⟨Real.cos, Real.sin, Real.pi⟩ Real.sqrt).rotationSpeedMultiplier
          (1 / 60) "mercury" (sampleMercury ℝ)) ⟨1.5, 20, 0.04, 0.004⟩)
      = (sampleFollowWorld ℝ ⟨Real.cos, Real.sin, Real.pi⟩ Real.sqrt).cameraPosition := by
    rw [b2, cameraOffset_angle _ "mercury" _ (sampleMercury ℝ) _ b1]
    rfl
  have hmoved : (frame ⟨Real.cos, Real.sin, Real.pi⟩ (sampleData ℝ) (1 / 60)
      (sampleFollowWorld ℝ ⟨Real.cos, Real.sin, Real.pi⟩ Real.sqrt)).cameraPosition
      ≠ (sampleFollowWorld ℝ ⟨Real.cos, Real.sin, Real.pi⟩ Real.sqrt).cameraPosition := by
    rw [f2, hdest, b2]
    show (orbitControlsUpdate Real.sqrt 20 1000
      (Vec3.lerp (sampleFollowWorld ℝ ⟨Real.cos, Real.sin, Real.pi⟩ Real.sqrt).cameraPosition
        (sampleFollowWorld ℝ ⟨Real.cos, Real.sin, Real.pi⟩ Real.sqrt).cameraPosition 0.05)
      (Vec3.lerp (sampleMercury ℝ).meshPosition (sampleMercury ℝ).meshPosition 0.1)).1 ≠ _
    rw [lerp_self, lerp_self]
    have hk : ¬ ("mercury" = "sun") := by decide
    have hcam : (sampleFollowWorld ℝ ⟨Real.cos, Real.sin, Real.pi⟩ Real.sqrt).cameraPosition
        = ⟨20 + Real.cos (0 + Real.pi * 0.75) * (1.5 * 8), 0 + 1.5 * 8 * 0.4,
            0 + Real.sin (0 + Real.pi * 0.75) * (1.5 * 8)⟩ := by
      simp only [sampleFollowWorld, sampleMercury, Vec3.addVectors, cameraOffset, hk, if_false,
        jsOr_zero, Option.getD_some]
    have htarget : (sampleMercury ℝ).meshPosition = ⟨20, 0, 0⟩ := rfl
    rw [hcam, htarget]
    apply orbitControlsUpdate_near
    · dsimp only
      norm_num
    · have hcs := Real.cos_sq_add_sin_sq (0 + Real.pi * 0.75)
      dsimp only
      nlinarith [hcs]
  refine ⟨rfl, rfl, rfl, rfl, f0, ⟨_, f1, hdest, ?_⟩, hmoved⟩
  rw [hdest, lerp_self]
  exact hmoved

end SolarSystem
